import Mathlib

/-! Notepad++ dark mode (PowerEditor/src/NppDarkMode.cpp)

A shallow embedding of the colour registry, its GDI resource bookkeeping, the
dark-mode refresh logic, the menubar message hook, the control subclass
procedures and the tree-view style selection, followed by theorems about them.

Conventions of the embedding
* `COLORREF`, window messages, `WPARAM`, ... are natural numbers; handles are
  natural numbers with `0` for `nullptr`.
* Namespace-level globals of the C++ file are fields of an explicit state that
  is passed in and returned.
* Calls into Win32 that only have an effect on the screen or on another window
  are recorded, in call order, in a list of `Effect` values.
* GDI objects live in an explicit table `Gdi`; creating an object always
  succeeds and returns a handle that was never used before.
-/

namespace NppDarkMode

/-! ## Basic types -/

abbrev COLORREF := Nat
abbrev HANDLE := Nat
abbrev HWND := Nat
abbrev WORD := Nat

/-- Modelled from the spec: the enumeration `ColorTone` is declared in
NppDarkMode.h, which is not among the sources. A value of the enumeration is an
integer (the configuration loader casts an arbitrary integer to it). -/
abbrev ColorTone := Int

/-- Modelled from the spec: enumerator of `ColorTone` (NppDarkMode.h). -/
def blackTone : ColorTone := 0
/-- Modelled from the spec: enumerator of `ColorTone` (NppDarkMode.h). -/
def redTone : ColorTone := 1
/-- Modelled from the spec: enumerator of `ColorTone` (NppDarkMode.h). -/
def greenTone : ColorTone := 2
/-- Modelled from the spec: enumerator of `ColorTone` (NppDarkMode.h). -/
def blueTone : ColorTone := 3
/-- Modelled from the spec: enumerator of `ColorTone` (NppDarkMode.h). -/
def purpleTone : ColorTone := 4
/-- Modelled from the spec: enumerator of `ColorTone` (NppDarkMode.h). -/
def cyanTone : ColorTone := 5
/-- Modelled from the spec: enumerator of `ColorTone` (NppDarkMode.h). -/
def oliveTone : ColorTone := 6
/-- Modelled from the spec: enumerator of `ColorTone` (NppDarkMode.h). -/
def customizedTone : ColorTone := 32

/-- Modelled from the spec: the structure `Colors` is declared in NppDarkMode.h,
which is not among the sources; its ten members are the ones the initialisers
and accessors of NppDarkMode.cpp name, in initialiser order. -/
structure Colors where
  background : COLORREF
  softerBackground : COLORREF
  hotBackground : COLORREF
  pureBackground : COLORREF
  errorBackground : COLORREF
  text : COLORREF
  darkerText : COLORREF
  disabledText : COLORREF
  linkText : COLORREF
  edge : COLORREF
deriving DecidableEq, Repr

/-- Modelled from the spec: the structure `Options` is declared in
NppDarkMode.h, which is not among the sources; `enable` and `enableMenubar` are
the two members NppDarkMode.cpp reads and writes. -/
structure Options where
  enable : Bool := false
  enableMenubar : Bool := false
deriving DecidableEq, Repr

/-- Modelled from the spec: the macro `HEXRGB` is defined in NppDarkMode.h,
which is not among the sources; it turns `0xRRGGBB` into a `COLORREF`
(`0x00BBGGRR`) by exchanging the red and the blue byte. -/
def HEXRGB (hex : Nat) : COLORREF :=
  ((hex &&& 0xFF0000) >>> 16) ||| (hex &&& 0x00FF00) ||| ((hex &&& 0x0000FF) <<< 16)

def BKLUMINANCE_BRIGHTER : WORD := 140
def BKLUMINANCE_SOFTER : WORD := 80
def EDGELUMINANCE_BRIGHTER : WORD := 220
def EDGELUMINANCE_DARKER : WORD := 60

/-- The two colour-space conversions of Shlwapi used by `lightColor`.
`ColorRGBToHLS c` yields hue, luminance and saturation, in that order. -/
structure Shlwapi where
  ColorRGBToHLS : COLORREF → WORD × WORD × WORD
  ColorHLSToRGB : WORD → WORD → WORD → COLORREF

def lightColor (api : Shlwapi) (color : COLORREF) (luminance : WORD) : COLORREF :=
  let hls := api.ColorRGBToHLS color
  let h := hls.1
  let s := hls.2.2
  let l := luminance
  api.ColorHLSToRGB h l s

/-! ## The GDI object table -/

inductive GdiKind where
  | brush
  | pen (style : Nat) (width : Nat)
deriving DecidableEq, Repr

structure GdiObject where
  handle : HANDLE
  kind : GdiKind
  color : COLORREF
deriving DecidableEq, Repr

/-- The GDI objects of the process: `live` are the objects created and not yet
deleted, `deleted` lists the arguments of `DeleteObject` in call order, and
`next` is the last handle value handed out. -/
structure Gdi where
  next : Nat := 0
  live : List GdiObject := []
  deleted : List HANDLE := []
deriving DecidableEq, Repr

def PS_SOLID : Nat := 0

def CreateSolidBrush (g : Gdi) (color : COLORREF) : HANDLE × Gdi :=
  (g.next + 1,
   { g with next := g.next + 1, live := g.live ++ [⟨g.next + 1, GdiKind.brush, color⟩] })

def CreatePen (g : Gdi) (style width : Nat) (color : COLORREF) : HANDLE × Gdi :=
  (g.next + 1,
   { g with next := g.next + 1, live := g.live ++ [⟨g.next + 1, GdiKind.pen style width, color⟩] })

def DeleteObject (g : Gdi) (h : HANDLE) : Gdi :=
  { g with live := g.live.filter (fun o => o.handle != h), deleted := g.deleted ++ [h] }

/-- Is `h` the handle of an object that exists in `g`? -/
def Gdi.isLive (g : Gdi) (h : HANDLE) : Bool :=
  g.live.any (fun o => o.handle == h)

/-- Number of calls of `DeleteObject` with argument `h`. -/
def Gdi.deleteCount (g : Gdi) (h : HANDLE) : Nat :=
  g.deleted.count h

/-! ## Brushes, pens and themes -/

structure Brushes where
  background : HANDLE := 0
  softerBackground : HANDLE := 0
  hotBackground : HANDLE := 0
  pureBackground : HANDLE := 0
  errorBackground : HANDLE := 0
  hardlightBackground : HANDLE := 0
  softlightBackground : HANDLE := 0
  textColorBrush : HANDLE := 0
  darkerTextColorBrush : HANDLE := 0
  edgeBackground : HANDLE := 0
  lightEdgeBackground : HANDLE := 0
  darkEdgeBackground : HANDLE := 0
deriving DecidableEq, Repr

/-- The twelve handles of a `Brushes` value, in declaration order. -/
def Brushes.handles (b : Brushes) : List HANDLE :=
  [b.background, b.softerBackground, b.hotBackground, b.pureBackground, b.errorBackground,
   b.hardlightBackground, b.softlightBackground, b.textColorBrush, b.darkerTextColorBrush,
   b.edgeBackground, b.lightEdgeBackground, b.darkEdgeBackground]

/-- The member initialisers of `Brushes::Brushes`, and equally the twelve
assignments of `Brushes::change`: twelve `CreateSolidBrush` calls in member
order. -/
def Brushes.createAll (api : Shlwapi) (colors : Colors) (g : Gdi) : Brushes × Gdi :=
  let r1 := CreateSolidBrush g colors.background
  let r2 := CreateSolidBrush r1.2 colors.softerBackground
  let r3 := CreateSolidBrush r2.2 colors.hotBackground
  let r4 := CreateSolidBrush r3.2 colors.pureBackground
  let r5 := CreateSolidBrush r4.2 colors.errorBackground
  let r6 := CreateSolidBrush r5.2 (lightColor api colors.background BKLUMINANCE_BRIGHTER)
  let r7 := CreateSolidBrush r6.2 (lightColor api colors.background BKLUMINANCE_SOFTER)
  let r8 := CreateSolidBrush r7.2 colors.text
  let r9 := CreateSolidBrush r8.2 colors.darkerText
  let r10 := CreateSolidBrush r9.2 colors.edge
  let r11 := CreateSolidBrush r10.2 (lightColor api colors.edge EDGELUMINANCE_BRIGHTER)
  let r12 := CreateSolidBrush r11.2 (lightColor api colors.edge EDGELUMINANCE_DARKER)
  ({ background := r1.1, softerBackground := r2.1, hotBackground := r3.1,
     pureBackground := r4.1, errorBackground := r5.1, hardlightBackground := r6.1,
     softlightBackground := r7.1, textColorBrush := r8.1, darkerTextColorBrush := r9.1,
     edgeBackground := r10.1, lightEdgeBackground := r11.1, darkEdgeBackground := r12.1 },
   r12.2)

/-- The constructor `Brushes::Brushes(const Colors&)`. -/
def Brushes.new (api : Shlwapi) (colors : Colors) (g : Gdi) : Brushes × Gdi :=
  Brushes.createAll api colors g

/-- The nine `DeleteObject` calls that open `Brushes::change`. -/
def Brushes.deleteForChange (b : Brushes) (g : Gdi) : Gdi :=
  let g := DeleteObject g b.background
  let g := DeleteObject g b.softerBackground
  let g := DeleteObject g b.hotBackground
  let g := DeleteObject g b.pureBackground
  let g := DeleteObject g b.errorBackground
  let g := DeleteObject g b.hardlightBackground
  let g := DeleteObject g b.softlightBackground
  let g := DeleteObject g b.textColorBrush
  DeleteObject g b.darkerTextColorBrush

/-- The method `Brushes::change(const Colors&)`. -/
def Brushes.change (api : Shlwapi) (b : Brushes) (colors : Colors) (g : Gdi) : Brushes × Gdi :=
  Brushes.createAll api colors (b.deleteForChange g)

structure Pens where
  darkerTextPen : HANDLE := 0
  edgePen : HANDLE := 0
  lightEdgePen : HANDLE := 0
  darkEdgePen : HANDLE := 0
deriving DecidableEq, Repr

/-- The four handles of a `Pens` value, in declaration order. -/
def Pens.handles (p : Pens) : List HANDLE :=
  [p.darkerTextPen, p.edgePen, p.lightEdgePen, p.darkEdgePen]

/-- The member initialisers of `Pens::Pens`, and equally the four assignments
of `Pens::change`: four `CreatePen` calls in member order. -/
def Pens.createAll (api : Shlwapi) (colors : Colors) (g : Gdi) : Pens × Gdi :=
  let r1 := CreatePen g PS_SOLID 1 colors.darkerText
  let r2 := CreatePen r1.2 PS_SOLID 1 colors.edge
  let r3 := CreatePen r2.2 PS_SOLID 1 (lightColor api colors.edge EDGELUMINANCE_BRIGHTER)
  let r4 := CreatePen r3.2 PS_SOLID 1 (lightColor api colors.edge EDGELUMINANCE_DARKER)
  ({ darkerTextPen := r1.1, edgePen := r2.1, lightEdgePen := r3.1, darkEdgePen := r4.1 }, r4.2)

/-- The constructor `Pens::Pens(const Colors&)`. -/
def Pens.new (api : Shlwapi) (colors : Colors) (g : Gdi) : Pens × Gdi :=
  Pens.createAll api colors g

/-- The four `DeleteObject` calls that open `Pens::change`. -/
def Pens.deleteForChange (p : Pens) (g : Gdi) : Gdi :=
  let g := DeleteObject g p.darkerTextPen
  let g := DeleteObject g p.edgePen
  let g := DeleteObject g p.lightEdgePen
  DeleteObject g p.darkEdgePen

/-- The method `Pens::change(const Colors&)`. -/
def Pens.change (api : Shlwapi) (p : Pens) (colors : Colors) (g : Gdi) : Pens × Gdi :=
  Pens.createAll api colors (p.deleteForChange g)

structure Theme where
  _colors : Colors
  _brushes : Brushes
  _pens : Pens
deriving DecidableEq, Repr

/-- The constructor `Theme::Theme(const Colors&)`: members are initialised in
declaration order. -/
def Theme.new (api : Shlwapi) (colors : Colors) (g : Gdi) : Theme × Gdi :=
  let b := Brushes.new api colors g
  let p := Pens.new api colors b.2
  ({ _colors := colors, _brushes := b.1, _pens := p.1 }, p.2)

/-- The method `Theme::change(const Colors&)`. -/
def Theme.change (api : Shlwapi) (t : Theme) (colors : Colors) (g : Gdi) : Theme × Gdi :=
  let b := t._brushes.change api colors g
  let p := t._pens.change api colors b.2
  ({ _colors := colors, _brushes := b.1, _pens := p.1 }, p.2)

/-! ## The colour tables and the theme registry -/

/-- The table `darkColors` (black, the default). -/
def darkColors : Colors :=
  { background := HEXRGB 0x202020, softerBackground := HEXRGB 0x404040,
    hotBackground := HEXRGB 0x404040, pureBackground := HEXRGB 0x202020,
    errorBackground := HEXRGB 0xB00000, text := HEXRGB 0xE0E0E0,
    darkerText := HEXRGB 0xC0C0C0, disabledText := HEXRGB 0x808080,
    linkText := HEXRGB 0xFFFF00, edge := HEXRGB 0x646464 }

def darkRedColors : Colors :=
  { background := HEXRGB 0x302020, softerBackground := HEXRGB 0x504040,
    hotBackground := HEXRGB 0x504040, pureBackground := HEXRGB 0x302020,
    errorBackground := HEXRGB 0xC00000, text := HEXRGB 0xE0E0E0,
    darkerText := HEXRGB 0xC0C0C0, disabledText := HEXRGB 0x808080,
    linkText := HEXRGB 0xFFFF00, edge := HEXRGB 0x908080 }

def darkGreenColors : Colors :=
  { background := HEXRGB 0x203020, softerBackground := HEXRGB 0x405040,
    hotBackground := HEXRGB 0x405040, pureBackground := HEXRGB 0x203020,
    errorBackground := HEXRGB 0xB01000, text := HEXRGB 0xE0E0E0,
    darkerText := HEXRGB 0xC0C0C0, disabledText := HEXRGB 0x808080,
    linkText := HEXRGB 0xFFFF00, edge := HEXRGB 0x809080 }

def darkBlueColors : Colors :=
  { background := HEXRGB 0x202040, softerBackground := HEXRGB 0x404060,
    hotBackground := HEXRGB 0x404060, pureBackground := HEXRGB 0x202040,
    errorBackground := HEXRGB 0xB00020, text := HEXRGB 0xE0E0E0,
    darkerText := HEXRGB 0xC0C0C0, disabledText := HEXRGB 0x808080,
    linkText := HEXRGB 0xFFFF00, edge := HEXRGB 0x8080A0 }

def darkPurpleColors : Colors :=
  { background := HEXRGB 0x302040, softerBackground := HEXRGB 0x504060,
    hotBackground := HEXRGB 0x504060, pureBackground := HEXRGB 0x302040,
    errorBackground := HEXRGB 0xC00020, text := HEXRGB 0xE0E0E0,
    darkerText := HEXRGB 0xC0C0C0, disabledText := HEXRGB 0x808080,
    linkText := HEXRGB 0xFFFF00, edge := HEXRGB 0x9080A0 }

def darkCyanColors : Colors :=
  { background := HEXRGB 0x203040, softerBackground := HEXRGB 0x405060,
    hotBackground := HEXRGB 0x405060, pureBackground := HEXRGB 0x203040,
    errorBackground := HEXRGB 0xB01020, text := HEXRGB 0xE0E0E0,
    darkerText := HEXRGB 0xC0C0C0, disabledText := HEXRGB 0x808080,
    linkText := HEXRGB 0xFFFF00, edge := HEXRGB 0x8090A0 }

def darkOliveColors : Colors :=
  { background := HEXRGB 0x303020, softerBackground := HEXRGB 0x505040,
    hotBackground := HEXRGB 0x505040, pureBackground := HEXRGB 0x303020,
    errorBackground := HEXRGB 0xC01000, text := HEXRGB 0xE0E0E0,
    darkerText := HEXRGB 0xC0C0C0, disabledText := HEXRGB 0x808080,
    linkText := HEXRGB 0xFFFF00, edge := HEXRGB 0x909080 }

/-- The initial value of the variable `darkCustomizedColors`. -/
def darkCustomizedColors : Colors :=
  { background := HEXRGB 0x202020, softerBackground := HEXRGB 0x404040,
    hotBackground := HEXRGB 0x404040, pureBackground := HEXRGB 0x202020,
    errorBackground := HEXRGB 0xB00000, text := HEXRGB 0xE0E0E0,
    darkerText := HEXRGB 0xC0C0C0, disabledText := HEXRGB 0x808080,
    linkText := HEXRGB 0xFFFF00, edge := HEXRGB 0x646464 }

/-- The globals of the colour registry: the selected tone, the eight theme
objects, the runtime options and the GDI object table. -/
structure State where
  g_colorToneChoice : ColorTone
  tDefault : Theme
  tR : Theme
  tG : Theme
  tB : Theme
  tP : Theme
  tC : Theme
  tO : Theme
  tCustom : Theme
  _options : Options
  gdi : Gdi
deriving DecidableEq, Repr

/-- The eight theme objects; a `Theme&` is one of these names. -/
inductive ThemeRef where
  | tDefault | tR | tG | tB | tP | tC | tO | tCustom
deriving DecidableEq, Repr

/-- Reading through a `Theme&`. -/
def State.theme (s : State) : ThemeRef → Theme
  | .tDefault => s.tDefault
  | .tR => s.tR
  | .tG => s.tG
  | .tB => s.tB
  | .tP => s.tP
  | .tC => s.tC
  | .tO => s.tO
  | .tCustom => s.tCustom

/-- Writing through a `Theme&`. -/
def State.setTheme (s : State) (r : ThemeRef) (t : Theme) : State :=
  match r with
  | .tDefault => { s with tDefault := t }
  | .tR => { s with tR := t }
  | .tG => { s with tG := t }
  | .tB => { s with tB := t }
  | .tP => { s with tP := t }
  | .tC => { s with tC := t }
  | .tO => { s with tO := t }
  | .tCustom => { s with tCustom := t }

/-- Static initialisation of the namespace: the eight themes are constructed
in declaration order, the tone is `blackTone`, the options are all off. -/
def initialState (api : Shlwapi) : State :=
  let d := Theme.new api darkColors {}
  let r := Theme.new api darkRedColors d.2
  let g := Theme.new api darkGreenColors r.2
  let b := Theme.new api darkBlueColors g.2
  let p := Theme.new api darkPurpleColors b.2
  let c := Theme.new api darkCyanColors p.2
  let o := Theme.new api darkOliveColors c.2
  let k := Theme.new api darkCustomizedColors o.2
  { g_colorToneChoice := blackTone, tDefault := d.1, tR := r.1, tG := g.1, tB := b.1,
    tP := p.1, tC := c.1, tO := o.1, tCustom := k.1, _options := {}, gdi := k.2 }

def setDarkTone (s : State) (colorToneChoice : ColorTone) : State :=
  { s with g_colorToneChoice := colorToneChoice }

/-- The switch of `getTheme`, as the name of the object it returns a reference
to. -/
def getThemeRef (tone : ColorTone) : ThemeRef :=
  if tone = redTone then .tR
  else if tone = greenTone then .tG
  else if tone = blueTone then .tB
  else if tone = purpleTone then .tP
  else if tone = cyanTone then .tC
  else if tone = oliveTone then .tO
  else if tone = customizedTone then .tCustom
  else .tDefault

def getTheme (s : State) : Theme :=
  s.theme (getThemeRef s.g_colorToneChoice)

/-- The statement `getTheme().change(colors)`. -/
def changeTheme (api : Shlwapi) (s : State) (colors : Colors) : State :=
  let r := (getTheme s).change api colors s.gdi
  { s.setTheme (getThemeRef s.g_colorToneChoice) r.1 with gdi := r.2 }

def getBackgroundColor (s : State) : COLORREF := (getTheme s)._colors.background
def getSofterBackgroundColor (s : State) : COLORREF := (getTheme s)._colors.softerBackground
def getHotBackgroundColor (s : State) : COLORREF := (getTheme s)._colors.hotBackground
def getDarkerBackgroundColor (s : State) : COLORREF := (getTheme s)._colors.pureBackground
def getErrorBackgroundColor (s : State) : COLORREF := (getTheme s)._colors.errorBackground
def getTextColor (s : State) : COLORREF := (getTheme s)._colors.text
def getDarkerTextColor (s : State) : COLORREF := (getTheme s)._colors.darkerText
def getDisabledTextColor (s : State) : COLORREF := (getTheme s)._colors.disabledText
def getLinkTextColor (s : State) : COLORREF := (getTheme s)._colors.linkText
def getEdgeColor (s : State) : COLORREF := (getTheme s)._colors.edge

def getBackgroundBrush (s : State) : HANDLE := (getTheme s)._brushes.background
def getSofterBackgroundBrush (s : State) : HANDLE := (getTheme s)._brushes.softerBackground
def getHotBackgroundBrush (s : State) : HANDLE := (getTheme s)._brushes.hotBackground
def getDarkerBackgroundBrush (s : State) : HANDLE := (getTheme s)._brushes.pureBackground
def getErrorBackgroundBrush (s : State) : HANDLE := (getTheme s)._brushes.errorBackground
def getHardlightBackgroundBrush (s : State) : HANDLE := (getTheme s)._brushes.hardlightBackground
def getSoftlightBackgroundBrush (s : State) : HANDLE := (getTheme s)._brushes.softlightBackground
def getTextBrush (s : State) : HANDLE := (getTheme s)._brushes.textColorBrush
def getDarkerTextBrush (s : State) : HANDLE := (getTheme s)._brushes.darkerTextColorBrush
def getEdgeBrush (s : State) : HANDLE := (getTheme s)._brushes.edgeBackground
def getLightEdgeBrush (s : State) : HANDLE := (getTheme s)._brushes.lightEdgeBackground
def getDargEdgeBrush (s : State) : HANDLE := (getTheme s)._brushes.darkEdgeBackground

def getDarkerTextPen (s : State) : HANDLE := (getTheme s)._pens.darkerTextPen
def getEdgePen (s : State) : HANDLE := (getTheme s)._pens.edgePen
def getLightEdgePen (s : State) : HANDLE := (getTheme s)._pens.lightEdgePen
def getDarkEdgePen (s : State) : HANDLE := (getTheme s)._pens.darkEdgePen

def setBackgroundColor (api : Shlwapi) (s : State) (c : COLORREF) : State :=
  let clrs := (getTheme s)._colors
  let clrs := { clrs with background := c }
  changeTheme api s clrs

def setSofterBackgroundColor (api : Shlwapi) (s : State) (c : COLORREF) : State :=
  let clrs := (getTheme s)._colors
  let clrs := { clrs with softerBackground := c }
  changeTheme api s clrs

def setHotBackgroundColor (api : Shlwapi) (s : State) (c : COLORREF) : State :=
  let clrs := (getTheme s)._colors
  let clrs := { clrs with hotBackground := c }
  changeTheme api s clrs

def setDarkerBackgroundColor (api : Shlwapi) (s : State) (c : COLORREF) : State :=
  let clrs := (getTheme s)._colors
  let clrs := { clrs with pureBackground := c }
  changeTheme api s clrs

def setErrorBackgroundColor (api : Shlwapi) (s : State) (c : COLORREF) : State :=
  let clrs := (getTheme s)._colors
  let clrs := { clrs with errorBackground := c }
  changeTheme api s clrs

def setTextColor (api : Shlwapi) (s : State) (c : COLORREF) : State :=
  let clrs := (getTheme s)._colors
  let clrs := { clrs with text := c }
  changeTheme api s clrs

def setDarkerTextColor (api : Shlwapi) (s : State) (c : COLORREF) : State :=
  let clrs := (getTheme s)._colors
  let clrs := { clrs with darkerText := c }
  changeTheme api s clrs

def setDisabledTextColor (api : Shlwapi) (s : State) (c : COLORREF) : State :=
  let clrs := (getTheme s)._colors
  let clrs := { clrs with disabledText := c }
  changeTheme api s clrs

def setLinkTextColor (api : Shlwapi) (s : State) (c : COLORREF) : State :=
  let clrs := (getTheme s)._colors
  let clrs := { clrs with linkText := c }
  changeTheme api s clrs

def setEdgeColor (api : Shlwapi) (s : State) (c : COLORREF) : State :=
  let clrs := (getTheme s)._colors
  let clrs := { clrs with edge := c }
  changeTheme api s clrs

def getDarkModeDefaultColors : Colors := darkColors

def changeCustomTheme (api : Shlwapi) (s : State) (colors : Colors) : State :=
  let r := s.tCustom.change api colors s.gdi
  { s with tCustom := r.1, gdi := r.2 }

/-! ## Concrete inputs used by the witnesses -/

/-- A colour-space conversion pair for concrete evaluation: every colour has
hue, luminance and saturation `0`, and every triple converts to black. -/
def sampleApi : Shlwapi :=
  { ColorRGBToHLS := fun _ => (0, 0, 0), ColorHLSToRGB := fun _ _ _ => 0 }

/-! ## Well-formedness of the GDI object table -/

/-- The handles of the live objects, in creation order. -/
def Gdi.handlesOf (g : Gdi) : List HANDLE :=
  g.live.map (fun o => o.handle)

/-- No two live objects share a handle, and no live handle is newer than the
last one handed out. -/
def Gdi.WellFormed (g : Gdi) : Prop :=
  g.handlesOf.Nodup ∧ ∀ h ∈ g.handlesOf, h ≤ g.next

instance (g : Gdi) : Decidable g.WellFormed := by
  unfold Gdi.WellFormed
  infer_instance

/-- Number of live brushes in the table. -/
def Gdi.liveBrushes (g : Gdi) : Nat :=
  (g.live.filter (fun o => o.kind == GdiKind.brush)).length

/-- Number of live pens in the table. -/
def Gdi.livePens (g : Gdi) : Nat :=
  (g.live.filter (fun o => o.kind != GdiKind.brush)).length

/-- A run of `DeleteObject` calls, one per handle of `hs`, in list order. -/
def deleteAll (g : Gdi) (hs : List HANDLE) : Gdi :=
  hs.foldl DeleteObject g

/-- Number of live objects whose handle is one of `hs`. -/
def Gdi.liveAmong (g : Gdi) (hs : List HANDLE) : Nat :=
  (g.live.filter (fun o => hs.contains o.handle)).length

/-! ## Calls into the windowing system -/

abbrev UINT := Nat
abbrev WPARAM := Nat
abbrev LPARAM := Nat
abbrev LRESULT := Int

structure RECT where
  left : Int := 0
  top : Int := 0
  right : Int := 0
  bottom : Int := 0
deriving DecidableEq, Repr

/-- The subclass procedures of the file, as values that can be passed to
`RemoveWindowSubclass`. -/
inductive SubclassProc where
  | ButtonSubclass | GroupboxSubclass | TabSubclass | ComboBoxSubclass | TabUpDownSubclass
deriving DecidableEq, Repr

/-- A call that acts on the screen, on a device context or on another window,
recorded in call order. Rectangles and fonts are left out of the drawing calls
except where the code computes them itself. -/
inductive Effect where
  | SetDarkMode (useDark fixDarkScrollbar : Bool)
  | SendMessage (hwnd : HWND) (msg : UINT) (wParam : WPARAM) (lParam : LPARAM)
  | DefSubclassProc (hwnd : HWND) (msg : UINT) (wParam : WPARAM) (lParam : LPARAM)
  | DefWindowProc (hwnd : HWND) (msg : UINT) (wParam : WPARAM) (lParam : LPARAM)
  | InvalidateRect (hwnd : HWND)
  | RemoveWindowSubclass (hwnd : HWND) (proc : SubclassProc) (id : Nat)
  | OpenThemeData (hwnd : HWND) (classList : String)
  | CloseThemeData (hTheme : HANDLE)
  | deleteButtonData
  | BufferedPaintStopAllAnimations (hwnd : HWND)
  | BeginPaint (hwnd : HWND)
  | EndPaint (hwnd : HWND)
  | paintButton (hwnd : HWND) (hdc : HANDLE) (hTheme : HANDLE) (iPartID : Int)
  | paintGroupbox (hwnd : HWND) (hdc : HANDLE) (hTheme : HANDLE)
  | FillRect (hdc : HANDLE) (rc : RECT) (brush : HANDLE)
  | RestoreObject (hdc : HANDLE)
  | SelectObject (hdc : HANDLE) (obj : HANDLE)
  | SelectStockNullBrush (hdc : HANDLE)
  | SelectFont (hdc : HANDLE)
  | SetTextColor (hdc : HANDLE) (c : COLORREF)
  | SetBkColor (hdc : HANDLE) (c : COLORREF)
  | SetBkModeTransparent (hdc : HANDLE)
  | Rectangle (hdc : HANDLE)
  | Polyline (hdc : HANDLE)
  | ExtTextOut (hdc : HANDLE) (text : String)
  | DrawText (hdc : HANDLE)
  | drawTabItems (hwnd : HWND) (hdc : HANDLE)
  | DrawThemeBackground (hTheme : HANDLE) (hdc : HANDLE) (iPartId iStateId : Int) (rc : RECT)
  | DrawThemeTextEx (hTheme : HANDLE) (hdc : HANDLE) (iPartId iStateId : Int) (text : String)
      (cch : Nat) (dwFlags : Nat) (rc : RECT) (dttFlags : Nat) (crText : COLORREF)
deriving DecidableEq, Repr

/-- Is the effect a `SendMessage` call? -/
def Effect.isSendMessage : Effect → Bool
  | .SendMessage _ _ _ _ => true
  | _ => false

/-- Is the effect a call of `DefSubclassProc`? -/
def Effect.isDefSubclassProc : Effect → Bool
  | .DefSubclassProc _ _ _ _ => true
  | _ => false

/-- Is the effect part of painting a window: `BeginPaint`, `EndPaint`, one of
the paint routines of the file, or a drawing call on a device context? -/
def Effect.isPaint : Effect → Bool
  | .BeginPaint _ => true
  | .EndPaint _ => true
  | .paintButton _ _ _ _ => true
  | .paintGroupbox _ _ _ => true
  | .FillRect _ _ _ => true
  | .RestoreObject _ => true
  | .SelectObject _ _ => true
  | .SelectStockNullBrush _ => true
  | .SelectFont _ => true
  | .SetTextColor _ _ => true
  | .SetBkColor _ _ => true
  | .SetBkModeTransparent _ => true
  | .Rectangle _ => true
  | .Polyline _ => true
  | .ExtTextOut _ _ => true
  | .DrawText _ => true
  | .drawTabItems _ _ => true
  | .DrawThemeBackground _ _ _ _ _ => true
  | .DrawThemeTextEx _ _ _ _ _ _ _ _ _ _ => true
  | _ => false

/-- What the embedding asks of its surroundings: the answers of the calls whose
result the code uses. `cursorInRect hwnd rc` is `PtInRect` of `rc` and the
cursor position in client coordinates of `hwnd`, `GetMenuItemInfo` with
`MIIM_STRING` answers `none` when the call fails and otherwise the text copied
to the buffer together with the value the call leaves in `mii.cch`, `comboCurSel` and
`buttonState` are the answers to `CB_GETCURSEL` and `BM_GETSTATE`, and
`dpiScaleX`, `dpiScaleY` are the scaling functions of the DPI manager of
`NppParameters`. -/
structure Win32 where
  GetAncestor : HWND → UINT → HWND
  DefSubclassProc : HWND → UINT → WPARAM → LPARAM → LRESULT
  DefWindowProc : HWND → UINT → WPARAM → LPARAM → LRESULT
  OpenThemeData : HWND → String → HANDLE
  GetWindowLongPtrStyle : HWND → Nat
  BeginPaint : HWND → HANDLE × RECT
  GetMenuBarInfoRcBar : HWND → RECT
  GetWindowRect : HWND → RECT
  GetMenuItemInfo : HANDLE → Int → Option (String × Nat)
  GetClientRect : HWND → RECT
  cursorInRect : HWND → RECT → Bool
  comboCurSel : HWND → Int
  buttonState : HWND → Nat
  BufferedPaintRenderAnimation : HWND → HANDLE → Bool
  dpiScaleX : Int → Int
  dpiScaleY : Int → Int

def GA_ROOTOWNER : UINT := 3

/-! ## Configured options and the refresh -/

/-- Modelled from the spec: the dark-mode part of `NppGUI` (member
`_darkmode`), declared in Parameters.h, which is not among the sources; the
three members are the ones `configuredOptions` reads. -/
structure DarkModeConf where
  _isEnabled : Bool
  _colorTone : ColorTone
  _customColors : Colors
deriving DecidableEq, Repr

/-- The function `configuredOptions`: besides building its result it stores the
configured tone and rebuilds the custom theme. -/
def configuredOptions (api : Shlwapi) (nppGui : DarkModeConf) (s : State) : Options × State :=
  let opt : Options := {}
  let opt := { opt with enable := nppGui._isEnabled }
  let opt := { opt with enableMenubar := opt.enable }
  let s := { s with g_colorToneChoice := nppGui._colorTone }
  let s := changeCustomTheme api s nppGui._customColors
  (opt, s)

/-- The function `setDarkMode`, a call of `::SetDarkMode`. -/
def setDarkMode (useDark fixDarkScrollbar : Bool) : List Effect :=
  [Effect.SetDarkMode useDark fixDarkScrollbar]

/-- The function `refreshDarkMode`. `msgRefresh` is the value of
`NPPM_INTERNAL_REFRESHDARKMODE`, a constant of resource.h, which is not among
the sources. -/
def refreshDarkMode (api : Shlwapi) (w : Win32) (msgRefresh : UINT) (nppGui : DarkModeConf)
    (s : State) (hwnd : HWND) (forceRefresh : Bool) : State × List Effect :=
  let supportedChanged := false
  let r := configuredOptions api nppGui s
  let config := r.1
  let s := r.2
  let step1 : State × List Effect × Bool :=
    if s._options.enable != config.enable then
      let s1 := { s with _options := { s._options with enable := config.enable } }
      (s1, setDarkMode s1._options.enable s1._options.enable, true)
    else (s, [], supportedChanged)
  let s := step1.1
  let fx := step1.2.1
  let supportedChanged := step1.2.2
  let step2 : State × Bool :=
    if s._options.enableMenubar != config.enableMenubar then
      ({ s with _options := { s._options with enableMenubar := config.enableMenubar } }, true)
    else (s, supportedChanged)
  let s := step2.1
  let supportedChanged := step2.2
  if !supportedChanged && !forceRefresh then
    (s, fx)
  else
    let hwndRoot := w.GetAncestor hwnd GA_ROOTOWNER
    (s, fx ++ [Effect.SendMessage hwndRoot msgRefresh (if !forceRefresh then 1 else 0) 0])

def isEnabled (s : State) : Bool := s._options.enable

def isDarkMenuEnabled (s : State) : Bool := s._options.enableMenubar

/-! ## The menubar hook `runUAHWndProc` -/

/-- Modelled from the spec: message number defined in DarkMode/UAHMenuBar.h,
which is not among the sources. -/
def WM_UAHDRAWMENU : UINT := 0x0091
/-- Modelled from the spec: message number defined in DarkMode/UAHMenuBar.h,
which is not among the sources. -/
def WM_UAHDRAWMENUITEM : UINT := 0x0092

def WM_DESTROY : UINT := 0x0002
def WM_SIZE : UINT := 0x0005
def WM_ENABLE : UINT := 0x000A
def WM_PAINT : UINT := 0x000F
def WM_ERASEBKGND : UINT := 0x0014
def WM_NCDESTROY : UINT := 0x0082
def WM_UPDATEUISTATE : UINT := 0x0128
def WM_PRINTCLIENT : UINT := 0x0318
def WM_THEMECHANGED : UINT := 0x031A

def ODS_SELECTED : Nat := 0x0001
def ODS_GRAYED : Nat := 0x0002
def ODS_DISABLED : Nat := 0x0004
def ODS_DEFAULT : Nat := 0x0020
def ODS_HOTLIGHT : Nat := 0x0040
def ODS_INACTIVE : Nat := 0x0080
def ODS_NOACCEL : Nat := 0x0100

def MENU_POPUPITEM : Int := 14
def MPI_NORMAL : Int := 1
def MPI_HOT : Int := 2
def MPI_DISABLED : Int := 3
def MPI_DISABLEDHOT : Int := 4

def DT_CENTER : Nat := 0x00000001
def DT_VCENTER : Nat := 0x00000004
def DT_SINGLELINE : Nat := 0x00000020
def DT_HIDEPREFIX : Nat := 0x00100000
def DTT_TEXTCOLOR : Nat := 1

/-- Modelled from the spec: the structure `UAHMENU` of DarkMode/UAHMenuBar.h,
which is not among the sources. -/
structure UAHMENU where
  hmenu : HANDLE
  hdc : HANDLE
  dwFlags : Nat
deriving DecidableEq, Repr

/-- Modelled from the spec: the structure `UAHDRAWMENUITEM` of
DarkMode/UAHMenuBar.h, which is not among the sources, with the members the
code reads: `dis.itemState`, `dis.rcItem`, `um` and `umi.iPosition`. -/
structure UAHDRAWMENUITEM where
  dis_itemState : Nat
  dis_rcItem : RECT
  um : UAHMENU
  umi_iPosition : Int
deriving DecidableEq, Repr

/-- What `lParam` points to when it is cast to a pointer to one of the two
structures. -/
structure Memory where
  asUAHMENU : LPARAM → UAHMENU
  asUAHDRAWMENUITEM : LPARAM → UAHDRAWMENUITEM

def OffsetRect (rc : RECT) (dx dy : Int) : RECT :=
  { left := rc.left + dx, top := rc.top + dy, right := rc.right + dx, bottom := rc.bottom + dy }

/-- What `runUAHWndProc` leaves behind: its return value, the value of `*lr`,
the static `g_menuTheme` and the calls made. -/
structure UAHResult where
  handled : Bool
  lr : LRESULT
  g_menuTheme : HANDLE
  effects : List Effect
deriving DecidableEq, Repr

/-- The function `runUAHWndProc`; `lr` is the value of `*lr` on entry and
`g_menuTheme` the value of the function's static variable. The buffer
`menuString` has 256 zeroed characters and `mii.cch` is set to 255 before
`GetMenuItemInfo` is called; when that call fails both keep these values. -/
def runUAHWndProc (w : Win32) (mem : Memory) (s : State) (g_menuTheme : HANDLE)
    (hWnd : HWND) (message : UINT) (_wParam : WPARAM) (lParam : LPARAM) (lr : LRESULT) :
    UAHResult :=
  if message = WM_UAHDRAWMENU then
    let pUDM := mem.asUAHMENU lParam
    let rcWindow := w.GetWindowRect hWnd
    let rc := w.GetMenuBarInfoRcBar hWnd
    let rc := OffsetRect rc (-rcWindow.left) (-rcWindow.top)
    let rc := { rc with top := rc.top - 1 }
    { handled := true, lr := 0, g_menuTheme := g_menuTheme,
      effects := [Effect.FillRect pUDM.hdc rc (getDarkerBackgroundBrush s)] }
  else if message = WM_UAHDRAWMENUITEM then
    let pUDMI := mem.asUAHDRAWMENUITEM lParam
    let mii : String × Nat :=
      match w.GetMenuItemInfo pUDMI.um.hmenu pUDMI.umi_iPosition with
      | some answer => answer
      | none => ("", 255)
    let menuString := mii.1
    let cch := mii.2
    let dwFlags := DT_CENTER ||| DT_SINGLELINE ||| DT_VCENTER
    let itemState := pUDMI.dis_itemState
    let iStateID := MPI_NORMAL
    let iStateID :=
      if ((itemState &&& ODS_INACTIVE) ||| (itemState &&& ODS_DEFAULT)) ≠ 0 then MPI_NORMAL
      else iStateID
    let iStateID := if (itemState &&& ODS_HOTLIGHT) ≠ 0 then MPI_HOT else iStateID
    let iStateID := if (itemState &&& ODS_SELECTED) ≠ 0 then MPI_HOT else iStateID
    let iStateID :=
      if (itemState &&& ODS_GRAYED) ≠ 0 ∨ (itemState &&& ODS_DISABLED) ≠ 0 then MPI_DISABLED
      else iStateID
    let iTextStateID := iStateID
    let iBackgroundStateID := iStateID
    let dwFlags := if (itemState &&& ODS_NOACCEL) ≠ 0 then dwFlags ||| DT_HIDEPREFIX else dwFlags
    let opened : HANDLE × List Effect :=
      if g_menuTheme = 0 then (w.OpenThemeData hWnd "Menu", [Effect.OpenThemeData hWnd "Menu"])
      else (g_menuTheme, [])
    let g_menuTheme := opened.1
    let background : List Effect :=
      if iBackgroundStateID = MPI_NORMAL ∨ iBackgroundStateID = MPI_DISABLED then
        [Effect.FillRect pUDMI.um.hdc pUDMI.dis_rcItem (getDarkerBackgroundBrush s)]
      else if iBackgroundStateID = MPI_HOT ∨ iBackgroundStateID = MPI_DISABLEDHOT then
        [Effect.FillRect pUDMI.um.hdc pUDMI.dis_rcItem (getHotBackgroundBrush s)]
      else
        [Effect.DrawThemeBackground g_menuTheme pUDMI.um.hdc MENU_POPUPITEM iBackgroundStateID
          pUDMI.dis_rcItem]
    let dttopts : Nat × COLORREF :=
      if iTextStateID = MPI_NORMAL ∨ iTextStateID = MPI_HOT then (DTT_TEXTCOLOR, getTextColor s)
      else (0, 0)
    { handled := true, lr := 0, g_menuTheme := g_menuTheme,
      effects := opened.2 ++ background ++
        [Effect.DrawThemeTextEx g_menuTheme pUDMI.um.hdc MENU_POPUPITEM iTextStateID menuString
          cch dwFlags pUDMI.dis_rcItem dttopts.1 dttopts.2] }
  else if message = WM_THEMECHANGED then
    if g_menuTheme ≠ 0 then
      { handled := false, lr := lr, g_menuTheme := 0,
        effects := [Effect.CloseThemeData g_menuTheme] }
    else
      { handled := false, lr := lr, g_menuTheme := g_menuTheme, effects := [] }
  else
    { handled := false, lr := lr, g_menuTheme := g_menuTheme, effects := [] }

/-! ## Button data and the subclass procedures -/

def UISF_HIDEFOCUS : Nat := 0x1
def UISF_HIDEACCEL : Nat := 0x2
def TCS_VERTICAL : Nat := 0x0080
def TCS_BUTTONS : Nat := 0x0100
def CBS_DROPDOWNLIST : Nat := 0x0003
def CB_ERR : Int := -1
def WS_DISABLED : Nat := 0x08000000
def BST_CHECKED : Nat := 0x0001
def BST_PUSHED : Nat := 0x0004
def BST_HOT : Nat := 0x0200
def BS_PUSHBUTTON : Nat := 0x0000
def BS_DEFPUSHBUTTON : Nat := 0x0001
def BS_CHECKBOX : Nat := 0x0002
def BS_AUTOCHECKBOX : Nat := 0x0003
def BS_RADIOBUTTON : Nat := 0x0004
def BS_AUTORADIOBUTTON : Nat := 0x0009
def BS_PUSHLIKE : Nat := 0x1000
def BP_PUSHBUTTON : Int := 1
def BP_RADIOBUTTON : Int := 2
def BP_CHECKBOX : Int := 3
def PBS_NORMAL : Int := 1
def PBS_HOT : Int := 2
def RBS_UNCHECKEDNORMAL : Int := 1
def RBS_UNCHECKEDHOT : Int := 2
def RBS_UNCHECKEDPRESSED : Int := 3
def RBS_UNCHECKEDDISABLED : Int := 4
def TRUE : LRESULT := 1
def FALSE : LRESULT := 0
def WC_BUTTON : String := "Button"

def g_buttonSubclassID : Nat := 42
def g_groupboxSubclassID : Nat := 42
def g_tabSubclassID : Nat := 42
def g_comboBoxSubclassID : Nat := 42
def g_tabUpDownSubclassID : Nat := 42

def HIWORD (x : Nat) : Nat := (x >>> 16) &&& 0xFFFF

structure ButtonData where
  hTheme : HANDLE := 0
  iStateID : Int := 0
deriving DecidableEq, Repr

/-- The method `ButtonData::ensureTheme`: its result, the object afterwards and
the calls made. -/
def ButtonData.ensureTheme (w : Win32) (d : ButtonData) (hwnd : HWND) :
    Bool × ButtonData × List Effect :=
  let r : ButtonData × List Effect :=
    if d.hTheme = 0 then
      ({ d with hTheme := w.OpenThemeData hwnd WC_BUTTON }, [Effect.OpenThemeData hwnd WC_BUTTON])
    else (d, [])
  (r.1.hTheme != 0, r.1, r.2)

/-- The method `ButtonData::closeTheme`. -/
def ButtonData.closeTheme (d : ButtonData) : ButtonData × List Effect :=
  if d.hTheme ≠ 0 then ({ d with hTheme := 0 }, [Effect.CloseThemeData d.hTheme])
  else (d, [])

/-- The statement `delete pButtonData`: the destructor closes the theme, then
the object is freed. -/
def ButtonData.delete (d : ButtonData) : List Effect :=
  d.closeTheme.2 ++ [Effect.deleteButtonData]

/-- What `paintButton` leaves behind: the button data, the calls made, and
whether the call ran into `assert(false)`. In a build with assertions the
program is aborted at that statement, before anything is drawn; the other two
members then describe the build without assertions (`NDEBUG`), where the
statement is empty and the call goes on with `iPartID = 0`. -/
structure PaintResult where
  buttonData : ButtonData
  effects : List Effect
  assertFailed : Bool
deriving DecidableEq, Repr

/-- The function `paintButton`: the part is chosen from the button style, with
`assert(false)` for a style that is none of push button, radio button and
check box; the state it computes is stored in the button data unless a running
animation has already rendered the frame; the rendering itself is recorded as
one effect, which carries the part. -/
def paintButton (w : Win32) (hwnd : HWND) (hdc : HANDLE) (buttonData : ButtonData) :
    PaintResult :=
  let nState := w.buttonState hwnd
  let nStyle := w.GetWindowLongPtrStyle hwnd
  let nButtonStyle := nStyle &&& 0xF
  let part : Int × Bool :=
    if nButtonStyle = BS_PUSHBUTTON ∨ nButtonStyle = BS_DEFPUSHBUTTON
        ∨ (nStyle &&& BS_PUSHLIKE) > 0 then
      (BP_PUSHBUTTON, false)
    else if nButtonStyle = BS_RADIOBUTTON ∨ nButtonStyle = BS_AUTORADIOBUTTON then
      (BP_RADIOBUTTON, false)
    else if nButtonStyle = BS_CHECKBOX ∨ nButtonStyle = BS_AUTOCHECKBOX then
      (BP_CHECKBOX, false)
    else
      (0, true)
  let iPartID := part.1
  let iStateID := RBS_UNCHECKEDNORMAL
  let iStateID :=
    if nStyle &&& WS_DISABLED ≠ 0 then RBS_UNCHECKEDDISABLED
    else if nState &&& BST_PUSHED ≠ 0 then RBS_UNCHECKEDPRESSED
    else if nState &&& BST_HOT ≠ 0 then RBS_UNCHECKEDHOT
    else iStateID
  let iStateID := if nState &&& BST_CHECKED ≠ 0 then iStateID + 4 else iStateID
  if w.BufferedPaintRenderAnimation hwnd hdc then
    { buttonData := buttonData,
      effects := [Effect.paintButton hwnd hdc buttonData.hTheme iPartID],
      assertFailed := part.2 }
  else
    { buttonData := { buttonData with iStateID := iStateID },
      effects := [Effect.paintButton hwnd hdc buttonData.hTheme iPartID],
      assertFailed := part.2 }

/-- The function `paintGroupbox`, recorded as one effect. -/
def paintGroupbox (hwnd : HWND) (hdc : HANDLE) (buttonData : ButtonData) : List Effect :=
  [Effect.paintGroupbox hwnd hdc buttonData.hTheme]

/-- What a subclass procedure with button data leaves behind: its return
value, the button data (`none` once it has been deleted), the calls made, and
whether the call ran into the `assert(false)` of `paintButton` (see
`PaintResult`). -/
structure SubclassResult where
  result : LRESULT
  buttonData : Option ButtonData
  effects : List Effect
  assertFailed : Bool := false
deriving DecidableEq, Repr

/-- The common tail `return DefSubclassProc(hWnd, uMsg, wParam, lParam)`. -/
def callDefSubclassProc (w : Win32) (hWnd : HWND) (uMsg : UINT) (wParam : WPARAM)
    (lParam : LPARAM) (d : Option ButtonData) (fx : List Effect) : SubclassResult :=
  { result := w.DefSubclassProc hWnd uMsg wParam lParam, buttonData := d,
    effects := fx ++ [Effect.DefSubclassProc hWnd uMsg wParam lParam] }

/-- The `BeginPaint` / paint / `EndPaint` bracket shared by `ButtonSubclass`
and `GroupboxSubclass`: the device context is `wParam` if that is not null and
the one of `BeginPaint` otherwise, and `EndPaint` is called if `ps.hdc` is set. -/
def paintBracket (w : Win32) (hWnd : HWND) (wParam : WPARAM)
    (body : HANDLE → List Effect) : List Effect :=
  if wParam = 0 then
    let hdc := (w.BeginPaint hWnd).1
    [Effect.BeginPaint hWnd] ++ body hdc ++ (if hdc ≠ 0 then [Effect.EndPaint hWnd] else [])
  else
    body wParam

/-- The device context the bracket paints on. -/
def paintHdc (w : Win32) (hWnd : HWND) (wParam : WPARAM) : HANDLE :=
  if wParam = 0 then (w.BeginPaint hWnd).1 else wParam

def ButtonSubclass (w : Win32) (s : State) (hWnd : HWND) (uMsg : UINT) (wParam : WPARAM)
    (lParam : LPARAM) (pButtonData : ButtonData) : SubclassResult :=
  if uMsg = WM_UPDATEUISTATE then
    if HIWORD wParam &&& (UISF_HIDEACCEL ||| UISF_HIDEFOCUS) ≠ 0 then
      callDefSubclassProc w hWnd uMsg wParam lParam (some pButtonData) [Effect.InvalidateRect hWnd]
    else
      callDefSubclassProc w hWnd uMsg wParam lParam (some pButtonData) []
  else if uMsg = WM_NCDESTROY then
    callDefSubclassProc w hWnd uMsg wParam lParam none
      ([Effect.RemoveWindowSubclass hWnd SubclassProc.ButtonSubclass g_buttonSubclassID]
        ++ pButtonData.delete)
  else if uMsg = WM_ERASEBKGND then
    if isEnabled s then
      let e := pButtonData.ensureTheme w hWnd
      if e.1 then { result := TRUE, buttonData := some e.2.1, effects := e.2.2 }
      else callDefSubclassProc w hWnd uMsg wParam lParam (some e.2.1) e.2.2
    else
      callDefSubclassProc w hWnd uMsg wParam lParam (some pButtonData) []
  else if uMsg = WM_THEMECHANGED then
    let c := pButtonData.closeTheme
    callDefSubclassProc w hWnd uMsg wParam lParam (some c.1) c.2
  else if uMsg = WM_PRINTCLIENT ∨ uMsg = WM_PAINT then
    if isEnabled s then
      let e := pButtonData.ensureTheme w hWnd
      if e.1 then
        let p := paintButton w hWnd (paintHdc w hWnd wParam) e.2.1
        { result := 0, buttonData := some p.buttonData,
          effects := e.2.2 ++ paintBracket w hWnd wParam
            (fun hdc => (paintButton w hWnd hdc e.2.1).effects),
          assertFailed := p.assertFailed }
      else callDefSubclassProc w hWnd uMsg wParam lParam (some e.2.1) e.2.2
    else
      callDefSubclassProc w hWnd uMsg wParam lParam (some pButtonData) []
  else if uMsg = WM_SIZE ∨ uMsg = WM_DESTROY then
    callDefSubclassProc w hWnd uMsg wParam lParam (some pButtonData)
      [Effect.BufferedPaintStopAllAnimations hWnd]
  else if uMsg = WM_ENABLE then
    if isEnabled s then
      { result := w.DefWindowProc hWnd uMsg wParam lParam, buttonData := some pButtonData,
        effects := [Effect.DefWindowProc hWnd uMsg wParam lParam, Effect.InvalidateRect hWnd] }
    else
      callDefSubclassProc w hWnd uMsg wParam lParam (some pButtonData) []
  else
    callDefSubclassProc w hWnd uMsg wParam lParam (some pButtonData) []

def GroupboxSubclass (w : Win32) (s : State) (hWnd : HWND) (uMsg : UINT) (wParam : WPARAM)
    (lParam : LPARAM) (pButtonData : ButtonData) : SubclassResult :=
  if uMsg = WM_NCDESTROY then
    callDefSubclassProc w hWnd uMsg wParam lParam none
      ([Effect.RemoveWindowSubclass hWnd SubclassProc.GroupboxSubclass g_groupboxSubclassID]
        ++ pButtonData.delete)
  else if uMsg = WM_ERASEBKGND then
    if isEnabled s then
      let e := pButtonData.ensureTheme w hWnd
      if e.1 then { result := TRUE, buttonData := some e.2.1, effects := e.2.2 }
      else callDefSubclassProc w hWnd uMsg wParam lParam (some e.2.1) e.2.2
    else
      callDefSubclassProc w hWnd uMsg wParam lParam (some pButtonData) []
  else if uMsg = WM_THEMECHANGED then
    let c := pButtonData.closeTheme
    callDefSubclassProc w hWnd uMsg wParam lParam (some c.1) c.2
  else if uMsg = WM_PRINTCLIENT ∨ uMsg = WM_PAINT then
    if isEnabled s then
      let e := pButtonData.ensureTheme w hWnd
      if e.1 then
        { result := 0, buttonData := some e.2.1,
          effects := e.2.2 ++ paintBracket w hWnd wParam (fun hdc => paintGroupbox hWnd hdc e.2.1) }
      else callDefSubclassProc w hWnd uMsg wParam lParam (some e.2.1) e.2.2
    else
      callDefSubclassProc w hWnd uMsg wParam lParam (some pButtonData) []
  else
    callDefSubclassProc w hWnd uMsg wParam lParam (some pButtonData) []

/-- The function `TabSubclass`. The loop over the tab items is recorded as the
single effect `drawTabItems`. -/
def TabSubclass (w : Win32) (s : State) (hWnd : HWND) (uMsg : UINT) (wParam : WPARAM)
    (lParam : LPARAM) : LRESULT × List Effect :=
  let dflt (fx : List Effect) : LRESULT × List Effect :=
    (w.DefSubclassProc hWnd uMsg wParam lParam,
     fx ++ [Effect.DefSubclassProc hWnd uMsg wParam lParam])
  if uMsg = WM_PAINT then
    if !isEnabled s then dflt []
    else
      let dwStyle := w.GetWindowLongPtrStyle hWnd
      if dwStyle &&& TCS_BUTTONS ≠ 0 ∨ dwStyle &&& TCS_VERTICAL ≠ 0 then dflt []
      else
        let ps := w.BeginPaint hWnd
        let hdc := ps.1
        (0, [Effect.BeginPaint hWnd,
             Effect.FillRect hdc ps.2 (getDarkerBackgroundBrush s),
             Effect.SelectObject hdc (getEdgePen s),
             Effect.SelectFont hdc,
             Effect.drawTabItems hWnd hdc,
             Effect.RestoreObject hdc,
             Effect.RestoreObject hdc,
             Effect.EndPaint hWnd])
  else if uMsg = WM_NCDESTROY then
    dflt [Effect.RemoveWindowSubclass hWnd SubclassProc.TabSubclass g_tabSubclassID]
  else dflt []

/-- The function `ComboBoxSubclass`. -/
def ComboBoxSubclass (w : Win32) (s : State) (hWnd : HWND) (uMsg : UINT) (wParam : WPARAM)
    (lParam : LPARAM) (uIdSubclass : Nat) : LRESULT × List Effect :=
  let dflt (fx : List Effect) : LRESULT × List Effect :=
    (w.DefSubclassProc hWnd uMsg wParam lParam,
     fx ++ [Effect.DefSubclassProc hWnd uMsg wParam lParam])
  if uMsg = WM_PAINT then
    if !isEnabled s then dflt []
    else
      let rc := w.GetClientRect hWnd
      let hdc := (w.BeginPaint hWnd).1
      let arrowRc : RECT :=
        { left := rc.right - w.dpiScaleX 17, top := rc.top + 1, right := rc.right - 1,
          bottom := rc.bottom - 1 }
      let style := w.GetWindowLongPtrStyle hWnd
      let list : List Effect :=
        if style &&& CBS_DROPDOWNLIST = CBS_DROPDOWNLIST then
          let bkRc : RECT :=
            { left := rc.left + 1, top := rc.top + 1, right := arrowRc.left - 1,
              bottom := rc.bottom - 1 }
          [Effect.FillRect hdc bkRc (getBackgroundBrush s)] ++
            (if w.comboCurSel hWnd ≠ CB_ERR then
              [Effect.SetTextColor hdc (getTextColor s), Effect.SetBkColor hdc (getBackgroundColor s),
               Effect.DrawText hdc]
             else [])
        else []
      let isHot := w.cursorInRect hWnd rc
      (0, [Effect.BeginPaint hWnd,
           Effect.SelectObject hdc (getEdgePen s),
           Effect.SelectFont hdc,
           Effect.SetBkColor hdc (getBackgroundColor s),
           Effect.SelectStockNullBrush hdc,
           Effect.Rectangle hdc,
           Effect.SelectObject hdc (getDarkerBackgroundBrush s)]
          ++ list ++
          [Effect.SetTextColor hdc (if isHot then getTextColor s else getDarkerTextColor s),
           Effect.SetBkColor hdc (if isHot then getHotBackgroundColor s else getBackgroundColor s),
           Effect.ExtTextOut hdc "˅",
           Effect.SetBkColor hdc (getBackgroundColor s),
           Effect.Polyline hdc,
           Effect.RestoreObject hdc,
           Effect.RestoreObject hdc,
           Effect.EndPaint hWnd])
  else if uMsg = WM_NCDESTROY then
    dflt [Effect.RemoveWindowSubclass hWnd SubclassProc.ComboBoxSubclass uIdSubclass]
  else dflt []

/-- The function `TabUpDownSubclass`. -/
def TabUpDownSubclass (w : Win32) (s : State) (hWnd : HWND) (uMsg : UINT) (wParam : WPARAM)
    (lParam : LPARAM) (uIdSubclass : Nat) (pButtonData : ButtonData) : SubclassResult :=
  if uMsg = WM_PRINTCLIENT ∨ uMsg = WM_PAINT then
    if !isEnabled s then
      callDefSubclassProc w hWnd uMsg wParam lParam (some pButtonData) []
    else
      let e := pButtonData.ensureTheme w hWnd
      let hasTheme := e.1
      let d := e.2.1
      let rcClient := w.GetClientRect hWnd
      let hdc := (w.BeginPaint hWnd).1
      let rcArrowLeft : RECT :=
        { left := rcClient.left, top := rcClient.top,
          right := rcClient.right - Int.tdiv (rcClient.right - rcClient.left) 2,
          bottom := rcClient.bottom }
      let rcArrowRight : RECT :=
        { left := rcArrowLeft.right, top := rcClient.top, right := rcClient.right,
          bottom := rcClient.bottom }
      let isHotLeft := w.cursorInRect hWnd rcArrowLeft
      let isHotRight := w.cursorInRect hWnd rcArrowRight
      let arrows : List Effect :=
        if hasTheme then
          [Effect.DrawThemeBackground d.hTheme hdc BP_PUSHBUTTON
             (if isHotLeft then PBS_HOT else PBS_NORMAL) rcArrowLeft,
           Effect.DrawThemeBackground d.hTheme hdc BP_PUSHBUTTON
             (if isHotRight then PBS_HOT else PBS_NORMAL) rcArrowRight]
        else
          [Effect.FillRect hdc rcArrowLeft
             (if isHotLeft then getHotBackgroundBrush s else getBackgroundBrush s),
           Effect.FillRect hdc rcArrowRight
             (if isHotRight then getHotBackgroundBrush s else getBackgroundBrush s)]
      let frame : List Effect :=
        if !hasTheme then
          [Effect.SelectObject hdc (getEdgePen s), Effect.SelectStockNullBrush hdc,
           Effect.Rectangle hdc, Effect.Rectangle hdc, Effect.RestoreObject hdc,
           Effect.RestoreObject hdc]
        else []
      { result := FALSE, buttonData := some d,
        effects := e.2.2 ++
          [Effect.BeginPaint hWnd,
           Effect.FillRect hdc rcClient (getDarkerBackgroundBrush s),
           Effect.SetBkModeTransparent hdc]
          ++ arrows ++
          [Effect.SelectFont hdc,
           Effect.SetTextColor hdc (if isHotLeft then getTextColor s else getDarkerTextColor s),
           Effect.ExtTextOut hdc "<",
           Effect.SetTextColor hdc (if isHotRight then getTextColor s else getDarkerTextColor s),
           Effect.ExtTextOut hdc ">"]
          ++ frame ++
          [Effect.RestoreObject hdc, Effect.EndPaint hWnd] }
  else if uMsg = WM_THEMECHANGED then
    let c := pButtonData.closeTheme
    callDefSubclassProc w hWnd uMsg wParam lParam (some c.1) c.2
  else if uMsg = WM_NCDESTROY then
    callDefSubclassProc w hWnd uMsg wParam lParam none
      ([Effect.RemoveWindowSubclass hWnd SubclassProc.TabUpDownSubclass uIdSubclass]
        ++ pButtonData.delete)
  else if uMsg = WM_ERASEBKGND then
    if isEnabled s then
      { result := TRUE, buttonData := some pButtonData,
        effects := [Effect.FillRect wParam (w.GetClientRect hWnd) (getDarkerBackgroundBrush s)] }
    else
      callDefSubclassProc w hWnd uMsg wParam lParam (some pButtonData) []
  else
    callDefSubclassProc w hWnd uMsg wParam lParam (some pButtonData) []

/-! ## Vocabulary of the subclass-procedure theorems -/

/-- A call is answered by `DefSubclassProc`: the value returned is the result
of `DefSubclassProc` on the same four arguments, that call is the only
`DefSubclassProc` call and the last call made, and nothing is painted. -/
def passesThrough (w : Win32) (hWnd : HWND) (uMsg : UINT) (wParam : WPARAM) (lParam : LPARAM)
    (result : LRESULT) (effects : List Effect) : Prop :=
  result = w.DefSubclassProc hWnd uMsg wParam lParam
  ∧ effects.filter Effect.isDefSubclassProc = [Effect.DefSubclassProc hWnd uMsg wParam lParam]
  ∧ effects.getLast? = some (Effect.DefSubclassProc hWnd uMsg wParam lParam)
  ∧ effects.all (fun e => !e.isPaint) = true

instance (w : Win32) (hWnd : HWND) (uMsg : UINT) (wParam : WPARAM) (lParam : LPARAM)
    (result : LRESULT) (effects : List Effect) :
    Decidable (passesThrough w hWnd uMsg wParam lParam result effects) := by
  unfold passesThrough
  infer_instance

/-- The button style is one `paintButton` has a part for: push button (also
by `BS_PUSHLIKE`), radio button or check box. -/
def knownButtonStyle (nStyle : Nat) : Prop :=
  ((nStyle &&& 0xF) = BS_PUSHBUTTON ∨ (nStyle &&& 0xF) = BS_DEFPUSHBUTTON
    ∨ (nStyle &&& BS_PUSHLIKE) > 0)
  ∨ ((nStyle &&& 0xF) = BS_RADIOBUTTON ∨ (nStyle &&& 0xF) = BS_AUTORADIOBUTTON)
  ∨ ((nStyle &&& 0xF) = BS_CHECKBOX ∨ (nStyle &&& 0xF) = BS_AUTOCHECKBOX)

instance (nStyle : Nat) : Decidable (knownButtonStyle nStyle) := by
  unfold knownButtonStyle
  infer_instance

/-- The theme handle of the button data once `ensureTheme` has run. -/
def themeAfterEnsure (w : Win32) (d : ButtonData) (hwnd : HWND) : HANDLE :=
  if d.hTheme = 0 then w.OpenThemeData hwnd WC_BUTTON else d.hTheme

/-- Neither a painting call nor a `DefSubclassProc` call. -/
def Effect.isQuiet (e : Effect) : Bool :=
  !e.isPaint && !e.isDefSubclassProc

/-- A window system for concrete evaluation: every window has style 0, no
theme can be opened, and `DefSubclassProc` answers 7. -/
def sampleWin32 : Win32 :=
  { GetAncestor := fun h _ => h
    DefSubclassProc := fun _ _ _ _ => 7
    DefWindowProc := fun _ _ _ _ => 0
    OpenThemeData := fun _ _ => 0
    GetWindowLongPtrStyle := fun _ => 0
    BeginPaint := fun _ => (5, {})
    GetMenuBarInfoRcBar := fun _ => {}
    GetWindowRect := fun _ => {}
    GetMenuItemInfo := fun _ _ => some ("", 0)
    GetClientRect := fun _ => {}
    cursorInRect := fun _ _ => false
    comboCurSel := fun _ => 0
    buttonState := fun _ => 0
    BufferedPaintRenderAnimation := fun _ _ => false
    dpiScaleX := fun x => x
    dpiScaleY := fun x => x }

/-- The sample window system with a theme service: `OpenThemeData` answers the
handle 9, and every window has the style `BS_GROUPBOX` (7) when `groupbox` is
set and `BS_AUTOCHECKBOX` (3) otherwise. -/
def sampleThemedWin32 (groupbox : Bool) : Win32 :=
  { sampleWin32 with
    OpenThemeData := fun _ _ => 9
    GetWindowLongPtrStyle := fun _ => if groupbox then 7 else 3 }

/-- The state after static initialisation with dark mode switched on. -/
def sampleEnabledState : State :=
  { initialState sampleApi with _options := { enable := true, enableMenubar := true } }

/-! ## The tree-view style -/

/-- Modelled from the spec: the enumeration `TreeViewStyle` is declared in
NppDarkMode.h, which is not among the sources; NppDarkMode.cpp names its three
enumerators. -/
inductive TreeViewStyle where
  | classic | light | dark
deriving DecidableEq, Repr

/-- The three globals of the tree-view style. The `double` variable
`lighnessTreeView` is a rational number here: every finite `double` is one, and
`<`, `>` and `==` on finite doubles are the comparisons of rationals. -/
structure TreeViewGlobals where
  treeViewStyle : TreeViewStyle := TreeViewStyle.classic
  treeViewBg : COLORREF
  lighnessTreeView : ℚ := 50
deriving DecidableEq, Repr

/-- The constant `middleGrayRange`, the range in which the classic style is
preferred. -/
def middleGrayRange : ℚ := 2

/-- The function `calculateTreeViewStyle`. `calculatePerceivedLighness` is the
floating-point function of that name, taken as given, and `bgColor` is the
current default background colour of `NppParameters`. -/
def calculateTreeViewStyle (calculatePerceivedLighness : COLORREF → ℚ) (bgColor : COLORREF)
    (t : TreeViewGlobals) : TreeViewGlobals :=
  let t :=
    if t.treeViewBg ≠ bgColor ∨ t.lighnessTreeView = 50 then
      { t with lighnessTreeView := calculatePerceivedLighness bgColor, treeViewBg := bgColor }
    else t
  if t.lighnessTreeView < 50 - middleGrayRange then
    { t with treeViewStyle := TreeViewStyle.dark }
  else if t.lighnessTreeView > 50 + middleGrayRange then
    { t with treeViewStyle := TreeViewStyle.light }
  else
    { t with treeViewStyle := TreeViewStyle.classic }

end NppDarkMode

/-! ## Smart highlighting (PowerEditor/src/ScitillaComponent/SmartHighlighter.cpp)

The Scintilla view is an explicit state `View`: the answers to the queries
`highlightView` makes, the search target and the indicator marks. Every call on
the view and every `processRange` call is recorded, in call order, in a list of
`Op` values. `static_cast<int>` and arithmetic on `int` are reduced to the signed
32-bit range by `toInt32`; arithmetic on `LRESULT` is reduced to the signed
64-bit range of the x64 build by `toInt64`. The loop counter `currentLine` is an
`int` compared with the `LRESULT` bound `lastLine`, so the loop need not end:
the loop is run for a number of steps, and a run records whether the code came
to its end within them. -/

namespace SmartHighlighter

def MAXLINEHIGHLIGHT : Int := 400

/-- Modelled from the spec: the indicator number `SCE_UNIVERSAL_FOUND_STYLE_SMART`
is defined in the Scintilla headers of the repository, which are not among the
sources. -/
def SCE_UNIVERSAL_FOUND_STYLE_SMART : Int := 29

/-- The conversion `static_cast<int>` (and `static_cast<int32_t>`) of a wider
integer: reduction modulo 2^32 into the signed range. -/
def toInt32 (x : Int) : Int :=
  (x + 2147483648) % 4294967296 - 2147483648

/-- Arithmetic on `LRESULT`, a 64-bit signed integer in the x64 build:
reduction modulo 2^64 into the signed range. -/
def toInt64 (x : Int) : Int :=
  (x + 9223372036854775808) % 18446744073709551616 - 9223372036854775808

/-- Modelled from the spec: the enumeration `NppGUI::SmartHiliteMode` is
declared in Parameters.h, which is not among the sources; `highlightView` names
two of its enumerators, `other` stands for every remaining one. -/
inductive SmartHiliteMode where
  | wordOnly | findDialog | other
deriving DecidableEq, Repr

/-- Modelled from the spec: the members of `NppGUI` (Parameters.h, not among
the sources) that `highlightView` reads. -/
structure NppGUI where
  _smartHiliteMode : SmartHiliteMode
  _smartHiliteCaseSensitive : Bool
deriving DecidableEq, Repr

/-- Modelled from the spec: the member of `FindHistory` (Parameters.h, not
among the sources) that `highlightView` reads. -/
structure FindHistory where
  _isMatchWord : Bool
deriving DecidableEq, Repr

structure CharacterRange where
  cpMin : Int
  cpMax : Int
deriving DecidableEq, Repr

/-- Modelled from the spec: the members of `FindOption` (FindReplaceDlg.h, not
among the sources) that `highlightView` sets; both are false in a fresh
object. -/
structure FindOption where
  _isWholeWord : Bool := false
  _isMatchCase : Bool := false
deriving DecidableEq, Repr

/-- Modelled from the spec: the members of `FindReplaceInfo` (FindReplaceDlg.h,
not among the sources) that `highlightView` sets. -/
structure FindReplaceInfo where
  _txt2find : String
  _startRange : Int
  _endRange : Int
deriving DecidableEq, Repr

/-- The Scintilla messages `highlightView` sends. -/
inductive Sci where
  | SCI_GETSELECTIONEMPTY
  | SCI_GETCURRENTPOS
  | SCI_WORDSTARTPOSITION
  | SCI_WORDENDPOSITION
  | SCI_GETTARGETSTART
  | SCI_GETTARGETEND
  | SCI_SETTARGETRANGE
  | SCI_GETFIRSTVISIBLELINE
  | SCI_LINESONSCREEN
  | SCI_GETCODEPAGE
  | SCI_DOCLINEFROMVISIBLE
  | SCI_POSITIONFROMLINE
deriving DecidableEq, Repr

/-- A call made by `highlightView`. `processRange` records the visible line and
the document line it was made for and whether the end of the range lay past the
end of the document (`endPos == -1`). -/
inductive Op where
  | clearIndicator (indicatorNumber : Int)
  | execute (msg : Sci) (wParam : Int) (lParam : Int)
  | getSelection
  | getSelectedText
  | getCurrentDocLen
  | processRange (frInfo : FindReplaceInfo) (fo : FindOption) (currentLine : Int) (docLine : Int)
      (pastEOF : Bool)
deriving DecidableEq, Repr

/-- The view as `highlightView` sees it. -/
structure View where
  selectionEmpty : Int
  currentPos : Int
  selection : CharacterRange
  wordStartPosition : Int → Int
  wordEndPosition : Int → Int
  selectedText : String
  targetStart : Int
  targetEnd : Int
  firstVisibleLine : Int
  linesOnScreen : Int
  codePage : Int
  docLineFromVisible : Int → Int
  positionFromLine : Int → Int
  currentDocLen : Int
  indicatorRanges : Int → List CharacterRange

/-- The method `ScintillaEditView::clearIndicator`: the marks of one indicator
are removed, nothing else changes. -/
def View.clearIndicator (v : View) (indicatorNumber : Int) : View :=
  { v with indicatorRanges := fun k => if k = indicatorNumber then [] else v.indicatorRanges k }

/-- The message `SCI_SETTARGETRANGE`. -/
def View.setTargetRange (v : View) (start stop : Int) : View :=
  { v with targetStart := start, targetEnd := stop }

/-- What `highlightView` uses of its surroundings: `processRange` of the find
dialog, which may change the view in any way, and the character conversion. -/
structure Env where
  processRange : View → FindReplaceInfo → FindOption → View
  char2wchar : String → Int → String

/-- Is the operation a `processRange` call? -/
def Op.isProcessRange : Op → Bool
  | .processRange _ _ _ _ _ => true
  | _ => false

/-- Does the operation read or write the search target of the view? -/
def Op.isTargetOp : Op → Bool
  | .execute Sci.SCI_GETTARGETSTART _ _ => true
  | .execute Sci.SCI_GETTARGETEND _ _ => true
  | .execute Sci.SCI_SETTARGETRANGE _ _ => true
  | _ => false

/-- Is the operation one of the two word-boundary queries? -/
def Op.isWordQuery : Op → Bool
  | .execute Sci.SCI_WORDSTARTPOSITION _ _ => true
  | .execute Sci.SCI_WORDENDPOSITION _ _ => true
  | _ => false

/-- What a run of `highlightView`, or of its loop, leaves behind: the view,
the calls made, and whether the code came to its end (`returned = false`: the
loop was still going when the steps allowed for it were used up, and `view` and
`ops` are the state reached and the calls made until then). -/
structure Run where
  view : View
  ops : List Op
  returned : Bool

/-- The `for` loop of `highlightView`, run for at most `steps` evaluations of
its condition `currentLine < lastLine`. The counter is an `int`, so
`++currentLine` is reduced to 32 bits: at 2147483647 the increment overflows,
and the compiled code wraps around. `lastLine` is an `LRESULT`. The loop is left
when the condition fails and by `break`. -/
def searchLoop (env : Env) (searchText : String) (fo : FindOption) (lastLine : Int) :
    (steps : Nat) → (currentLine : Int) → (prevDocLineChecked : Int) → View → List Op → Run
  | 0, _, _, v, ops => { view := v, ops := ops, returned := false }
  | steps + 1, currentLine, prevDocLineChecked, v, ops =>
    if currentLine < lastLine then
      let docLine := toInt32 (v.docLineFromVisible currentLine)
      let ops := ops ++ [Op.execute Sci.SCI_DOCLINEFROMVISIBLE currentLine 0]
      if docLine = prevDocLineChecked then
        searchLoop env searchText fo lastLine steps (toInt32 (currentLine + 1))
          prevDocLineChecked v ops
      else
        let prevDocLineChecked := docLine
        let startPos := toInt32 (v.positionFromLine docLine)
        let endPos := toInt32 (v.positionFromLine (toInt32 (docLine + 1)))
        let ops := ops ++ [Op.execute Sci.SCI_POSITIONFROMLINE docLine 0,
                           Op.execute Sci.SCI_POSITIONFROMLINE (toInt32 (docLine + 1)) 0]
        if endPos = -1 then
          let frInfo : FindReplaceInfo :=
            { _txt2find := searchText, _startRange := startPos,
              _endRange := v.currentDocLen - 1 }
          { view := env.processRange v frInfo fo,
            ops := ops ++ [Op.getCurrentDocLen,
                           Op.processRange frInfo fo currentLine docLine true],
            returned := true }
        else
          let frInfo : FindReplaceInfo :=
            { _txt2find := searchText, _startRange := startPos, _endRange := endPos }
          searchLoop env searchText fo lastLine steps (toInt32 (currentLine + 1))
            prevDocLineChecked (env.processRange v frInfo fo)
            (ops ++ [Op.processRange frInfo fo currentLine docLine false])
    else
      { view := v, ops := ops, returned := true }

/-- The value of the local `wordOnly` of `highlightView`. -/
def wordOnlyOf (nppGUI : NppGUI) (findHistory : FindHistory) : Bool :=
  if nppGUI._smartHiliteMode = SmartHiliteMode.wordOnly then true
  else if nppGUI._smartHiliteMode = SmartHiliteMode.findDialog then findHistory._isMatchWord
  else false

/-- The method `SmartHighlighter::highlightView`, with at most `steps`
evaluations of the loop condition: the view and the calls made, and whether the
method returned. -/
def highlightView (env : Env) (nppGUI : NppGUI) (findHistory : FindHistory) (steps : Nat)
    (v : View) : Run :=
  let v := v.clearIndicator SCE_UNIVERSAL_FOUND_STYLE_SMART
  let ops := [Op.clearIndicator SCE_UNIVERSAL_FOUND_STYLE_SMART,
              Op.execute Sci.SCI_GETSELECTIONEMPTY 0 0]
  if v.selectionEmpty = 1 then { view := v, ops := ops, returned := true }
  else
    let curPos := v.currentPos
    let range := v.selection
    let ops := ops ++ [Op.execute Sci.SCI_GETCURRENTPOS 0 0, Op.getSelection]
    let wordOnly := wordOnlyOf nppGUI findHistory
    let wordStart := v.wordStartPosition curPos
    let wordEnd := v.wordEndPosition wordStart
    let ops :=
      if wordOnly then
        ops ++ [Op.execute Sci.SCI_WORDSTARTPOSITION curPos 1,
                Op.execute Sci.SCI_WORDENDPOSITION wordStart 1]
      else ops
    if wordOnly ∧ (wordStart = wordEnd ∨ wordStart ≠ range.cpMin ∨ wordEnd ≠ range.cpMax) then
      { view := v, ops := ops, returned := true }
    else
      let text2Find := v.selectedText
      let originalStartPos := v.targetStart
      let originalEndPos := v.targetEnd
      let firstLine := toInt32 v.firstVisibleLine
      let nbLineOnScreen := v.linesOnScreen
      let nrLines := toInt64 (min nbLineOnScreen MAXLINEHIGHLIGHT + 1)
      let lastLine := toInt64 (firstLine + nrLines)
      let fo : FindOption := {}
      let fo := { fo with _isMatchCase := nppGUI._smartHiliteCaseSensitive }
      let fo := { fo with _isWholeWord := wordOnly }
      let cp := v.codePage
      let searchText := env.char2wchar text2Find cp
      let ops := ops ++ [Op.getSelectedText,
                         Op.execute Sci.SCI_GETTARGETSTART 0 0,
                         Op.execute Sci.SCI_GETTARGETEND 0 0,
                         Op.execute Sci.SCI_GETFIRSTVISIBLELINE 0 0,
                         Op.execute Sci.SCI_LINESONSCREEN 0 0,
                         Op.execute Sci.SCI_GETCODEPAGE 0 0]
      let r := searchLoop env searchText fo lastLine steps firstLine (-1) v ops
      if r.returned then
        { view := r.view.setTargetRange originalStartPos originalEndPos,
          ops := r.ops ++ [Op.execute Sci.SCI_SETTARGETRANGE originalStartPos originalEndPos],
          returned := true }
      else r

end SmartHighlighter

namespace SmartHighlighter

/-- The visible line, the document line and the past-end flag of a
`processRange` call. -/
def Op.searched : Op → Option (Int × Int × Bool)
  | .processRange _ _ currentLine docLine pastEOF => some (currentLine, docLine, pastEOF)
  | _ => none

/-- The `processRange` calls of a trace, as triples of visible line, document
line and past-end flag. -/
def searches (ops : List Op) : List (Int × Int × Bool) :=
  ops.filterMap Op.searched

/-- The find options a `processRange` call was made with. -/
def Op.findOption : Op → Option FindOption
  | .processRange _ fo _ _ _ => some fo
  | _ => none

/-- Relation between two successive `processRange` calls of one run: the
second is for a later visible line and another document line, and the first did
not reach past the end of the document. -/
def nextSearch (a b : Int × Int × Bool) : Prop :=
  a.1 < b.1 ∧ a.2.1 ≠ b.2.1 ∧ a.2.2 = false

instance (a b : Int × Int × Bool) : Decidable (nextSearch a b) := by
  unfold nextSearch
  infer_instance

/-- The condition under which `highlightView` returns after the word check:
the word around the caret is empty or is not the selection. -/
def wordMismatch (v : View) : Prop :=
  v.wordStartPosition v.currentPos = v.wordEndPosition (v.wordStartPosition v.currentPos)
  ∨ v.wordStartPosition v.currentPos ≠ v.selection.cpMin
  ∨ v.wordEndPosition (v.wordStartPosition v.currentPos) ≠ v.selection.cpMax

instance (v : View) : Decidable (wordMismatch v) := by
  unfold wordMismatch
  infer_instance

/-- The call of `highlightView` gets as far as the search loop. -/
def reachesLoop (nppGUI : NppGUI) (findHistory : FindHistory) (v : View) : Prop :=
  v.selectionEmpty ≠ 1 ∧ ¬ (wordOnlyOf nppGUI findHistory = true ∧ wordMismatch v)

instance (nppGUI : NppGUI) (findHistory : FindHistory) (v : View) :
    Decidable (reachesLoop nppGUI findHistory v) := by
  unfold reachesLoop
  infer_instance

/-- A view for concrete evaluation: a document of three lines of ten
characters each, the word at positions 0 to 4 selected, five lines on screen,
the visible lines 0 and 1 both showing document line 0 and every further
visible line showing the next document line, and the search target at 7 to 9. -/
def sampleView : View :=
  { selectionEmpty := 0
    currentPos := 4
    selection := { cpMin := 0, cpMax := 4 }
    wordStartPosition := fun _ => 0
    wordEndPosition := fun _ => 4
    selectedText := "word"
    targetStart := 7
    targetEnd := 9
    firstVisibleLine := 0
    linesOnScreen := 5
    codePage := 65001
    docLineFromVisible := fun l => if l ≤ 1 then 0 else l - 1
    positionFromLine := fun l => if l ≤ 2 then 10 * l else -1
    currentDocLen := 30
    indicatorRanges := fun _ => [] }

/-- A find dialog for concrete evaluation: `processRange` leaves the search
target on the range it was given. -/
def sampleEnv : Env :=
  { processRange := fun v frInfo _ => v.setTargetRange frInfo._startRange frInfo._endRange
    char2wchar := fun s _ => s }

end SmartHighlighter

namespace SmartHighlighter

/-- The calls `highlightView` makes before the loop when it gets that far. -/
def preLoopOps (wordOnly : Bool) (v : View) : List Op :=
  [Op.clearIndicator SCE_UNIVERSAL_FOUND_STYLE_SMART,
   Op.execute Sci.SCI_GETSELECTIONEMPTY 0 0,
   Op.execute Sci.SCI_GETCURRENTPOS 0 0,
   Op.getSelection]
  ++ (if wordOnly then
        [Op.execute Sci.SCI_WORDSTARTPOSITION v.currentPos 1,
         Op.execute Sci.SCI_WORDENDPOSITION (v.wordStartPosition v.currentPos) 1]
      else [])
  ++ [Op.getSelectedText,
      Op.execute Sci.SCI_GETTARGETSTART 0 0,
      Op.execute Sci.SCI_GETTARGETEND 0 0,
      Op.execute Sci.SCI_GETFIRSTVISIBLELINE 0 0,
      Op.execute Sci.SCI_LINESONSCREEN 0 0,
      Op.execute Sci.SCI_GETCODEPAGE 0 0]

/-- The find options `highlightView` searches with. -/
def loopFindOption (nppGUI : NppGUI) (findHistory : FindHistory) : FindOption :=
  { _isWholeWord := wordOnlyOf nppGUI findHistory,
    _isMatchCase := nppGUI._smartHiliteCaseSensitive }

/-- The value of the local `docLine` in the loop iteration for `currentLine`. -/
def docLineOf (v : View) (currentLine : Int) : Int :=
  toInt32 (v.docLineFromVisible currentLine)

/-- The value of the local `endPos` in the loop iteration for `currentLine`. -/
def endPosOf (v : View) (currentLine : Int) : Int :=
  toInt32 (v.positionFromLine (toInt32 (docLineOf v currentLine + 1)))

/-- The search information the loop iteration for `currentLine` passes to
`processRange`. -/
def frInfoOf (searchText : String) (v : View) (currentLine : Int) : FindReplaceInfo :=
  { _txt2find := searchText
    _startRange := toInt32 (v.positionFromLine (docLineOf v currentLine))
    _endRange := if endPosOf v currentLine = -1 then v.currentDocLen - 1
                 else endPosOf v currentLine }

/-- The three queries of a loop iteration that looks at a new document line. -/
def queriesOf (v : View) (currentLine : Int) : List Op :=
  [Op.execute Sci.SCI_DOCLINEFROMVISIBLE currentLine 0,
   Op.execute Sci.SCI_POSITIONFROMLINE (docLineOf v currentLine) 0,
   Op.execute Sci.SCI_POSITIONFROMLINE (toInt32 (docLineOf v currentLine + 1)) 0]

/-- The value of the local `lastLine` of `highlightView`. -/
def lastLineOf (v : View) : Int :=
  toInt64 (toInt32 v.firstVisibleLine + toInt64 (min v.linesOnScreen MAXLINEHIGHLIGHT + 1))

/-- The run of the loop inside `highlightView`, started on an empty trace. -/
def loopRun (env : Env) (nppGUI : NppGUI) (findHistory : FindHistory) (steps : Nat) (v : View) :
    Run :=
  searchLoop env (env.char2wchar v.selectedText v.codePage) (loopFindOption nppGUI findHistory)
    (lastLineOf v) steps
    (toInt32 v.firstVisibleLine) (-1) (v.clearIndicator SCE_UNIVERSAL_FOUND_STYLE_SMART) []

end SmartHighlighter

namespace SmartHighlighter

/-- Settings for concrete evaluation: word-only highlighting, case ignored. -/
def sampleGUI : NppGUI :=
  { _smartHiliteMode := SmartHiliteMode.wordOnly, _smartHiliteCaseSensitive := false }

def sampleHistory : FindHistory :=
  { _isMatchWord := false }

/-- The sample view with the selection starting inside the word. -/
def sampleMismatchView : View :=
  { sampleView with selection := { cpMin := 1, cpMax := 4 } }

/-- The sample view with an empty selection. -/
def sampleEmptyView : View :=
  { sampleView with selectionEmpty := 1 }

/-- A view scrolled to the visible line 2147483647, the largest `int`, with
one line on screen, on a document of 4294967296 lines of two characters, the
first character selected: every visible line from 1 on shows the document line
of the same number, a visible line below 1 shows document line 0, and document
line `l` starts at position `2 * l` (position 0 for a negative line number), so
that no range the loop looks at ends past the end of the document. -/
def overflowView : View :=
  { selectionEmpty := 0
    currentPos := 1
    selection := { cpMin := 0, cpMax := 1 }
    wordStartPosition := fun _ => 0
    wordEndPosition := fun _ => 1
    selectedText := "w"
    targetStart := 7
    targetEnd := 9
    firstVisibleLine := 2147483647
    linesOnScreen := 1
    codePage := 65001
    docLineFromVisible := fun l => if l ≤ 0 then 0 else l
    positionFromLine := fun l => if l < 0 then 0 else 2 * l
    currentDocLen := 8589934592
    indicatorRanges := fun _ => [] }

end SmartHighlighter

/-! ## The document snapshot (PowerEditor/src/WinControls/DocumentMap/documentSnapshot.cpp)

`LONG`, `int` and `int32_t` values are integers kept in the signed 32-bit range
by `toInt32` after every addition, subtraction, multiplication and conversion;
values of type `LRESULT` are unbounded integers. -/

namespace DocumentSnapshot

open NppDarkMode (RECT HWND)
open SmartHighlighter (toInt32)

/-- The value fits the signed 32-bit range. -/
def InInt32 (x : Int) : Prop :=
  -2147483648 ≤ x ∧ x < 2147483648

instance (x : Int) : Decidable (InInt32 x) := by
  unfold InInt32
  infer_instance

/-- Modelled from the spec: the structure `MapPosition` is declared in
Buffer.h, which is not among the sources; these are the members
documentSnapshot.cpp reads or writes. -/
structure MapPosition where
  _firstVisibleDocLine : Int := -1
  _lastVisibleDocLine : Int := -1
  _nbLine : Int := -1
  _width : Int := -1
  _height : Int := -1
  _wrapIndentMode : Int := -1
  _isWrap : Bool := false
deriving DecidableEq, Repr

/-- Modelled from the spec: the class `Buffer` is declared in Buffer.h, which
is not among the sources; `setMapPosition` stores its argument in the member
that `getMapPosition` returns. -/
structure Buffer where
  _mapPosition : MapPosition
deriving DecidableEq, Repr

def Buffer.setMapPosition (b : Buffer) (mapPos : MapPosition) : Buffer :=
  { b with _mapPosition := mapPos }

/-- The Scintilla messages the two functions send. -/
inductive Sci where
  | SCI_SETWRAPINDENTMODE
  | SCI_HOMEDISPLAY
  | SCI_VISIBLEFROMDOCLINE
  | SCI_LINESCROLL
deriving DecidableEq, Repr

/-- A call made by `scrollSnapshotWith`, on the snapshot view unless it is
`MoveWindow`. -/
inductive Op where
  | MoveWindow (hWnd : HWND) (x y nWidth nHeight : Int) (bRepaint : Bool)
  | wrap (willBeWrapped : Bool)
  | execute (msg : Sci) (wParam : Int) (lParam : Int)
deriving DecidableEq, Repr

def Op.isMoveWindow : Op → Bool
  | .MoveWindow _ _ _ _ _ _ => true
  | _ => false

/-- The snapshot view `_pScintillaEditView` points to: its window handle and
the answers to the two queries made on it. -/
structure SnapshotView where
  hSelf : HWND
  visibleFromDocLine : Int → Int
  textHeight : Int → Int

/-- The members of the dialog the two functions use; `_pScintillaEditView` is
`none` for the null pointer. -/
structure Dialog where
  _rc : RECT
  _pScintillaEditView : Option SnapshotView

/-- The method `DocumentSnapshot::scrollSnapshotWith`: the dialog afterwards
and the calls made. -/
def scrollSnapshotWith (d : Dialog) (mapPos : MapPosition) : Dialog × List Op :=
  match d._pScintillaEditView with
  | none => (d, [])
  | some view =>
    let hasBeenChanged := false
    let step1 : RECT × Bool :=
      if mapPos._height ≠ -1 ∧ d._rc.bottom ≠ toInt32 (d._rc.top + mapPos._height) then
        ({ d._rc with bottom := toInt32 (d._rc.top + mapPos._height) }, true)
      else (d._rc, hasBeenChanged)
    let step2 : RECT × Bool :=
      if mapPos._width ≠ -1 ∧ step1.1.right ≠ toInt32 (step1.1.left + mapPos._width) then
        ({ step1.1 with right := toInt32 (step1.1.left + mapPos._width) }, true)
      else step1
    let rc := step2.1
    let hasBeenChanged := step2.2
    let move : List Op :=
      if hasBeenChanged then
        [Op.MoveWindow view.hSelf 0 0 (toInt32 (rc.right - rc.left)) (toInt32 (rc.bottom - rc.top))
          true]
      else []
    let firstVisibleDisplayLine := view.visibleFromDocLine mapPos._firstVisibleDocLine
    ({ d with _rc := rc },
     move ++
      [Op.wrap mapPos._isWrap,
       Op.execute Sci.SCI_SETWRAPINDENTMODE mapPos._wrapIndentMode 0,
       Op.execute Sci.SCI_HOMEDISPLAY 0 0,
       Op.execute Sci.SCI_VISIBLEFROMDOCLINE mapPos._firstVisibleDocLine 0,
       Op.execute Sci.SCI_LINESCROLL 0 firstVisibleDisplayLine])

/-- The editor view passed to `saveCurrentSnapshot`: the answers to the
queries made on it and its current buffer. -/
structure EditView where
  firstVisibleLine : Int
  docLineFromVisible : Int → Int
  linesOnScreen : Int
  clientRect : RECT
  marginWidthN : Int → Int
  wrapIndentMode : Int
  isWrap : Bool
  currentBuffer : Buffer

/-- The sum of the four margin widths, as the `for` loop of
`saveCurrentSnapshot` builds it. -/
def marginWidthsOf (editView : EditView) : Int :=
  [0, 1, 2, 3].foldl (fun acc m => toInt32 (acc + toInt32 (editView.marginWidthN m))) 0

/-- The method `DocumentSnapshot::saveCurrentSnapshot`: the current buffer of
the editor afterwards. `widthOf w h height` stands for the floating-point
expression `static_cast<int32_t>((w / h) * static_cast<double>(height))`, which
is taken as given. -/
def saveCurrentSnapshot (widthOf : Int → Int → Int → Int) (d : Dialog) (editView : EditView) :
    Buffer :=
  match d._pScintillaEditView with
  | none => editView.currentBuffer
  | some view =>
    let mapPos : MapPosition := {}
    let firstVisibleDisplayLine := editView.firstVisibleLine
    let mapPos := { mapPos with
      _firstVisibleDocLine := toInt32 (editView.docLineFromVisible firstVisibleDisplayLine) }
    let mapPos := { mapPos with _nbLine := toInt32 editView.linesOnScreen }
    let mapPos := { mapPos with
      _lastVisibleDocLine :=
        toInt32 (editView.docLineFromVisible (firstVisibleDisplayLine + mapPos._nbLine)) }
    let lineHeight := toInt32 (view.textHeight mapPos._firstVisibleDocLine)
    let mapPos := { mapPos with _height := toInt32 (mapPos._nbLine * lineHeight) }
    let editorRect := editView.clientRect
    let marginWidths := marginWidthsOf editView
    let editViewWidth := toInt32 (toInt32 (editorRect.right - editorRect.left) - marginWidths)
    let editViewHeight := toInt32 (editorRect.bottom - editorRect.top)
    let mapPos := { mapPos with _width := widthOf editViewWidth editViewHeight mapPos._height }
    let mapPos := { mapPos with _wrapIndentMode := toInt32 editView.wrapIndentMode }
    let mapPos := { mapPos with _isWrap := editView.isWrap }
    editView.currentBuffer.setMapPosition mapPos

/-- A dialog for concrete evaluation: a snapshot view exists and the rectangle
is 100 wide and 200 high at (10, 20). -/
def sampleDialog : Dialog :=
  { _rc := { left := 10, top := 20, right := 110, bottom := 220 }
    _pScintillaEditView :=
      some { hSelf := 77, visibleFromDocLine := fun l => l + 1, textHeight := fun _ => 4 } }

/-- A recorded position for concrete evaluation: 300 wide and 120 high. -/
def sampleMapPosition : MapPosition :=
  { _firstVisibleDocLine := 5, _lastVisibleDocLine := 35, _nbLine := 30, _width := 300,
    _height := 120, _wrapIndentMode := 0, _isWrap := true }

/-- An editor for concrete evaluation: 30 lines on screen from display line 7,
every display line showing the document line two above it. -/
def sampleEditView : EditView :=
  { firstVisibleLine := 7
    docLineFromVisible := fun l => l - 2
    linesOnScreen := 30
    clientRect := { left := 0, top := 0, right := 800, bottom := 600 }
    marginWidthN := fun _ => 16
    wrapIndentMode := 1
    isWrap := true
    currentBuffer := { _mapPosition := {} } }

end DocumentSnapshot

namespace NppDarkMode

/-! ## The `WM_CTLCOLOR*` helpers -/

def COLOR_WINDOWTEXT : Nat := 8
def COLOR_GRAYTEXT : Nat := 17

/-- The function `onCtlColor`: its return value and the calls on the device
context. A brush handle is returned as the integer it is. -/
def onCtlColor (s : State) (hdc : HANDLE) : LRESULT × List Effect :=
  if !isEnabled s then (FALSE, [])
  else
    (Int.ofNat (getBackgroundBrush s),
     [Effect.SetTextColor hdc (getTextColor s), Effect.SetBkColor hdc (getBackgroundColor s)])

def onCtlColorSofter (s : State) (hdc : HANDLE) : LRESULT × List Effect :=
  if !isEnabled s then (FALSE, [])
  else
    (Int.ofNat (getSofterBackgroundBrush s),
     [Effect.SetTextColor hdc (getTextColor s),
      Effect.SetBkColor hdc (getSofterBackgroundColor s)])

def onCtlColorDarker (s : State) (hdc : HANDLE) : LRESULT × List Effect :=
  if !isEnabled s then (FALSE, [])
  else
    (Int.ofNat (getDarkerBackgroundBrush s),
     [Effect.SetTextColor hdc (getTextColor s),
      Effect.SetBkColor hdc (getDarkerBackgroundColor s)])

def onCtlColorError (s : State) (hdc : HANDLE) : LRESULT × List Effect :=
  if !isEnabled s then (FALSE, [])
  else
    (Int.ofNat (getErrorBackgroundBrush s),
     [Effect.SetTextColor hdc (getTextColor s),
      Effect.SetBkColor hdc (getErrorBackgroundColor s)])

/-- The function `onCtlColorDarkerBGStaticText`; `GetSysColor` is the system
colour table. -/
def onCtlColorDarkerBGStaticText (GetSysColor : Nat → COLORREF) (s : State) (hdc : HANDLE)
    (isTextEnabled : Bool) : LRESULT × List Effect :=
  if !isEnabled s then
    (FALSE,
     [Effect.SetTextColor hdc
        (GetSysColor (if isTextEnabled then COLOR_WINDOWTEXT else COLOR_GRAYTEXT))])
  else
    (Int.ofNat (getDarkerBackgroundBrush s),
     [Effect.SetTextColor hdc (if isTextEnabled then getTextColor s else getDisabledTextColor s),
      Effect.SetBkColor hdc (getDarkerBackgroundColor s)])

def Effect.isSetBkColor : Effect → Bool
  | .SetBkColor _ _ => true
  | _ => false

/-- The handle `h` is not null and is the handle of a live solid brush of
colour `c`. -/
def Gdi.hasBrush (g : Gdi) (h : HANDLE) (c : COLORREF) : Prop :=
  h ≠ 0 ∧ (⟨h, GdiKind.brush, c⟩ : GdiObject) ∈ g.live

instance (g : Gdi) (h : HANDLE) (c : COLORREF) : Decidable (g.hasBrush h c) := by
  unfold Gdi.hasBrush
  infer_instance

/-- The four brushes the `onCtlColor` family returns are live brushes of the
colours of the theme they belong to. -/
def Theme.ctlBrushesMatch (g : Gdi) (t : Theme) : Prop :=
  g.hasBrush t._brushes.background t._colors.background
  ∧ g.hasBrush t._brushes.softerBackground t._colors.softerBackground
  ∧ g.hasBrush t._brushes.pureBackground t._colors.pureBackground
  ∧ g.hasBrush t._brushes.errorBackground t._colors.errorBackground

instance (g : Gdi) (t : Theme) : Decidable (t.ctlBrushesMatch g) := by
  unfold Theme.ctlBrushesMatch
  infer_instance

/-- The answer `out` of an `onCtlColor` function is not `FALSE`, the one
background colour it sets on the device context is `c`, and the value returned
is the handle of a live brush of that colour. -/
def answersWithBrush (g : Gdi) (hdc : HANDLE) (out : LRESULT × List Effect) (c : COLORREF) :
    Prop :=
  out.1 ≠ FALSE
  ∧ out.2.filter Effect.isSetBkColor = [Effect.SetBkColor hdc c]
  ∧ ∃ h : HANDLE, out.1 = Int.ofNat h ∧ g.hasBrush h c

end NppDarkMode

namespace NppDarkMode

/-! ## The registry invariant behind the `onCtlColor` family -/

/-- The sixteen handles a theme holds: twelve brushes, then four pens. -/
def Theme.handles (t : Theme) : List HANDLE :=
  t._brushes.handles ++ t._pens.handles

/-- The statement `t.change(colors)` for the theme object named `r`. -/
def State.changeAt (api : Shlwapi) (s : State) (r : ThemeRef) (colors : Colors) : State :=
  { s.setTheme r ((s.theme r).change api colors s.gdi).1 with
    gdi := ((s.theme r).change api colors s.gdi).2 }

/-- The invariant of the registry: the object table is well formed, the four
brushes the `onCtlColor` family returns are, in every theme, live brushes of
the theme's colours, no theme holds a handle newer than the last one handed
out, and no two themes hold a handle in common. -/
def State.Inv (s : State) : Prop :=
  s.gdi.WellFormed
  ∧ (∀ r, (s.theme r).ctlBrushesMatch s.gdi)
  ∧ (∀ r, ∀ h ∈ (s.theme r).handles, h ≤ s.gdi.next)
  ∧ (∀ r q, r ≠ q → ∀ h ∈ (s.theme r).handles, h ∉ (s.theme q).handles)

end NppDarkMode

namespace NppDarkMode

/-- The position of a theme object in declaration order, which is the order of
construction. -/
def ThemeRef.index : ThemeRef → Nat
  | .tDefault => 0
  | .tR => 1
  | .tG => 2
  | .tB => 3
  | .tP => 4
  | .tC => 5
  | .tO => 6
  | .tCustom => 7

end NppDarkMode

/-! # Theorems -/

set_option maxRecDepth 100000

namespace NppDarkMode

/-! ## Reading and writing through a theme reference -/

theorem theme_setTheme_same (s : State) (r : ThemeRef) (t : Theme) :
    (s.setTheme r t).theme r = t := by
  cases r <;> rfl

theorem theme_setTheme_other (s : State) (r q : ThemeRef) (t : Theme) (h : q ≠ r) :
    (s.setTheme r t).theme q = s.theme q := by
  cases r <;> cases q <;> first | rfl | exact absurd rfl h

theorem tone_setTheme (s : State) (r : ThemeRef) (t : Theme) :
    (s.setTheme r t).g_colorToneChoice = s.g_colorToneChoice := by
  cases r <;> rfl

theorem theme_setTheme_gdi (s : State) (r : ThemeRef) (t : Theme) (g : Gdi) :
    ({ s.setTheme r t with gdi := g } : State).theme r = t := by
  cases r <;> rfl

theorem tone_changeTheme (api : Shlwapi) (s : State) (colors : Colors) :
    (changeTheme api s colors).g_colorToneChoice = s.g_colorToneChoice := by
  simp only [changeTheme]
  exact tone_setTheme _ _ _

theorem getTheme_changeTheme (api : Shlwapi) (s : State) (colors : Colors) :
    getTheme (changeTheme api s colors) = ((getTheme s).change api colors s.gdi).1 := by
  have h := tone_changeTheme api s colors
  unfold getTheme
  rw [h]
  simp only [changeTheme]
  exact theme_setTheme_gdi _ _ _ _

theorem colors_getTheme_changeTheme (api : Shlwapi) (s : State) (colors : Colors) :
    (getTheme (changeTheme api s colors))._colors = colors := by
  rw [getTheme_changeTheme]
  rfl

/-! ## C1 -/

/-- C1: in every registry state (whatever tone is selected, built-in or
customized) and for every colour `c`, each of the ten colour setters leaves the
selected tone as it was and makes the matching getter return `c`. -/
theorem C1_get_after_set (api : Shlwapi) (s : State) (c : COLORREF) :
    (getBackgroundColor (setBackgroundColor api s c) = c
      ∧ (setBackgroundColor api s c).g_colorToneChoice = s.g_colorToneChoice)
    ∧ (getSofterBackgroundColor (setSofterBackgroundColor api s c) = c
      ∧ (setSofterBackgroundColor api s c).g_colorToneChoice = s.g_colorToneChoice)
    ∧ (getHotBackgroundColor (setHotBackgroundColor api s c) = c
      ∧ (setHotBackgroundColor api s c).g_colorToneChoice = s.g_colorToneChoice)
    ∧ (getDarkerBackgroundColor (setDarkerBackgroundColor api s c) = c
      ∧ (setDarkerBackgroundColor api s c).g_colorToneChoice = s.g_colorToneChoice)
    ∧ (getErrorBackgroundColor (setErrorBackgroundColor api s c) = c
      ∧ (setErrorBackgroundColor api s c).g_colorToneChoice = s.g_colorToneChoice)
    ∧ (getTextColor (setTextColor api s c) = c
      ∧ (setTextColor api s c).g_colorToneChoice = s.g_colorToneChoice)
    ∧ (getDarkerTextColor (setDarkerTextColor api s c) = c
      ∧ (setDarkerTextColor api s c).g_colorToneChoice = s.g_colorToneChoice)
    ∧ (getDisabledTextColor (setDisabledTextColor api s c) = c
      ∧ (setDisabledTextColor api s c).g_colorToneChoice = s.g_colorToneChoice)
    ∧ (getLinkTextColor (setLinkTextColor api s c) = c
      ∧ (setLinkTextColor api s c).g_colorToneChoice = s.g_colorToneChoice)
    ∧ (getEdgeColor (setEdgeColor api s c) = c
      ∧ (setEdgeColor api s c).g_colorToneChoice = s.g_colorToneChoice) := by
  simp only [getBackgroundColor, setBackgroundColor, getSofterBackgroundColor,
    setSofterBackgroundColor, getHotBackgroundColor, setHotBackgroundColor,
    getDarkerBackgroundColor, setDarkerBackgroundColor, getErrorBackgroundColor,
    setErrorBackgroundColor, getTextColor, setTextColor, getDarkerTextColor, setDarkerTextColor,
    getDisabledTextColor, setDisabledTextColor, getLinkTextColor, setLinkTextColor,
    getEdgeColor, setEdgeColor, colors_getTheme_changeTheme, tone_changeTheme, and_self]

/-! ## C2 -/

/-- C2: after `setDarkTone t` the theme objects are untouched and every
colour, brush and pen getter reads the theme selected by `t`: the red, green,
blue, purple, cyan, olive and customized tones select `tR`, `tG`, `tB`, `tP`,
`tC`, `tO` and `tCustom`, seven different objects none of which is `tDefault`,
and every other value, `blackTone` among them, selects `tDefault`; right after
static initialisation the colours of `tDefault` are
`getDarkModeDefaultColors`. -/
theorem C2_tone_selection (api : Shlwapi) (s : State) (t : ColorTone) :
    (t ∉ [redTone, greenTone, blueTone, purpleTone, cyanTone, oliveTone, customizedTone] →
      getTheme (setDarkTone s t) = s.tDefault)
    ∧ getTheme (setDarkTone s blackTone) = s.tDefault
    ∧ getTheme (setDarkTone s redTone) = s.tR
    ∧ getTheme (setDarkTone s greenTone) = s.tG
    ∧ getTheme (setDarkTone s blueTone) = s.tB
    ∧ getTheme (setDarkTone s purpleTone) = s.tP
    ∧ getTheme (setDarkTone s cyanTone) = s.tC
    ∧ getTheme (setDarkTone s oliveTone) = s.tO
    ∧ getTheme (setDarkTone s customizedTone) = s.tCustom
    ∧ [redTone, greenTone, blueTone, purpleTone, cyanTone, oliveTone, customizedTone].map
        getThemeRef = [.tR, .tG, .tB, .tP, .tC, .tO, .tCustom]
    ∧ [ThemeRef.tDefault, .tR, .tG, .tB, .tP, .tC, .tO, .tCustom].Nodup
    ∧ (∀ r, (setDarkTone s t).theme r = s.theme r)
    ∧ (getBackgroundColor (setDarkTone s t) = (s.theme (getThemeRef t))._colors.background
      ∧ getSofterBackgroundColor (setDarkTone s t)
          = (s.theme (getThemeRef t))._colors.softerBackground
      ∧ getHotBackgroundColor (setDarkTone s t) = (s.theme (getThemeRef t))._colors.hotBackground
      ∧ getDarkerBackgroundColor (setDarkTone s t)
          = (s.theme (getThemeRef t))._colors.pureBackground
      ∧ getErrorBackgroundColor (setDarkTone s t)
          = (s.theme (getThemeRef t))._colors.errorBackground
      ∧ getTextColor (setDarkTone s t) = (s.theme (getThemeRef t))._colors.text
      ∧ getDarkerTextColor (setDarkTone s t) = (s.theme (getThemeRef t))._colors.darkerText
      ∧ getDisabledTextColor (setDarkTone s t) = (s.theme (getThemeRef t))._colors.disabledText
      ∧ getLinkTextColor (setDarkTone s t) = (s.theme (getThemeRef t))._colors.linkText
      ∧ getEdgeColor (setDarkTone s t) = (s.theme (getThemeRef t))._colors.edge)
    ∧ (getBackgroundBrush (setDarkTone s t) = (s.theme (getThemeRef t))._brushes.background
      ∧ getSofterBackgroundBrush (setDarkTone s t)
          = (s.theme (getThemeRef t))._brushes.softerBackground
      ∧ getHotBackgroundBrush (setDarkTone s t)
          = (s.theme (getThemeRef t))._brushes.hotBackground
      ∧ getDarkerBackgroundBrush (setDarkTone s t)
          = (s.theme (getThemeRef t))._brushes.pureBackground
      ∧ getErrorBackgroundBrush (setDarkTone s t)
          = (s.theme (getThemeRef t))._brushes.errorBackground
      ∧ getHardlightBackgroundBrush (setDarkTone s t)
          = (s.theme (getThemeRef t))._brushes.hardlightBackground
      ∧ getSoftlightBackgroundBrush (setDarkTone s t)
          = (s.theme (getThemeRef t))._brushes.softlightBackground
      ∧ getTextBrush (setDarkTone s t) = (s.theme (getThemeRef t))._brushes.textColorBrush
      ∧ getDarkerTextBrush (setDarkTone s t)
          = (s.theme (getThemeRef t))._brushes.darkerTextColorBrush
      ∧ getEdgeBrush (setDarkTone s t) = (s.theme (getThemeRef t))._brushes.edgeBackground
      ∧ getLightEdgeBrush (setDarkTone s t)
          = (s.theme (getThemeRef t))._brushes.lightEdgeBackground
      ∧ getDargEdgeBrush (setDarkTone s t)
          = (s.theme (getThemeRef t))._brushes.darkEdgeBackground)
    ∧ (getDarkerTextPen (setDarkTone s t) = (s.theme (getThemeRef t))._pens.darkerTextPen
      ∧ getEdgePen (setDarkTone s t) = (s.theme (getThemeRef t))._pens.edgePen
      ∧ getLightEdgePen (setDarkTone s t) = (s.theme (getThemeRef t))._pens.lightEdgePen
      ∧ getDarkEdgePen (setDarkTone s t) = (s.theme (getThemeRef t))._pens.darkEdgePen)
    ∧ (initialState api).tDefault._colors = getDarkModeDefaultColors := by
  refine ⟨?_, rfl, rfl, rfl, rfl, rfl, rfl, rfl, rfl, rfl, by decide, ?_, ?_, ?_, ?_, rfl⟩
  · intro h
    simp only [List.mem_cons, List.mem_singleton, List.not_mem_nil, or_false, not_or] at h
    obtain ⟨h1, h2, h3, h4, h5, h6, h7⟩ := h
    simp only [getTheme, setDarkTone, getThemeRef, h1, h2, h3, h4, h5, h6, h7, if_false]
    rfl
  · intro r
    cases r <;> rfl
  · exact ⟨rfl, rfl, rfl, rfl, rfl, rfl, rfl, rfl, rfl, rfl⟩
  · exact ⟨rfl, rfl, rfl, rfl, rfl, rfl, rfl, rfl, rfl, rfl, rfl, rfl⟩
  · exact ⟨rfl, rfl, rfl, rfl⟩

/-- Witness for C2 at the tone value `7`, which is none of the named tones. -/
theorem C2_tone_selection_witness :
    (7 : ColorTone) ∉ [redTone, greenTone, blueTone, purpleTone, cyanTone, oliveTone,
        customizedTone]
    ∧ getTheme (setDarkTone (initialState sampleApi) 7) = (initialState sampleApi).tDefault :=
  ⟨by decide, (C2_tone_selection sampleApi (initialState sampleApi) 7).1 (by decide)⟩

/-! ## The GDI object table -/

theorem isLive_iff_mem (g : Gdi) (h : HANDLE) : g.isLive h = true ↔ h ∈ g.handlesOf := by
  simp only [Gdi.isLive, Gdi.handlesOf, List.any_eq_true, List.mem_map, beq_iff_eq]

theorem isLive_false_iff (g : Gdi) (h : HANDLE) : g.isLive h = false ↔ h ∉ g.handlesOf := by
  rw [← isLive_iff_mem]
  cases g.isLive h <;> simp

theorem handlesOf_DeleteObject (g : Gdi) (h : HANDLE) :
    (DeleteObject g h).handlesOf = g.handlesOf.erase h ∨ ¬ g.handlesOf.Nodup := by
  by_cases hnd : g.handlesOf.Nodup
  · left
    rw [List.Nodup.erase_eq_filter hnd]
    simp only [DeleteObject, Gdi.handlesOf, List.filter_map]
    rfl
  · exact Or.inr hnd

theorem handlesOf_DeleteObject_of_wf (g : Gdi) (h : HANDLE) (hw : g.WellFormed) :
    (DeleteObject g h).handlesOf = g.handlesOf.erase h := by
  rcases handlesOf_DeleteObject g h with h1 | h1
  · exact h1
  · exact absurd hw.1 h1

theorem DeleteObject_wf (g : Gdi) (h : HANDLE) (hw : g.WellFormed) :
    (DeleteObject g h).WellFormed := by
  refine ⟨?_, ?_⟩
  · rw [handlesOf_DeleteObject_of_wf g h hw]
    exact hw.1.erase h
  · intro x hx
    rw [handlesOf_DeleteObject_of_wf g h hw] at hx
    exact hw.2 x (List.mem_of_mem_erase hx)

theorem DeleteObject_deleted (g : Gdi) (h : HANDLE) :
    (DeleteObject g h).deleted = g.deleted ++ [h] := rfl

theorem DeleteObject_next (g : Gdi) (h : HANDLE) : (DeleteObject g h).next = g.next := rfl

theorem CreatePen_handlesOf (g : Gdi) (st w : Nat) (c : COLORREF) :
    (CreatePen g st w c).2.handlesOf = g.handlesOf ++ [g.next + 1] := by
  simp [CreatePen, Gdi.handlesOf]

theorem CreateSolidBrush_handlesOf (g : Gdi) (c : COLORREF) :
    (CreateSolidBrush g c).2.handlesOf = g.handlesOf ++ [g.next + 1] := by
  simp [CreateSolidBrush, Gdi.handlesOf]

theorem CreatePen_wf (g : Gdi) (st w : Nat) (c : COLORREF) (hw : g.WellFormed) :
    (CreatePen g st w c).2.WellFormed := by
  refine ⟨?_, ?_⟩
  · rw [CreatePen_handlesOf]
    refine List.Nodup.append hw.1 (List.nodup_singleton _) ?_
    intro x hx hx2
    have h1 : @LE.le Nat _ x g.next := hw.2 x hx
    have h2 : @Eq Nat x (g.next + 1) := List.mem_singleton.mp hx2
    omega
  · intro x hx
    rw [CreatePen_handlesOf] at hx
    simp only [List.mem_append, List.mem_singleton] at hx
    show @LE.le Nat _ x (g.next + 1)
    rcases hx with hx | hx
    · have h1 : @LE.le Nat _ x g.next := hw.2 x hx
      omega
    · have h2 : @Eq Nat x (g.next + 1) := hx
      omega

theorem CreateSolidBrush_wf (g : Gdi) (c : COLORREF) (hw : g.WellFormed) :
    (CreateSolidBrush g c).2.WellFormed := by
  refine ⟨?_, ?_⟩
  · rw [CreateSolidBrush_handlesOf]
    refine List.Nodup.append hw.1 (List.nodup_singleton _) ?_
    intro x hx hx2
    have h1 : @LE.le Nat _ x g.next := hw.2 x hx
    have h2 : @Eq Nat x (g.next + 1) := List.mem_singleton.mp hx2
    omega
  · intro x hx
    rw [CreateSolidBrush_handlesOf] at hx
    simp only [List.mem_append, List.mem_singleton] at hx
    show @LE.le Nat _ x (g.next + 1)
    rcases hx with hx | hx
    · have h1 : @LE.le Nat _ x g.next := hw.2 x hx
      omega
    · have h2 : @Eq Nat x (g.next + 1) := hx
      omega

theorem deleteAll_deleted (hs : List HANDLE) (g : Gdi) :
    (deleteAll g hs).deleted = g.deleted ++ hs := by
  induction hs generalizing g with
  | nil => simp [deleteAll]
  | cons a t ih =>
    have h := ih (DeleteObject g a)
    simp only [deleteAll, List.foldl_cons] at h ⊢
    rw [h, DeleteObject_deleted]
    simp

theorem deleteAll_next (hs : List HANDLE) (g : Gdi) : (deleteAll g hs).next = g.next := by
  induction hs generalizing g with
  | nil => rfl
  | cons a t ih =>
    have h := ih (DeleteObject g a)
    simp only [deleteAll, List.foldl_cons] at h ⊢
    rw [h, DeleteObject_next]

theorem deleteAll_wf (hs : List HANDLE) (g : Gdi) (hw : g.WellFormed) :
    (deleteAll g hs).WellFormed := by
  induction hs generalizing g with
  | nil => exact hw
  | cons a t ih => exact ih (DeleteObject g a) (DeleteObject_wf g a hw)

theorem deleteAll_handlesOf (hs : List HANDLE) (g : Gdi) (hw : g.WellFormed) :
    (deleteAll g hs).handlesOf = g.handlesOf.diff hs := by
  induction hs generalizing g with
  | nil => rfl
  | cons a t ih =>
    have h := ih (DeleteObject g a) (DeleteObject_wf g a hw)
    simp only [deleteAll, List.foldl_cons] at h ⊢
    rw [h, handlesOf_DeleteObject_of_wf g a hw, List.diff_cons]

theorem length_diff_of_nodup (hs l : List HANDLE) (hnd : hs.Nodup) (hsub : ∀ h ∈ hs, h ∈ l) :
    (l.diff hs).length + hs.length = l.length := by
  induction hs generalizing l with
  | nil => simp
  | cons a t ih =>
    have ha : a ∈ l := hsub a (List.mem_cons_self a t)
    have hnd2 := List.nodup_cons.mp hnd
    have hsub2 : ∀ h ∈ t, h ∈ l.erase a := by
      intro h hh
      have hne : h ≠ a := fun e => hnd2.1 (e ▸ hh)
      exact (List.mem_erase_of_ne hne).mpr (hsub h (List.mem_cons_of_mem a hh))
    have h1 := ih (l.erase a) hnd2.2 hsub2
    have h2 := List.length_erase_of_mem ha
    have h3 : 0 < l.length := List.length_pos_of_mem ha
    rw [List.diff_cons, List.length_cons]
    omega

theorem liveAmong_eq (g : Gdi) (hs : List HANDLE) :
    g.liveAmong hs = (g.handlesOf.filter (fun h => hs.contains h)).length := by
  simp only [Gdi.liveAmong, Gdi.handlesOf, List.filter_map, List.length_map]
  rfl

theorem liveAmong_of_live (g : Gdi) (hs : List HANDLE) (hw : g.WellFormed) (hnd : hs.Nodup)
    (hlive : ∀ h ∈ hs, g.isLive h = true) : g.liveAmong hs = hs.length := by
  rw [liveAmong_eq]
  apply List.Perm.length_eq
  refine (List.perm_ext_iff_of_nodup (hw.1.filter _) hnd).mpr ?_
  intro a
  simp only [List.mem_filter, List.contains_eq_any_beq, List.any_eq_true, beq_iff_eq, exists_eq_right']
  constructor
  · exact fun h => h.2
  · exact fun h => ⟨(isLive_iff_mem g a).mp (hlive a h), h⟩

theorem liveAmong_of_dead (g : Gdi) (hs : List HANDLE)
    (hdead : ∀ h ∈ hs, g.isLive h = false) : g.liveAmong hs = 0 := by
  rw [liveAmong_eq, List.length_eq_zero, List.filter_eq_nil_iff]
  intro a ha hc
  simp only [List.contains_eq_any_beq, List.any_eq_true, beq_iff_eq, exists_eq_right'] at hc
  exact (isLive_false_iff g a).mp (hdead a hc) ha

theorem length_handlesOf (g : Gdi) : g.handlesOf.length = g.live.length := by
  simp [Gdi.handlesOf]

/-! ## Pens -/

theorem Pens_deleteForChange_eq (p : Pens) (g : Gdi) :
    p.deleteForChange g = deleteAll g p.handles := rfl

theorem Pens_createAll_handles (api : Shlwapi) (colors : Colors) (g : Gdi) :
    (Pens.createAll api colors g).1.handles
      = [g.next + 1, g.next + 2, g.next + 3, g.next + 4] := rfl

theorem Pens_createAll_handlesOf (api : Shlwapi) (colors : Colors) (g : Gdi) :
    (Pens.createAll api colors g).2.handlesOf
      = g.handlesOf ++ [g.next + 1, g.next + 2, g.next + 3, g.next + 4] := by
  simp [Pens.createAll, CreatePen, Gdi.handlesOf]

theorem Pens_createAll_deleted (api : Shlwapi) (colors : Colors) (g : Gdi) :
    (Pens.createAll api colors g).2.deleted = g.deleted := rfl

theorem Pens_createAll_wf (api : Shlwapi) (colors : Colors) (g : Gdi) (hw : g.WellFormed) :
    (Pens.createAll api colors g).2.WellFormed := by
  simp only [Pens.createAll]
  exact CreatePen_wf _ _ _ _ (CreatePen_wf _ _ _ _ (CreatePen_wf _ _ _ _ (CreatePen_wf _ _ _ _ hw)))

/-- C4: let a `Pens` object hold four different handles of live GDI objects.
`Pens::change` first calls `DeleteObject` on the four handles, each exactly once
and in member order, and only then creates the four new pens it stores; the old
handles are dead afterwards, the new ones are four different live handles, so
the pens object owns four live GDI objects before and after the change and the
table of live objects has not grown. -/
theorem C4_pens_change (api : Shlwapi) (p : Pens) (colors : Colors) (g : Gdi)
    (hw : g.WellFormed) (hnd : p.handles.Nodup)
    (hlive : ∀ h ∈ p.handles, g.isLive h = true) :
    p.change api colors g = Pens.createAll api colors (p.deleteForChange g)
    ∧ (p.deleteForChange g).deleted = g.deleted ++ p.handles
    ∧ (p.change api colors g).2.deleted = g.deleted ++ p.handles
    ∧ (∀ h ∈ p.handles, (p.change api colors g).2.deleteCount h = g.deleteCount h + 1)
    ∧ (∀ h ∈ p.handles, (p.deleteForChange g).isLive h = false)
    ∧ (∀ h ∈ p.handles, (p.change api colors g).2.isLive h = false)
    ∧ (p.change api colors g).1.handles.Nodup
    ∧ (∀ h ∈ (p.change api colors g).1.handles, (p.change api colors g).2.isLive h = true)
    ∧ g.liveAmong p.handles = 4
    ∧ (p.change api colors g).2.liveAmong (p.change api colors g).1.handles = 4
    ∧ (p.change api colors g).2.liveAmong p.handles = 0
    ∧ (p.change api colors g).2.live.length = g.live.length
    ∧ (p.change api colors g).2.WellFormed := by
  have hsub : ∀ h ∈ p.handles, h ∈ g.handlesOf := fun h hh => (isLive_iff_mem g h).mp (hlive h hh)
  have hw1 : (p.deleteForChange g).WellFormed := deleteAll_wf p.handles g hw
  have hw2 : (p.change api colors g).2.WellFormed := Pens_createAll_wf api colors _ hw1
  have hdel : (p.deleteForChange g).deleted = g.deleted ++ p.handles :=
    deleteAll_deleted p.handles g
  have hH1 : (p.deleteForChange g).handlesOf = g.handlesOf.diff p.handles :=
    deleteAll_handlesOf p.handles g hw
  have hnext : (p.deleteForChange g).next = g.next := deleteAll_next p.handles g
  have hH2 : (p.change api colors g).2.handlesOf
      = g.handlesOf.diff p.handles ++ [g.next + 1, g.next + 2, g.next + 3, g.next + 4] := by
    show (Pens.createAll api colors (p.deleteForChange g)).2.handlesOf = _
    rw [Pens_createAll_handlesOf, hH1, hnext]
  have hnew : (p.change api colors g).1.handles
      = [g.next + 1, g.next + 2, g.next + 3, g.next + 4] := by
    show (Pens.createAll api colors (p.deleteForChange g)).1.handles = _
    rw [Pens_createAll_handles, hnext]
  have hdead1 : ∀ h ∈ p.handles, (p.deleteForChange g).isLive h = false := by
    intro h hh
    rw [isLive_false_iff, hH1, List.Nodup.mem_diff_iff hw.1]
    exact fun hc => hc.2 hh
  have hdead2 : ∀ h ∈ p.handles, (p.change api colors g).2.isLive h = false := by
    intro h hh
    rw [isLive_false_iff, hH2, List.mem_append, List.Nodup.mem_diff_iff hw.1]
    rintro (hc | hc)
    · exact hc.2 hh
    · have h1 : @LE.le Nat _ h g.next := hw.2 h (hsub h hh)
      simp only [List.mem_cons, List.mem_singleton, List.not_mem_nil, or_false] at hc
      have hc2 : @Eq Nat h (g.next + 1) ∨ @Eq Nat h (g.next + 2) ∨ @Eq Nat h (g.next + 3)
          ∨ @Eq Nat h (g.next + 4) := hc
      omega
  have hnd2 : (p.change api colors g).1.handles.Nodup := by
    rw [hnew]
    simp
  have hlive2 : ∀ h ∈ (p.change api colors g).1.handles,
      (p.change api colors g).2.isLive h = true := by
    intro h hh
    rw [isLive_iff_mem, hH2]
    rw [hnew] at hh
    exact List.mem_append_right _ hh
  refine ⟨rfl, hdel, ?_, ?_, hdead1, hdead2, hnd2, hlive2, ?_, ?_, ?_, ?_, hw2⟩
  · show (Pens.createAll api colors (p.deleteForChange g)).2.deleted = _
    rw [Pens_createAll_deleted, hdel]
  · intro h hh
    have hd : (p.change api colors g).2.deleted = g.deleted ++ p.handles := by
      show (Pens.createAll api colors (p.deleteForChange g)).2.deleted = _
      rw [Pens_createAll_deleted, hdel]
    simp only [Gdi.deleteCount, hd, List.count_append, List.count_eq_one_of_mem hnd hh]
  · exact liveAmong_of_live g p.handles hw hnd hlive
  · rw [liveAmong_of_live _ _ hw2 hnd2 hlive2, hnew]
    rfl
  · exact liveAmong_of_dead _ _ hdead2
  · have h1 := length_diff_of_nodup p.handles g.handlesOf hnd hsub
    have h2 : (p.change api colors g).2.handlesOf.length
        = (g.handlesOf.diff p.handles).length + 4 := by
      rw [hH2, List.length_append]
      rfl
    have h3 : p.handles.length = 4 := rfl
    rw [length_handlesOf] at h2
    rw [length_handlesOf] at h1
    omega

/-- Witness for C4: after static initialisation the object table is well
formed and the default theme holds the live pens 13 to 16; changing them to the
red palette deletes exactly these four and leaves the number of live objects
unchanged. -/
theorem C4_pens_change_witness :
    ((initialState sampleApi).gdi.WellFormed
      ∧ (initialState sampleApi).tDefault._pens.handles.Nodup
      ∧ ∀ h ∈ (initialState sampleApi).tDefault._pens.handles,
          (initialState sampleApi).gdi.isLive h = true)
    ∧ ((initialState sampleApi).tDefault._pens.change sampleApi darkRedColors
          (initialState sampleApi).gdi).2.deleted
        = (initialState sampleApi).gdi.deleted
            ++ (initialState sampleApi).tDefault._pens.handles
    ∧ ((initialState sampleApi).tDefault._pens.change sampleApi darkRedColors
          (initialState sampleApi).gdi).2.live.length
        = (initialState sampleApi).gdi.live.length :=
  have h := C4_pens_change sampleApi (initialState sampleApi).tDefault._pens darkRedColors
    (initialState sampleApi).gdi (by decide) (by decide) (by decide)
  ⟨⟨by decide, by decide, by decide⟩, h.2.2.1, h.2.2.2.2.2.2.2.2.2.2.2.1⟩

/-! ## Brushes -/

theorem Brushes_change_deleted (api : Shlwapi) (b : Brushes) (colors : Colors) (g : Gdi) :
    (b.change api colors g).2.deleted
      = g.deleted ++ [b.background, b.softerBackground, b.hotBackground, b.pureBackground,
          b.errorBackground, b.hardlightBackground, b.softlightBackground, b.textColorBrush,
          b.darkerTextColorBrush] := by
  simp [Brushes.change, Brushes.createAll, Brushes.deleteForChange, CreateSolidBrush,
    DeleteObject]

/-- C3 (evaluation at the failing input): after static initialisation the
default theme holds the brushes 1 to 12 and the table has 96 live brushes.
`setEdgeColor 0` runs `Brushes::change` on that theme: `DeleteObject` is called
for the handles 1 to 9 only, the three edge brushes 10, 11 and 12 are never
deleted and stay live although the theme no longer refers to them, and the table
ends with 99 live brushes. -/
theorem C3_brushes_change_leaks :
    (initialState sampleApi).tDefault._brushes.handles = [1, 2, 3, 4, 5, 6, 7, 8, 9, 10, 11, 12]
    ∧ (initialState sampleApi).gdi.deleted = []
    ∧ (initialState sampleApi).gdi.liveBrushes = 96
    ∧ (setEdgeColor sampleApi (initialState sampleApi) 0).gdi.deleted
        = [1, 2, 3, 4, 5, 6, 7, 8, 9, 13, 14, 15, 16]
    ∧ (setEdgeColor sampleApi (initialState sampleApi) 0).gdi.deleteCount 10 = 0
    ∧ (setEdgeColor sampleApi (initialState sampleApi) 0).gdi.deleteCount 11 = 0
    ∧ (setEdgeColor sampleApi (initialState sampleApi) 0).gdi.deleteCount 12 = 0
    ∧ (setEdgeColor sampleApi (initialState sampleApi) 0).gdi.isLive 10 = true
    ∧ (setEdgeColor sampleApi (initialState sampleApi) 0).gdi.isLive 11 = true
    ∧ (setEdgeColor sampleApi (initialState sampleApi) 0).gdi.isLive 12 = true
    ∧ (∀ h ∈ (setEdgeColor sampleApi (initialState sampleApi) 0).tDefault._brushes.handles,
        h ≠ 10 ∧ h ≠ 11 ∧ h ≠ 12)
    ∧ (setEdgeColor sampleApi (initialState sampleApi) 0).gdi.liveBrushes = 99 := by
  decide

/-! ## C5 -/

theorem options_changeCustomTheme (api : Shlwapi) (s : State) (colors : Colors) :
    (changeCustomTheme api s colors)._options = s._options := rfl

theorem options_configuredOptions (api : Shlwapi) (nppGui : DarkModeConf) (s : State) :
    (configuredOptions api nppGui s).2._options = s._options := rfl

/-- C5: the `SendMessage` calls of `refreshDarkMode hwnd forceRefresh` are
exactly one `NPPM_INTERNAL_REFRESHDARKMODE` to the root owner of `hwnd`, with
`wParam` 1 when `forceRefresh` is false and 0 when it is true and `lParam` 0,
if the configured enable flag differs from the runtime enable flag, or the
configured menubar flag differs from the runtime menubar flag, or `forceRefresh`
is true; otherwise there is no `SendMessage` call at all. -/
theorem C5_refreshDarkMode_message (api : Shlwapi) (w : Win32) (msgRefresh : UINT)
    (nppGui : DarkModeConf) (s : State) (hwnd : HWND) (forceRefresh : Bool) :
    (refreshDarkMode api w msgRefresh nppGui s hwnd forceRefresh).2.filter Effect.isSendMessage
      = if (configuredOptions api nppGui s).1.enable ≠ s._options.enable
            ∨ (configuredOptions api nppGui s).1.enableMenubar ≠ s._options.enableMenubar
            ∨ forceRefresh = true
        then [Effect.SendMessage (w.GetAncestor hwnd GA_ROOTOWNER) msgRefresh
                (if forceRefresh = false then 1 else 0) 0]
        else [] := by
  have hopt := options_configuredOptions api nppGui s
  have he : (configuredOptions api nppGui s).1.enable = nppGui._isEnabled := rfl
  have hm : (configuredOptions api nppGui s).1.enableMenubar = nppGui._isEnabled := rfl
  simp only [refreshDarkMode, setDarkMode, hopt, he, hm]
  cases h1 : s._options.enable <;> cases h2 : s._options.enableMenubar <;>
    cases h3 : nppGui._isEnabled <;> cases forceRefresh <;>
    simp [Effect.isSendMessage, hopt, h1, h2]

/-! ## C6 -/

/-- C6: `runUAHWndProc` returns true exactly when the message is
`WM_UAHDRAWMENU` or `WM_UAHDRAWMENUITEM`; when it returns true `*lr` is 0, when
it returns false `*lr` keeps the value it had; for `WM_THEMECHANGED` it returns
false with `*lr` untouched. -/
theorem C6_runUAHWndProc_handled (w : Win32) (mem : Memory) (s : State) (g_menuTheme : HANDLE)
    (hWnd : HWND) (message : UINT) (wParam : WPARAM) (lParam : LPARAM) (lr : LRESULT) :
    ((runUAHWndProc w mem s g_menuTheme hWnd message wParam lParam lr).handled = true
      ↔ (message = WM_UAHDRAWMENU ∨ message = WM_UAHDRAWMENUITEM))
    ∧ (runUAHWndProc w mem s g_menuTheme hWnd message wParam lParam lr).lr
        = (if (runUAHWndProc w mem s g_menuTheme hWnd message wParam lParam lr).handled = true
            then 0 else lr)
    ∧ (runUAHWndProc w mem s g_menuTheme hWnd WM_THEMECHANGED wParam lParam lr).handled = false
    ∧ (runUAHWndProc w mem s g_menuTheme hWnd WM_THEMECHANGED wParam lParam lr).lr = lr := by
  have hd : WM_THEMECHANGED ≠ WM_UAHDRAWMENU := by decide
  have he : WM_THEMECHANGED ≠ WM_UAHDRAWMENUITEM := by decide
  have htc : (runUAHWndProc w mem s g_menuTheme hWnd WM_THEMECHANGED wParam lParam lr).handled
        = false
      ∧ (runUAHWndProc w mem s g_menuTheme hWnd WM_THEMECHANGED wParam lParam lr).lr = lr := by
    unfold runUAHWndProc
    rw [if_neg hd, if_neg he, if_pos rfl]
    by_cases h4 : g_menuTheme = 0
    · rw [if_neg (not_not.mpr h4)]
      exact ⟨rfl, rfl⟩
    · rw [if_pos h4]
      exact ⟨rfl, rfl⟩
  have hall : ((runUAHWndProc w mem s g_menuTheme hWnd message wParam lParam lr).handled = true
        ∧ (runUAHWndProc w mem s g_menuTheme hWnd message wParam lParam lr).lr = 0
        ∧ (message = WM_UAHDRAWMENU ∨ message = WM_UAHDRAWMENUITEM))
      ∨ ((runUAHWndProc w mem s g_menuTheme hWnd message wParam lParam lr).handled = false
        ∧ (runUAHWndProc w mem s g_menuTheme hWnd message wParam lParam lr).lr = lr
        ∧ ¬ (message = WM_UAHDRAWMENU ∨ message = WM_UAHDRAWMENUITEM)) := by
    by_cases h1 : message = WM_UAHDRAWMENU
    · left
      unfold runUAHWndProc
      rw [if_pos h1]
      exact ⟨rfl, rfl, Or.inl h1⟩
    · by_cases h2 : message = WM_UAHDRAWMENUITEM
      · left
        unfold runUAHWndProc
        rw [if_neg h1, if_pos h2]
        exact ⟨rfl, rfl, Or.inr h2⟩
      · right
        have hn : ¬ (message = WM_UAHDRAWMENU ∨ message = WM_UAHDRAWMENUITEM) := by
          rintro (h | h)
          · exact h1 h
          · exact h2 h
        by_cases h3 : message = WM_THEMECHANGED
        · subst h3
          exact ⟨htc.1, htc.2, hn⟩
        · unfold runUAHWndProc
          rw [if_neg h1, if_neg h2, if_neg h3]
          exact ⟨rfl, rfl, hn⟩
  refine ⟨?_, ?_, htc.1, htc.2⟩
  · rcases hall with ⟨ha, _, hm⟩ | ⟨ha, _, hm⟩
    · exact ⟨fun _ => hm, fun _ => ha⟩
    · rw [ha]
      exact ⟨fun h => absurd h (by decide), fun h => absurd h hm⟩
  · rcases hall with ⟨ha, hl, _⟩ | ⟨ha, hl, _⟩
    · rw [ha, hl, if_pos rfl]
    · rw [ha, hl]
      rfl

/-! ## The subclass procedures -/

theorem passesThrough_call (w : Win32) (hWnd : HWND) (uMsg : UINT) (wParam : WPARAM)
    (lParam : LPARAM) (d : Option ButtonData) (fx : List Effect)
    (hq : fx.all Effect.isQuiet = true) :
    passesThrough w hWnd uMsg wParam lParam
      (callDefSubclassProc w hWnd uMsg wParam lParam d fx).result
      (callDefSubclassProc w hWnd uMsg wParam lParam d fx).effects := by
  have hq2 : ∀ e ∈ fx, e.isPaint = false ∧ e.isDefSubclassProc = false := by
    intro e he
    have := List.all_eq_true.mp hq e he
    simpa [Effect.isQuiet] using this
  refine ⟨rfl, ?_, ?_, ?_⟩
  · simp only [callDefSubclassProc, List.filter_append]
    have hnil : fx.filter Effect.isDefSubclassProc = [] := by
      rw [List.filter_eq_nil_iff]
      intro e he
      simp [(hq2 e he).2]
    rw [hnil]
    rfl
  · simp [callDefSubclassProc]
  · simp only [callDefSubclassProc, List.all_append, Bool.and_eq_true, List.all_eq_true]
    refine ⟨?_, ?_⟩
    · intro e he
      simp [(hq2 e he).1]
    · intro e he
      simp only [List.mem_singleton] at he
      subst he
      rfl

theorem passesThrough_pair (w : Win32) (hWnd : HWND) (uMsg : UINT) (wParam : WPARAM)
    (lParam : LPARAM) (fx : List Effect) (hq : fx.all Effect.isQuiet = true) :
    passesThrough w hWnd uMsg wParam lParam (w.DefSubclassProc hWnd uMsg wParam lParam)
      (fx ++ [Effect.DefSubclassProc hWnd uMsg wParam lParam]) :=
  passesThrough_call w hWnd uMsg wParam lParam none fx hq

theorem closeTheme_quiet (d : ButtonData) : d.closeTheme.2.all Effect.isQuiet = true := by
  unfold ButtonData.closeTheme
  split <;> rfl

theorem delete_quiet (d : ButtonData) : d.delete.all Effect.isQuiet = true := by
  unfold ButtonData.delete
  rw [List.all_append, closeTheme_quiet]
  rfl

theorem ensureTheme_quiet (w : Win32) (d : ButtonData) (hWnd : HWND) :
    (d.ensureTheme w hWnd).2.2.all Effect.isQuiet = true := by
  unfold ButtonData.ensureTheme
  split <;> rfl

theorem ButtonSubclass_disabled (w : Win32) (s : State) (hWnd : HWND) (uMsg : UINT)
    (wParam : WPARAM) (lParam : LPARAM) (d : ButtonData) (hoff : isEnabled s = false) :
    passesThrough w hWnd uMsg wParam lParam
      (ButtonSubclass w s hWnd uMsg wParam lParam d).result
      (ButtonSubclass w s hWnd uMsg wParam lParam d).effects := by
  unfold ButtonSubclass
  simp only [hoff, Bool.false_eq_true, if_false]
  split_ifs <;> apply passesThrough_call <;>
    first
      | rfl
      | exact closeTheme_quiet d
      | (rw [List.all_append, delete_quiet]; rfl)

theorem GroupboxSubclass_disabled (w : Win32) (s : State) (hWnd : HWND) (uMsg : UINT)
    (wParam : WPARAM) (lParam : LPARAM) (d : ButtonData) (hoff : isEnabled s = false) :
    passesThrough w hWnd uMsg wParam lParam
      (GroupboxSubclass w s hWnd uMsg wParam lParam d).result
      (GroupboxSubclass w s hWnd uMsg wParam lParam d).effects := by
  unfold GroupboxSubclass
  simp only [hoff, Bool.false_eq_true, if_false]
  split_ifs <;> apply passesThrough_call <;>
    first
      | rfl
      | exact closeTheme_quiet d
      | (rw [List.all_append, delete_quiet]; rfl)

theorem TabUpDownSubclass_disabled (w : Win32) (s : State) (hWnd : HWND) (uMsg : UINT)
    (wParam : WPARAM) (lParam : LPARAM) (uId : Nat) (d : ButtonData)
    (hoff : isEnabled s = false) :
    passesThrough w hWnd uMsg wParam lParam
      (TabUpDownSubclass w s hWnd uMsg wParam lParam uId d).result
      (TabUpDownSubclass w s hWnd uMsg wParam lParam uId d).effects := by
  unfold TabUpDownSubclass
  simp only [hoff, Bool.not_false, Bool.false_eq_true, if_false, if_true]
  split_ifs <;> apply passesThrough_call <;>
    first
      | rfl
      | exact closeTheme_quiet d
      | (rw [List.all_append, delete_quiet]; rfl)

theorem TabSubclass_disabled (w : Win32) (s : State) (hWnd : HWND) (uMsg : UINT)
    (wParam : WPARAM) (lParam : LPARAM) (hoff : isEnabled s = false) :
    passesThrough w hWnd uMsg wParam lParam
      (TabSubclass w s hWnd uMsg wParam lParam).1 (TabSubclass w s hWnd uMsg wParam lParam).2 := by
  unfold TabSubclass
  simp only [hoff, Bool.not_false, if_true]
  split_ifs <;> apply passesThrough_pair <;> rfl

theorem ComboBoxSubclass_disabled (w : Win32) (s : State) (hWnd : HWND) (uMsg : UINT)
    (wParam : WPARAM) (lParam : LPARAM) (uId : Nat) (hoff : isEnabled s = false) :
    passesThrough w hWnd uMsg wParam lParam
      (ComboBoxSubclass w s hWnd uMsg wParam lParam uId).1
      (ComboBoxSubclass w s hWnd uMsg wParam lParam uId).2 := by
  unfold ComboBoxSubclass
  simp only [hoff, Bool.not_false, if_true]
  split_ifs <;> apply passesThrough_pair <;> rfl

theorem TabSubclass_buttons_vertical (w : Win32) (s : State) (hWnd : HWND)
    (wParam : WPARAM) (lParam : LPARAM)
    (hstyle : w.GetWindowLongPtrStyle hWnd &&& TCS_BUTTONS ≠ 0
      ∨ w.GetWindowLongPtrStyle hWnd &&& TCS_VERTICAL ≠ 0) :
    passesThrough w hWnd WM_PAINT wParam lParam
      (TabSubclass w s hWnd WM_PAINT wParam lParam).1
      (TabSubclass w s hWnd WM_PAINT wParam lParam).2 := by
  unfold TabSubclass
  rw [if_pos rfl]
  by_cases he : (!isEnabled s) = true
  · rw [if_pos he]
    exact passesThrough_pair w hWnd WM_PAINT wParam lParam [] rfl
  · rw [if_neg he]
    simp only [if_pos hstyle]
    exact passesThrough_pair w hWnd WM_PAINT wParam lParam [] rfl

/-! ## C7 -/

/-- C7: with dark mode disabled, `ButtonSubclass`, `GroupboxSubclass`,
`TabSubclass`, `ComboBoxSubclass` and `TabUpDownSubclass` answer every message
with the result of `DefSubclassProc` on the same arguments, call it once, as
their last call, and paint nothing; `TabSubclass` does the same for `WM_PAINT`
in every state when the tab control has `TCS_BUTTONS` or `TCS_VERTICAL`. -/
theorem C7_disabled_passes_through (w : Win32) (s : State) (hWnd : HWND) (uMsg : UINT)
    (wParam : WPARAM) (lParam : LPARAM) (uIdSubclass : Nat) (d : ButtonData)
    (hoff : isEnabled s = false) :
    passesThrough w hWnd uMsg wParam lParam
        (ButtonSubclass w s hWnd uMsg wParam lParam d).result
        (ButtonSubclass w s hWnd uMsg wParam lParam d).effects
    ∧ passesThrough w hWnd uMsg wParam lParam
        (GroupboxSubclass w s hWnd uMsg wParam lParam d).result
        (GroupboxSubclass w s hWnd uMsg wParam lParam d).effects
    ∧ passesThrough w hWnd uMsg wParam lParam
        (TabSubclass w s hWnd uMsg wParam lParam).1
        (TabSubclass w s hWnd uMsg wParam lParam).2
    ∧ passesThrough w hWnd uMsg wParam lParam
        (ComboBoxSubclass w s hWnd uMsg wParam lParam uIdSubclass).1
        (ComboBoxSubclass w s hWnd uMsg wParam lParam uIdSubclass).2
    ∧ passesThrough w hWnd uMsg wParam lParam
        (TabUpDownSubclass w s hWnd uMsg wParam lParam uIdSubclass d).result
        (TabUpDownSubclass w s hWnd uMsg wParam lParam uIdSubclass d).effects
    ∧ (∀ s2 : State,
        (w.GetWindowLongPtrStyle hWnd &&& TCS_BUTTONS ≠ 0
          ∨ w.GetWindowLongPtrStyle hWnd &&& TCS_VERTICAL ≠ 0) →
        passesThrough w hWnd WM_PAINT wParam lParam
          (TabSubclass w s2 hWnd WM_PAINT wParam lParam).1
          (TabSubclass w s2 hWnd WM_PAINT wParam lParam).2) :=
  ⟨ButtonSubclass_disabled w s hWnd uMsg wParam lParam d hoff,
   GroupboxSubclass_disabled w s hWnd uMsg wParam lParam d hoff,
   TabSubclass_disabled w s hWnd uMsg wParam lParam hoff,
   ComboBoxSubclass_disabled w s hWnd uMsg wParam lParam uIdSubclass hoff,
   TabUpDownSubclass_disabled w s hWnd uMsg wParam lParam uIdSubclass d hoff,
   fun s2 hstyle => TabSubclass_buttons_vertical w s2 hWnd wParam lParam hstyle⟩

/-- Witness for C7: right after static initialisation dark mode is disabled,
and `ButtonSubclass` answers `WM_PAINT` through `DefSubclassProc`. -/
theorem C7_disabled_passes_through_witness :
    isEnabled (initialState sampleApi) = false
    ∧ passesThrough sampleWin32 1 WM_PAINT 0 0
        (ButtonSubclass sampleWin32 (initialState sampleApi) 1 WM_PAINT 0 0 {}).result
        (ButtonSubclass sampleWin32 (initialState sampleApi) 1 WM_PAINT 0 0 {}).effects :=
  ⟨by decide,
   (C7_disabled_passes_through sampleWin32 (initialState sampleApi) 1 WM_PAINT 0 0 42 {}
      (by decide)).1⟩

/-! ## C8 -/

theorem ButtonSubclass_erase (w : Win32) (s : State) (hWnd : HWND) (wParam : WPARAM)
    (lParam : LPARAM) (d : ButtonData) :
    ButtonSubclass w s hWnd WM_ERASEBKGND wParam lParam d
      = if isEnabled s = true ∧ (d.ensureTheme w hWnd).1 = true then
          { result := TRUE, buttonData := some (d.ensureTheme w hWnd).2.1,
            effects := (d.ensureTheme w hWnd).2.2 }
        else if isEnabled s = true then
          callDefSubclassProc w hWnd WM_ERASEBKGND wParam lParam
            (some (d.ensureTheme w hWnd).2.1) (d.ensureTheme w hWnd).2.2
        else callDefSubclassProc w hWnd WM_ERASEBKGND wParam lParam (some d) [] := by
  unfold ButtonSubclass
  rw [if_neg (by decide), if_neg (by decide), if_pos rfl]
  by_cases hen : isEnabled s = true <;> by_cases hth : (d.ensureTheme w hWnd).1 = true <;>
    simp [hen, hth]

theorem ButtonSubclass_paint (w : Win32) (s : State) (hWnd : HWND) (uMsg : UINT)
    (wParam : WPARAM) (lParam : LPARAM) (d : ButtonData)
    (hmsg : uMsg = WM_PAINT ∨ uMsg = WM_PRINTCLIENT) :
    ButtonSubclass w s hWnd uMsg wParam lParam d
      = if isEnabled s = true ∧ (d.ensureTheme w hWnd).1 = true then
          { result := 0,
            buttonData := some
              (paintButton w hWnd (paintHdc w hWnd wParam) (d.ensureTheme w hWnd).2.1).buttonData,
            effects := (d.ensureTheme w hWnd).2.2 ++ paintBracket w hWnd wParam
              (fun hdc => (paintButton w hWnd hdc (d.ensureTheme w hWnd).2.1).effects),
            assertFailed :=
              (paintButton w hWnd (paintHdc w hWnd wParam)
                (d.ensureTheme w hWnd).2.1).assertFailed }
        else if isEnabled s = true then
          callDefSubclassProc w hWnd uMsg wParam lParam
            (some (d.ensureTheme w hWnd).2.1) (d.ensureTheme w hWnd).2.2
        else callDefSubclassProc w hWnd uMsg wParam lParam (some d) [] := by
  have h1 : uMsg ≠ WM_UPDATEUISTATE := by rcases hmsg with h | h <;> rw [h] <;> decide
  have h2 : uMsg ≠ WM_NCDESTROY := by rcases hmsg with h | h <;> rw [h] <;> decide
  have h3 : uMsg ≠ WM_ERASEBKGND := by rcases hmsg with h | h <;> rw [h] <;> decide
  have h4 : uMsg ≠ WM_THEMECHANGED := by rcases hmsg with h | h <;> rw [h] <;> decide
  unfold ButtonSubclass
  rw [if_neg h1, if_neg h2, if_neg h3, if_neg h4, if_pos hmsg.symm]
  by_cases hen : isEnabled s = true <;> by_cases hth : (d.ensureTheme w hWnd).1 = true <;>
    simp [hen, hth]

theorem GroupboxSubclass_erase (w : Win32) (s : State) (hWnd : HWND) (wParam : WPARAM)
    (lParam : LPARAM) (d : ButtonData) :
    GroupboxSubclass w s hWnd WM_ERASEBKGND wParam lParam d
      = if isEnabled s = true ∧ (d.ensureTheme w hWnd).1 = true then
          { result := TRUE, buttonData := some (d.ensureTheme w hWnd).2.1,
            effects := (d.ensureTheme w hWnd).2.2 }
        else if isEnabled s = true then
          callDefSubclassProc w hWnd WM_ERASEBKGND wParam lParam
            (some (d.ensureTheme w hWnd).2.1) (d.ensureTheme w hWnd).2.2
        else callDefSubclassProc w hWnd WM_ERASEBKGND wParam lParam (some d) [] := by
  unfold GroupboxSubclass
  rw [if_neg (by decide), if_pos rfl]
  by_cases hen : isEnabled s = true <;> by_cases hth : (d.ensureTheme w hWnd).1 = true <;>
    simp [hen, hth]

theorem GroupboxSubclass_paint (w : Win32) (s : State) (hWnd : HWND) (uMsg : UINT)
    (wParam : WPARAM) (lParam : LPARAM) (d : ButtonData)
    (hmsg : uMsg = WM_PAINT ∨ uMsg = WM_PRINTCLIENT) :
    GroupboxSubclass w s hWnd uMsg wParam lParam d
      = if isEnabled s = true ∧ (d.ensureTheme w hWnd).1 = true then
          { result := 0, buttonData := some (d.ensureTheme w hWnd).2.1,
            effects := (d.ensureTheme w hWnd).2.2 ++ paintBracket w hWnd wParam
              (fun hdc => paintGroupbox hWnd hdc (d.ensureTheme w hWnd).2.1) }
        else if isEnabled s = true then
          callDefSubclassProc w hWnd uMsg wParam lParam
            (some (d.ensureTheme w hWnd).2.1) (d.ensureTheme w hWnd).2.2
        else callDefSubclassProc w hWnd uMsg wParam lParam (some d) [] := by
  have h2 : uMsg ≠ WM_NCDESTROY := by rcases hmsg with h | h <;> rw [h] <;> decide
  have h3 : uMsg ≠ WM_ERASEBKGND := by rcases hmsg with h | h <;> rw [h] <;> decide
  have h4 : uMsg ≠ WM_THEMECHANGED := by rcases hmsg with h | h <;> rw [h] <;> decide
  unfold GroupboxSubclass
  rw [if_neg h2, if_neg h3, if_neg h4, if_pos hmsg.symm]
  by_cases hen : isEnabled s = true <;> by_cases hth : (d.ensureTheme w hWnd).1 = true <;>
    simp [hen, hth]

/-- The method `ensureTheme` in terms of the theme handle and `OpenThemeData`:
it succeeds exactly when the handle is set already or `OpenThemeData` answers a
handle, it calls `OpenThemeData` exactly when the handle is not set, and it
leaves the handle it found or opened in the button data. -/
theorem ensureTheme_spec (w : Win32) (d : ButtonData) (hWnd : HWND) :
    ((d.ensureTheme w hWnd).1 = true ↔ (d.hTheme ≠ 0 ∨ w.OpenThemeData hWnd WC_BUTTON ≠ 0))
    ∧ (d.ensureTheme w hWnd).2.1.hTheme = themeAfterEnsure w d hWnd
    ∧ (d.ensureTheme w hWnd).2.1.iStateID = d.iStateID
    ∧ (d.ensureTheme w hWnd).2.2
        = (if d.hTheme = 0 then [Effect.OpenThemeData hWnd WC_BUTTON] else []) := by
  unfold ButtonData.ensureTheme themeAfterEnsure
  by_cases h : d.hTheme = 0
  · simp [h]
  · simp [h]

/-- The function `paintButton`: one rendering effect with the theme of the
button data and the part of the button style; the assertion fails exactly for
a style that has no part, and the part is then 0. -/
theorem paintButton_spec (w : Win32) (hwnd : HWND) (hdc : HANDLE) (bd : ButtonData) :
    ∃ iPartID, (paintButton w hwnd hdc bd).effects
        = [Effect.paintButton hwnd hdc bd.hTheme iPartID]
      ∧ (knownButtonStyle (w.GetWindowLongPtrStyle hwnd) →
          (iPartID = BP_PUSHBUTTON ∨ iPartID = BP_RADIOBUTTON ∨ iPartID = BP_CHECKBOX)
          ∧ (paintButton w hwnd hdc bd).assertFailed = false)
      ∧ (¬ knownButtonStyle (w.GetWindowLongPtrStyle hwnd) →
          iPartID = 0 ∧ (paintButton w hwnd hdc bd).assertFailed = true) := by
  unfold paintButton knownButtonStyle
  by_cases c1 : (w.GetWindowLongPtrStyle hwnd &&& 0xF) = BS_PUSHBUTTON
      ∨ (w.GetWindowLongPtrStyle hwnd &&& 0xF) = BS_DEFPUSHBUTTON
      ∨ (w.GetWindowLongPtrStyle hwnd &&& BS_PUSHLIKE) > 0
  · refine ⟨BP_PUSHBUTTON, ?_, ?_, ?_⟩
    · simp only [if_pos c1]
      split <;> rfl
    · intro _
      refine ⟨Or.inl rfl, ?_⟩
      simp only [if_pos c1]
      split <;> rfl
    · intro hk
      exact absurd (Or.inl c1) hk
  · by_cases c2 : (w.GetWindowLongPtrStyle hwnd &&& 0xF) = BS_RADIOBUTTON
        ∨ (w.GetWindowLongPtrStyle hwnd &&& 0xF) = BS_AUTORADIOBUTTON
    · refine ⟨BP_RADIOBUTTON, ?_, ?_, ?_⟩
      · simp only [if_neg c1, if_pos c2]
        split <;> rfl
      · intro _
        refine ⟨Or.inr (Or.inl rfl), ?_⟩
        simp only [if_neg c1, if_pos c2]
        split <;> rfl
      · intro hk
        exact absurd (Or.inr (Or.inl c2)) hk
    · by_cases c3 : (w.GetWindowLongPtrStyle hwnd &&& 0xF) = BS_CHECKBOX
          ∨ (w.GetWindowLongPtrStyle hwnd &&& 0xF) = BS_AUTOCHECKBOX
      · refine ⟨BP_CHECKBOX, ?_, ?_, ?_⟩
        · simp only [if_neg c1, if_neg c2, if_pos c3]
          split <;> rfl
        · intro _
          refine ⟨Or.inr (Or.inr rfl), ?_⟩
          simp only [if_neg c1, if_neg c2, if_pos c3]
          split <;> rfl
        · intro hk
          exact absurd (Or.inr (Or.inr c3)) hk
      · refine ⟨0, ?_, ?_, ?_⟩
        · simp only [if_neg c1, if_neg c2, if_neg c3]
          split <;> rfl
        · intro hk
          rcases hk with hk | hk | hk
          · exact absurd hk c1
          · exact absurd hk c2
          · exact absurd hk c3
        · intro _
          refine ⟨rfl, ?_⟩
          simp only [if_neg c1, if_neg c2, if_neg c3]
          split <;> rfl

theorem paintButton_noDef (w : Win32) (hwnd : HWND) (hdc : HANDLE) (bd : ButtonData) :
    (paintButton w hwnd hdc bd).effects.any Effect.isDefSubclassProc = false := by
  obtain ⟨p, hp, _⟩ := paintButton_spec w hwnd hdc bd
  rw [hp]
  rfl

theorem paintBracket_mem (w : Win32) (hWnd : HWND) (wParam : WPARAM)
    (body : HANDLE → List Effect) (e : Effect) (he : e ∈ body (paintHdc w hWnd wParam)) :
    e ∈ paintBracket w hWnd wParam body := by
  unfold paintBracket
  unfold paintHdc at he
  by_cases h0 : wParam = 0
  · rw [if_pos h0] at he
    rw [if_pos h0]
    simp only [List.mem_append]
    exact Or.inl (Or.inr he)
  · rw [if_neg h0] at he
    rw [if_neg h0]
    exact he

theorem paintBracket_noDef (w : Win32) (hWnd : HWND) (wParam : WPARAM)
    (body : HANDLE → List Effect)
    (hb : ∀ hdc, (body hdc).any Effect.isDefSubclassProc = false) :
    (paintBracket w hWnd wParam body).any Effect.isDefSubclassProc = false := by
  unfold paintBracket
  by_cases h0 : wParam = 0
  · rw [if_pos h0]
    simp only [List.any_append, hb, Bool.or_false, Bool.false_or]
    split <;> rfl
  · rw [if_neg h0]
    exact hb wParam

theorem quiet_noDef (fx : List Effect) (hq : fx.all Effect.isQuiet = true) :
    fx.any Effect.isDefSubclassProc = false := by
  rw [List.any_eq_false]
  intro e he
  have := List.all_eq_true.mp hq e he
  simp only [Effect.isQuiet, Bool.and_eq_true, Bool.not_eq_true'] at this
  simp [this.2]

/-- C8: on `WM_ERASEBKGND`, `WM_PAINT` and `WM_PRINTCLIENT`, `ButtonSubclass`
and `GroupboxSubclass` intercept exactly when dark mode is enabled and
`ensureTheme` succeeds, that is, when the theme handle of the button data is
set or `OpenThemeData` for the class `Button` answers a handle. Then
`DefSubclassProc` is not called, `WM_ERASEBKGND` returns `TRUE`, and the two
paint messages return 0 after `paintGroupbox`, resp. `paintButton`, has painted
on the device context of the message with the theme found or opened;
`paintButton` does so, with the part of a push button, radio button or check
box, for a button of one of the styles it has a part for, and runs into its
`assert(false)` for any other style (a build with assertions aborts there, a
build without them paints with part 0 and returns 0). In every other case the
message is answered by `DefSubclassProc` and no assertion is reached. -/
theorem C8_button_groupbox_intercept (w : Win32) (s : State) (hWnd : HWND) (uMsg : UINT)
    (wParam : WPARAM) (lParam : LPARAM) (d : ButtonData)
    (hmsg : uMsg = WM_ERASEBKGND ∨ uMsg = WM_PAINT ∨ uMsg = WM_PRINTCLIENT) :
    ((isEnabled s = true ∧ (d.hTheme ≠ 0 ∨ w.OpenThemeData hWnd WC_BUTTON ≠ 0)) →
      ((ButtonSubclass w s hWnd uMsg wParam lParam d).effects.any Effect.isDefSubclassProc
            = false
        ∧ (uMsg = WM_ERASEBKGND →
            (ButtonSubclass w s hWnd uMsg wParam lParam d).result = TRUE
            ∧ (ButtonSubclass w s hWnd uMsg wParam lParam d).assertFailed = false)
        ∧ (uMsg ≠ WM_ERASEBKGND → knownButtonStyle (w.GetWindowLongPtrStyle hWnd) →
            (ButtonSubclass w s hWnd uMsg wParam lParam d).result = 0
            ∧ (ButtonSubclass w s hWnd uMsg wParam lParam d).assertFailed = false
            ∧ ∃ iPartID,
                (iPartID = BP_PUSHBUTTON ∨ iPartID = BP_RADIOBUTTON ∨ iPartID = BP_CHECKBOX)
                ∧ Effect.paintButton hWnd (paintHdc w hWnd wParam) (themeAfterEnsure w d hWnd)
                    iPartID
                  ∈ (ButtonSubclass w s hWnd uMsg wParam lParam d).effects)
        ∧ (uMsg ≠ WM_ERASEBKGND → ¬ knownButtonStyle (w.GetWindowLongPtrStyle hWnd) →
            (ButtonSubclass w s hWnd uMsg wParam lParam d).assertFailed = true
            ∧ (ButtonSubclass w s hWnd uMsg wParam lParam d).result = 0
            ∧ Effect.paintButton hWnd (paintHdc w hWnd wParam) (themeAfterEnsure w d hWnd) 0
                ∈ (ButtonSubclass w s hWnd uMsg wParam lParam d).effects))
      ∧ ((GroupboxSubclass w s hWnd uMsg wParam lParam d).result
          = (if uMsg = WM_ERASEBKGND then TRUE else 0)
        ∧ (GroupboxSubclass w s hWnd uMsg wParam lParam d).assertFailed = false
        ∧ (GroupboxSubclass w s hWnd uMsg wParam lParam d).effects.any Effect.isDefSubclassProc
            = false
        ∧ (uMsg ≠ WM_ERASEBKGND →
            Effect.paintGroupbox hWnd (paintHdc w hWnd wParam) (themeAfterEnsure w d hWnd)
              ∈ (GroupboxSubclass w s hWnd uMsg wParam lParam d).effects)))
    ∧ (¬ (isEnabled s = true ∧ (d.hTheme ≠ 0 ∨ w.OpenThemeData hWnd WC_BUTTON ≠ 0)) →
      passesThrough w hWnd uMsg wParam lParam
          (ButtonSubclass w s hWnd uMsg wParam lParam d).result
          (ButtonSubclass w s hWnd uMsg wParam lParam d).effects
      ∧ (ButtonSubclass w s hWnd uMsg wParam lParam d).assertFailed = false
      ∧ passesThrough w hWnd uMsg wParam lParam
          (GroupboxSubclass w s hWnd uMsg wParam lParam d).result
          (GroupboxSubclass w s hWnd uMsg wParam lParam d).effects
      ∧ (GroupboxSubclass w s hWnd uMsg wParam lParam d).assertFailed = false) := by
  have hq := ensureTheme_quiet w d hWnd
  have hnd := quiet_noDef _ hq
  have hspec := ensureTheme_spec w d hWnd
  have hcond : (isEnabled s = true ∧ (d.ensureTheme w hWnd).1 = true)
      ↔ (isEnabled s = true ∧ (d.hTheme ≠ 0 ∨ w.OpenThemeData hWnd WC_BUTTON ≠ 0)) :=
    and_congr_right (fun _ => hspec.1)
  rcases hmsg with rfl | hp
  · rw [ButtonSubclass_erase, GroupboxSubclass_erase]
    refine ⟨?_, ?_⟩
    · intro hc
      rw [if_pos (hcond.mpr hc)]
      exact ⟨⟨hnd, fun _ => ⟨rfl, rfl⟩, fun h => absurd rfl h, fun h => absurd rfl h⟩,
        ⟨rfl, rfl, hnd, fun h => absurd rfl h⟩⟩
    · intro hc
      rw [if_neg (fun h => hc (hcond.mp h))]
      by_cases hen : isEnabled s = true
      · rw [if_pos hen]
        exact ⟨passesThrough_call _ _ _ _ _ _ _ hq, rfl, passesThrough_call _ _ _ _ _ _ _ hq, rfl⟩
      · rw [if_neg hen]
        exact ⟨passesThrough_call _ _ _ _ _ _ _ rfl, rfl, passesThrough_call _ _ _ _ _ _ _ rfl,
          rfl⟩
  · have hne : uMsg ≠ WM_ERASEBKGND := by rcases hp with h | h <;> rw [h] <;> decide
    rw [ButtonSubclass_paint w s hWnd uMsg wParam lParam d hp,
      GroupboxSubclass_paint w s hWnd uMsg wParam lParam d hp]
    refine ⟨?_, ?_⟩
    · intro hc
      simp only [if_pos (hcond.mpr hc), if_neg hne]
      obtain ⟨part, hpe, hpk, hpn⟩ :=
        paintButton_spec w hWnd (paintHdc w hWnd wParam) (d.ensureTheme w hWnd).2.1
      rw [hspec.2.1] at hpe
      refine ⟨⟨?_, fun h => absurd h hne, fun _ hk => ⟨trivial, (hpk hk).2, part, (hpk hk).1, ?_⟩,
        fun _ hk => ⟨(hpn hk).2, trivial, ?_⟩⟩, ⟨trivial, trivial, ?_, fun _ => ?_⟩⟩
      · show List.any (_ ++ _) Effect.isDefSubclassProc = false
        rw [List.any_append, hnd, paintBracket_noDef]
        · rfl
        · intro hdc
          exact paintButton_noDef _ _ _ _
      · show _ ∈ _ ++ _
        refine List.mem_append_right _ (paintBracket_mem _ _ _ _ _ ?_)
        rw [hpe]
        exact List.mem_singleton.mpr rfl
      · show _ ∈ _ ++ _
        refine List.mem_append_right _ (paintBracket_mem _ _ _ _ _ ?_)
        rw [hpe, (hpn hk).1]
        exact List.mem_singleton.mpr rfl
      · show List.any (_ ++ _) Effect.isDefSubclassProc = false
        rw [List.any_append, hnd, paintBracket_noDef]
        · rfl
        · intro hdc
          rfl
      · show _ ∈ _ ++ _
        refine List.mem_append_right _ (paintBracket_mem _ _ _ _ _ ?_)
        show _ ∈ [Effect.paintGroupbox hWnd _ (d.ensureTheme w hWnd).2.1.hTheme]
        rw [hspec.2.1]
        exact List.mem_singleton.mpr rfl
    · intro hc
      simp only [if_neg (fun h => hc (hcond.mp h))]
      by_cases hen : isEnabled s = true
      · simp only [if_pos hen]
        exact ⟨passesThrough_call _ _ _ _ _ _ _ hq, rfl, passesThrough_call _ _ _ _ _ _ _ hq, rfl⟩
      · simp only [if_neg hen]
        exact ⟨passesThrough_call _ _ _ _ _ _ _ rfl, rfl, passesThrough_call _ _ _ _ _ _ _ rfl,
          rfl⟩

/-- Witness for C8, with dark mode enabled and button data whose theme handle
is not set. Where `OpenThemeData` answers the handle 9, `WM_PAINT` on a check
box is painted by `paintButton` with that theme and returns 0, and `WM_PAINT`
on a window of style `BS_GROUPBOX` runs `paintButton` into its assertion. Where
`OpenThemeData` answers no handle, `WM_PAINT` is answered by `DefSubclassProc`. -/
theorem C8_button_groupbox_intercept_witness :
    ((WM_PAINT = WM_ERASEBKGND ∨ WM_PAINT = WM_PAINT ∨ WM_PAINT = WM_PRINTCLIENT)
      ∧ isEnabled sampleEnabledState = true
      ∧ ({} : ButtonData).hTheme = 0
      ∧ (sampleThemedWin32 false).OpenThemeData 1 WC_BUTTON ≠ 0
      ∧ knownButtonStyle ((sampleThemedWin32 false).GetWindowLongPtrStyle 1)
      ∧ (ButtonSubclass (sampleThemedWin32 false) sampleEnabledState 1 WM_PAINT 0 0 {}).result = 0
      ∧ (ButtonSubclass (sampleThemedWin32 false) sampleEnabledState 1 WM_PAINT 0 0
          {}).assertFailed = false)
    ∧ (¬ knownButtonStyle ((sampleThemedWin32 true).GetWindowLongPtrStyle 1)
      ∧ (ButtonSubclass (sampleThemedWin32 true) sampleEnabledState 1 WM_PAINT 0 0
          {}).assertFailed = true)
    ∧ (¬ (isEnabled sampleEnabledState = true
          ∧ (({} : ButtonData).hTheme ≠ 0 ∨ sampleWin32.OpenThemeData 1 WC_BUTTON ≠ 0))
      ∧ passesThrough sampleWin32 1 WM_PAINT 0 0
          (ButtonSubclass sampleWin32 sampleEnabledState 1 WM_PAINT 0 0 {}).result
          (ButtonSubclass sampleWin32 sampleEnabledState 1 WM_PAINT 0 0 {}).effects) :=
  have h1 := ((C8_button_groupbox_intercept (sampleThemedWin32 false) sampleEnabledState 1
    WM_PAINT 0 0 {} (by decide)).1 (by decide)).1.2.2.1 (by decide) (by decide)
  have h2 := ((C8_button_groupbox_intercept (sampleThemedWin32 true) sampleEnabledState 1
    WM_PAINT 0 0 {} (by decide)).1 (by decide)).1.2.2.2 (by decide) (by decide)
  have h3 := (C8_button_groupbox_intercept sampleWin32 sampleEnabledState 1
    WM_PAINT 0 0 {} (by decide)).2 (by decide)
  ⟨⟨by decide, by decide, by decide, by decide, by decide, h1.1, h1.2.1⟩,
   ⟨by decide, h2.1⟩, ⟨by decide, h3.1⟩⟩

/-! ## C9 -/

theorem style_of_lightness (t : TreeViewGlobals) :
    let r : TreeViewGlobals :=
      if t.lighnessTreeView < 50 - middleGrayRange then
        { t with treeViewStyle := TreeViewStyle.dark }
      else if t.lighnessTreeView > 50 + middleGrayRange then
        { t with treeViewStyle := TreeViewStyle.light }
      else
        { t with treeViewStyle := TreeViewStyle.classic }
    r.lighnessTreeView = t.lighnessTreeView
    ∧ (r.treeViewStyle = TreeViewStyle.dark ↔ t.lighnessTreeView < 48)
    ∧ (r.treeViewStyle = TreeViewStyle.light ↔ t.lighnessTreeView > 52)
    ∧ (r.treeViewStyle = TreeViewStyle.classic
        ↔ (48 ≤ t.lighnessTreeView ∧ t.lighnessTreeView ≤ 52)) := by
  intro r
  have e1 : (50 : ℚ) - middleGrayRange = 48 := by norm_num [middleGrayRange]
  have e2 : (50 : ℚ) + middleGrayRange = 52 := by norm_num [middleGrayRange]
  simp only [r, e1, e2]
  by_cases h1 : t.lighnessTreeView < 48
  · rw [if_pos h1]
    refine ⟨rfl, ⟨fun _ => h1, fun _ => rfl⟩, ⟨fun h => ?_, fun h => ?_⟩, ⟨fun h => ?_, fun h => ?_⟩⟩
    · exact TreeViewStyle.noConfusion h
    · linarith
    · exact TreeViewStyle.noConfusion h
    · linarith [h.1]
  · rw [if_neg h1]
    by_cases h2 : t.lighnessTreeView > 52
    · rw [if_pos h2]
      refine ⟨rfl, ⟨fun h => ?_, fun h => ?_⟩, ⟨fun _ => h2, fun _ => rfl⟩,
        ⟨fun h => ?_, fun h => ?_⟩⟩
      · exact TreeViewStyle.noConfusion h
      · exact absurd h h1
      · exact TreeViewStyle.noConfusion h
      · linarith [h.2]
    · rw [if_neg h2]
      refine ⟨rfl, ⟨fun h => ?_, fun h => ?_⟩, ⟨fun h => ?_, fun h => ?_⟩,
        ⟨fun _ => ⟨not_lt.mp h1, not_lt.mp h2⟩, fun _ => rfl⟩⟩
      · exact TreeViewStyle.noConfusion h
      · exact absurd h h1
      · exact TreeViewStyle.noConfusion h
      · exact absurd h h2

/-- C9: after `calculateTreeViewStyle`, with `L` the value of `lighnessTreeView`
it ends up holding (the lightness of the background colour when the colour
changed or the stored value was 50, the stored value otherwise), the style is
dark iff `L < 48`, light iff `L > 52`, and classic iff `48 ≤ L ≤ 52`. -/
theorem C9_treeViewStyle_ranges (calculatePerceivedLighness : COLORREF → ℚ) (bgColor : COLORREF)
    (t : TreeViewGlobals) :
    (calculateTreeViewStyle calculatePerceivedLighness bgColor t).lighnessTreeView
        = (if t.treeViewBg ≠ bgColor ∨ t.lighnessTreeView = 50
            then calculatePerceivedLighness bgColor else t.lighnessTreeView)
    ∧ ((calculateTreeViewStyle calculatePerceivedLighness bgColor t).treeViewStyle
          = TreeViewStyle.dark
        ↔ (calculateTreeViewStyle calculatePerceivedLighness bgColor t).lighnessTreeView < 48)
    ∧ ((calculateTreeViewStyle calculatePerceivedLighness bgColor t).treeViewStyle
          = TreeViewStyle.light
        ↔ (calculateTreeViewStyle calculatePerceivedLighness bgColor t).lighnessTreeView > 52)
    ∧ ((calculateTreeViewStyle calculatePerceivedLighness bgColor t).treeViewStyle
          = TreeViewStyle.classic
        ↔ (48 ≤ (calculateTreeViewStyle calculatePerceivedLighness bgColor t).lighnessTreeView
          ∧ (calculateTreeViewStyle calculatePerceivedLighness bgColor t).lighnessTreeView ≤ 52))
    := by
  have key := fun u => style_of_lightness u
  simp only [] at key
  unfold calculateTreeViewStyle
  simp only []
  by_cases hc : t.treeViewBg ≠ bgColor ∨ t.lighnessTreeView = 50
  · simp only [if_pos hc]
    have k := key { t with lighnessTreeView := calculatePerceivedLighness bgColor,
                           treeViewBg := bgColor }
    simp only [] at k
    refine ⟨k.1, ?_, ?_, ?_⟩
    · rw [k.1]; exact k.2.1
    · rw [k.1]; exact k.2.2.1
    · rw [k.1]; exact k.2.2.2
  · simp only [if_neg hc]
    have k := key t
    refine ⟨k.1, ?_, ?_, ?_⟩
    · rw [k.1]; exact k.2.1
    · rw [k.1]; exact k.2.2.1
    · rw [k.1]; exact k.2.2.2

end NppDarkMode

namespace NppDarkMode

/-! ## C16 -/

theorem theme_changeTheme_other (api : Shlwapi) (s : State) (colors : Colors) (q : ThemeRef)
    (hq : q ≠ getThemeRef s.g_colorToneChoice) :
    (changeTheme api s colors).theme q = s.theme q := by
  simp only [changeTheme]
  generalize getThemeRef s.g_colorToneChoice = r at hq
  generalize ((getTheme s).change api colors s.gdi) = x
  cases r <;> cases q <;> first | rfl | exact absurd rfl hq

/-- C16: each of the ten colour setters replaces the colours of the selected
theme by the old colours with the one member set to `c` (so the other nine
members keep their values), leaves every other theme object as it was, leaves
the selected tone as it was, and `getDarkModeDefaultColors` is the black
palette `0x202020, 0x404040, 0x404040, 0x202020, 0xB00000, 0xE0E0E0, 0xC0C0C0,
0x808080, 0xFFFF00, 0x646464` whatever has been set. -/
theorem C16_setter_frame (api : Shlwapi) (s : State) (c : COLORREF) :
    ((getTheme (setBackgroundColor api s c))._colors
        = { (getTheme s)._colors with background := c }
      ∧ (getTheme (setSofterBackgroundColor api s c))._colors
        = { (getTheme s)._colors with softerBackground := c }
      ∧ (getTheme (setHotBackgroundColor api s c))._colors
        = { (getTheme s)._colors with hotBackground := c }
      ∧ (getTheme (setDarkerBackgroundColor api s c))._colors
        = { (getTheme s)._colors with pureBackground := c }
      ∧ (getTheme (setErrorBackgroundColor api s c))._colors
        = { (getTheme s)._colors with errorBackground := c }
      ∧ (getTheme (setTextColor api s c))._colors
        = { (getTheme s)._colors with text := c }
      ∧ (getTheme (setDarkerTextColor api s c))._colors
        = { (getTheme s)._colors with darkerText := c }
      ∧ (getTheme (setDisabledTextColor api s c))._colors
        = { (getTheme s)._colors with disabledText := c }
      ∧ (getTheme (setLinkTextColor api s c))._colors
        = { (getTheme s)._colors with linkText := c }
      ∧ (getTheme (setEdgeColor api s c))._colors
        = { (getTheme s)._colors with edge := c })
    ∧ (∀ q : ThemeRef, q ≠ getThemeRef s.g_colorToneChoice →
        (setBackgroundColor api s c).theme q = s.theme q
        ∧ (setSofterBackgroundColor api s c).theme q = s.theme q
        ∧ (setHotBackgroundColor api s c).theme q = s.theme q
        ∧ (setDarkerBackgroundColor api s c).theme q = s.theme q
        ∧ (setErrorBackgroundColor api s c).theme q = s.theme q
        ∧ (setTextColor api s c).theme q = s.theme q
        ∧ (setDarkerTextColor api s c).theme q = s.theme q
        ∧ (setDisabledTextColor api s c).theme q = s.theme q
        ∧ (setLinkTextColor api s c).theme q = s.theme q
        ∧ (setEdgeColor api s c).theme q = s.theme q)
    ∧ ((setBackgroundColor api s c).g_colorToneChoice = s.g_colorToneChoice
      ∧ (setSofterBackgroundColor api s c).g_colorToneChoice = s.g_colorToneChoice
      ∧ (setHotBackgroundColor api s c).g_colorToneChoice = s.g_colorToneChoice
      ∧ (setDarkerBackgroundColor api s c).g_colorToneChoice = s.g_colorToneChoice
      ∧ (setErrorBackgroundColor api s c).g_colorToneChoice = s.g_colorToneChoice
      ∧ (setTextColor api s c).g_colorToneChoice = s.g_colorToneChoice
      ∧ (setDarkerTextColor api s c).g_colorToneChoice = s.g_colorToneChoice
      ∧ (setDisabledTextColor api s c).g_colorToneChoice = s.g_colorToneChoice
      ∧ (setLinkTextColor api s c).g_colorToneChoice = s.g_colorToneChoice
      ∧ (setEdgeColor api s c).g_colorToneChoice = s.g_colorToneChoice)
    ∧ getDarkModeDefaultColors
        = { background := HEXRGB 0x202020, softerBackground := HEXRGB 0x404040,
            hotBackground := HEXRGB 0x404040, pureBackground := HEXRGB 0x202020,
            errorBackground := HEXRGB 0xB00000, text := HEXRGB 0xE0E0E0,
            darkerText := HEXRGB 0xC0C0C0, disabledText := HEXRGB 0x808080,
            linkText := HEXRGB 0xFFFF00, edge := HEXRGB 0x646464 } := by
  refine ⟨?_, ?_, ?_, rfl⟩
  · simp only [setBackgroundColor, setSofterBackgroundColor, setHotBackgroundColor,
      setDarkerBackgroundColor, setErrorBackgroundColor, setTextColor, setDarkerTextColor,
      setDisabledTextColor, setLinkTextColor, setEdgeColor, colors_getTheme_changeTheme,
      and_self]
  · intro q hq
    simp only [setBackgroundColor, setSofterBackgroundColor, setHotBackgroundColor,
      setDarkerBackgroundColor, setErrorBackgroundColor, setTextColor, setDarkerTextColor,
      setDisabledTextColor, setLinkTextColor, setEdgeColor,
      theme_changeTheme_other api s _ q hq, and_self]
  · simp only [setBackgroundColor, setSofterBackgroundColor, setHotBackgroundColor,
      setDarkerBackgroundColor, setErrorBackgroundColor, setTextColor, setDarkerTextColor,
      setDisabledTextColor, setLinkTextColor, setEdgeColor, tone_changeTheme, and_self]

/-- Witness for C16: in the state after static initialisation the red theme is
not the selected one, and `setEdgeColor 0` leaves it as it was. -/
theorem C16_setter_frame_witness :
    ThemeRef.tR ≠ getThemeRef (initialState sampleApi).g_colorToneChoice
    ∧ (setEdgeColor sampleApi (initialState sampleApi) 0).theme ThemeRef.tR
        = (initialState sampleApi).theme ThemeRef.tR :=
  ⟨by decide,
   ((C16_setter_frame sampleApi (initialState sampleApi) 0).2.1 ThemeRef.tR
      (by decide)).2.2.2.2.2.2.2.2.2⟩

end NppDarkMode

namespace SmartHighlighter

/-! ## The search loop of `highlightView` -/

theorem searchLoop_zero (env : Env) (txt : String) (fo : FindOption) (last cl prev : Int)
    (v : View) (ops : List Op) :
    searchLoop env txt fo last 0 cl prev v ops = { view := v, ops := ops, returned := false } :=
  rfl

theorem searchLoop_exit (env : Env) (txt : String) (fo : FindOption) (last : Int) (n : Nat)
    (cl prev : Int) (v : View) (ops : List Op) (h0 : ¬ cl < last) :
    searchLoop env txt fo last (n + 1) cl prev v ops
      = { view := v, ops := ops, returned := true } := by
  simp only [searchLoop, if_neg h0]

theorem searchLoop_skip (env : Env) (txt : String) (fo : FindOption) (last : Int) (n : Nat)
    (cl prev : Int) (v : View) (ops : List Op) (h0 : cl < last) (h1 : docLineOf v cl = prev) :
    searchLoop env txt fo last (n + 1) cl prev v ops
      = searchLoop env txt fo last n (toInt32 (cl + 1)) prev v
          (ops ++ [Op.execute Sci.SCI_DOCLINEFROMVISIBLE cl 0]) := by
  have h1r : toInt32 (v.docLineFromVisible cl) = prev := h1
  simp only [searchLoop, if_pos h0, if_pos h1r]

theorem searchLoop_pastEOF (env : Env) (txt : String) (fo : FindOption) (last : Int) (n : Nat)
    (cl prev : Int) (v : View) (ops : List Op) (h0 : cl < last) (h1 : docLineOf v cl ≠ prev)
    (h2 : endPosOf v cl = -1) :
    searchLoop env txt fo last (n + 1) cl prev v ops
      = { view := env.processRange v (frInfoOf txt v cl) fo,
          ops := ops ++ queriesOf v cl
            ++ [Op.getCurrentDocLen,
                Op.processRange (frInfoOf txt v cl) fo cl (docLineOf v cl) true],
          returned := true } := by
  have h1r : ¬ toInt32 (v.docLineFromVisible cl) = prev := h1
  have h2r : toInt32 (v.positionFromLine (toInt32 (toInt32 (v.docLineFromVisible cl) + 1)))
      = -1 := h2
  simp only [searchLoop, if_pos h0, if_neg h1r, if_pos h2r, frInfoOf, endPosOf, docLineOf,
    queriesOf, List.append_assoc, List.cons_append, List.nil_append, if_true]

theorem searchLoop_search (env : Env) (txt : String) (fo : FindOption) (last : Int) (n : Nat)
    (cl prev : Int) (v : View) (ops : List Op) (h0 : cl < last) (h1 : docLineOf v cl ≠ prev)
    (h2 : endPosOf v cl ≠ -1) :
    searchLoop env txt fo last (n + 1) cl prev v ops
      = searchLoop env txt fo last n (toInt32 (cl + 1)) (docLineOf v cl)
          (env.processRange v (frInfoOf txt v cl) fo)
          (ops ++ queriesOf v cl
            ++ [Op.processRange (frInfoOf txt v cl) fo cl (docLineOf v cl) false]) := by
  have h1r : ¬ toInt32 (v.docLineFromVisible cl) = prev := h1
  have h2r : ¬ toInt32 (v.positionFromLine (toInt32 (toInt32 (v.docLineFromVisible cl) + 1)))
      = -1 := h2
  simp only [searchLoop, if_pos h0, if_neg h1r, if_neg h2r, frInfoOf, endPosOf, docLineOf,
    queriesOf, List.append_assoc, List.cons_append, List.nil_append, if_false]

/-- The calls of the loop are appended to the calls made before it, and the
view and the outcome do not depend on those. -/
theorem searchLoop_append (env : Env) (txt : String) (fo : FindOption) (last : Int) (n : Nat) :
    ∀ (cl prev : Int) (v : View) (ops : List Op),
      (searchLoop env txt fo last n cl prev v ops).ops
          = ops ++ (searchLoop env txt fo last n cl prev v []).ops
      ∧ (searchLoop env txt fo last n cl prev v ops).view
          = (searchLoop env txt fo last n cl prev v []).view
      ∧ (searchLoop env txt fo last n cl prev v ops).returned
          = (searchLoop env txt fo last n cl prev v []).returned := by
  induction n with
  | zero =>
    intro cl prev v ops
    simp [searchLoop_zero]
  | succ n ih =>
    intro cl prev v ops
    by_cases h0 : cl < last
    · by_cases h1 : docLineOf v cl = prev
      · rw [searchLoop_skip env txt fo last n cl prev v ops h0 h1,
          searchLoop_skip env txt fo last n cl prev v [] h0 h1]
        have a := ih (toInt32 (cl + 1)) prev v (ops ++ [Op.execute Sci.SCI_DOCLINEFROMVISIBLE cl 0])
        have b := ih (toInt32 (cl + 1)) prev v ([] ++ [Op.execute Sci.SCI_DOCLINEFROMVISIBLE cl 0])
        rw [a.1, a.2.1, a.2.2, b.1, b.2.1, b.2.2]
        simp
      · by_cases h2 : endPosOf v cl = -1
        · rw [searchLoop_pastEOF env txt fo last n cl prev v ops h0 h1 h2,
            searchLoop_pastEOF env txt fo last n cl prev v [] h0 h1 h2]
          simp
        · rw [searchLoop_search env txt fo last n cl prev v ops h0 h1 h2,
            searchLoop_search env txt fo last n cl prev v [] h0 h1 h2]
          have a := ih (toInt32 (cl + 1)) (docLineOf v cl)
            (env.processRange v (frInfoOf txt v cl) fo)
            (ops ++ queriesOf v cl
              ++ [Op.processRange (frInfoOf txt v cl) fo cl (docLineOf v cl) false])
          have b := ih (toInt32 (cl + 1)) (docLineOf v cl)
            (env.processRange v (frInfoOf txt v cl) fo)
            ([] ++ queriesOf v cl
              ++ [Op.processRange (frInfoOf txt v cl) fo cl (docLineOf v cl) false])
          rw [a.1, a.2.1, a.2.2, b.1, b.2.1, b.2.2]
          simp
    · rw [searchLoop_exit env txt fo last n cl prev v ops h0,
        searchLoop_exit env txt fo last n cl prev v [] h0]
      simp

/-- Inside the loop the target is neither read nor written, no word query is
made, and every `processRange` call gets the find options of the caller. -/
theorem searchLoop_ops (env : Env) (txt : String) (fo : FindOption) (last : Int) (n : Nat) :
    ∀ (cl prev : Int) (v : View), ∀ op ∈ (searchLoop env txt fo last n cl prev v []).ops,
      op.isTargetOp = false ∧ op.isWordQuery = false
      ∧ ∀ fo2, op.findOption = some fo2 → fo2 = fo := by
  induction n with
  | zero =>
    intro cl prev v op hop
    rw [searchLoop_zero] at hop
    exact absurd hop (List.not_mem_nil _)
  | succ n ih =>
    intro cl prev v op hop
    by_cases h0 : cl < last
    · by_cases h1 : docLineOf v cl = prev
      · rw [searchLoop_skip env txt fo last n cl prev v [] h0 h1,
          (searchLoop_append env txt fo last n _ _ _ _).1, List.mem_append] at hop
        rcases hop with hop | hop
        · simp only [List.nil_append, List.mem_singleton] at hop
          subst hop
          exact ⟨rfl, rfl, fun fo2 h => Option.noConfusion h⟩
        · exact ih _ _ _ op hop
      · by_cases h2 : endPosOf v cl = -1
        · rw [searchLoop_pastEOF env txt fo last n cl prev v [] h0 h1 h2] at hop
          simp only [queriesOf, List.nil_append, List.cons_append, List.mem_cons,
            List.mem_singleton, List.not_mem_nil, or_false] at hop
          rcases hop with rfl | rfl | rfl | rfl | rfl
          · exact ⟨rfl, rfl, fun fo2 h => Option.noConfusion h⟩
          · exact ⟨rfl, rfl, fun fo2 h => Option.noConfusion h⟩
          · exact ⟨rfl, rfl, fun fo2 h => Option.noConfusion h⟩
          · exact ⟨rfl, rfl, fun fo2 h => Option.noConfusion h⟩
          · exact ⟨rfl, rfl, fun fo2 h => (Option.some.inj h).symm⟩
        · rw [searchLoop_search env txt fo last n cl prev v [] h0 h1 h2,
            (searchLoop_append env txt fo last n _ _ _ _).1, List.mem_append] at hop
          rcases hop with hop | hop
          · simp only [queriesOf, List.nil_append, List.cons_append, List.mem_cons,
              List.mem_singleton, List.not_mem_nil, or_false] at hop
            rcases hop with rfl | rfl | rfl | rfl
            · exact ⟨rfl, rfl, fun fo2 h => Option.noConfusion h⟩
            · exact ⟨rfl, rfl, fun fo2 h => Option.noConfusion h⟩
            · exact ⟨rfl, rfl, fun fo2 h => Option.noConfusion h⟩
            · exact ⟨rfl, rfl, fun fo2 h => (Option.some.inj h).symm⟩
          · exact ih _ _ _ op hop
    · rw [searchLoop_exit env txt fo last n cl prev v [] h0] at hop
      exact absurd hop (List.not_mem_nil _)

end SmartHighlighter

namespace SmartHighlighter

theorem searches_append (a b : List Op) : searches (a ++ b) = searches a ++ searches b := by
  simp [searches, List.filterMap_append]

theorem length_searches (ops : List Op) :
    (searches ops).length = (ops.filter Op.isProcessRange).length := by
  induction ops with
  | nil => rfl
  | cons op t ih =>
    cases op <;> simp [searches, Op.searched, Op.isProcessRange, List.filterMap_cons] at ih ⊢ <;>
      exact ih

theorem preLoopOps_searches (b : Bool) (v : View) : searches (preLoopOps b v) = [] := by
  cases b <;> rfl

theorem preLoopOps_head (b : Bool) (v : View) :
    (preLoopOps b v ).head? = some (Op.clearIndicator SCE_UNIVERSAL_FOUND_STYLE_SMART) := by
  cases b <;> rfl

theorem preLoopOps_target (b : Bool) (v : View) :
    (preLoopOps b v).filter Op.isTargetOp
      = [Op.execute Sci.SCI_GETTARGETSTART 0 0, Op.execute Sci.SCI_GETTARGETEND 0 0] := by
  cases b <;> rfl

/-- A run of the loop in terms of the run started on an empty trace. -/
theorem searchLoop_eta (env : Env) (txt : String) (fo : FindOption) (last : Int) (n : Nat)
    (cl prev : Int) (v : View) (ops : List Op) :
    searchLoop env txt fo last n cl prev v ops
      = { view := (searchLoop env txt fo last n cl prev v []).view,
          ops := ops ++ (searchLoop env txt fo last n cl prev v []).ops,
          returned := (searchLoop env txt fo last n cl prev v []).returned } := by
  obtain ⟨h1, h2, h3⟩ := searchLoop_append env txt fo last n cl prev v ops
  rw [← h1, ← h2, ← h3]

/-! ## The three ways through `highlightView` -/

theorem highlightView_empty (env : Env) (nppGUI : NppGUI) (findHistory : FindHistory)
    (n : Nat) (v : View) (h : v.selectionEmpty = 1) :
    highlightView env nppGUI findHistory n v
      = { view := v.clearIndicator SCE_UNIVERSAL_FOUND_STYLE_SMART,
          ops := [Op.clearIndicator SCE_UNIVERSAL_FOUND_STYLE_SMART,
                  Op.execute Sci.SCI_GETSELECTIONEMPTY 0 0],
          returned := true } := by
  have h2 : (v.clearIndicator SCE_UNIVERSAL_FOUND_STYLE_SMART).selectionEmpty = 1 := h
  simp only [highlightView, if_pos h2]

theorem highlightView_mismatch (env : Env) (nppGUI : NppGUI) (findHistory : FindHistory)
    (n : Nat) (v : View) (h : v.selectionEmpty ≠ 1) (hw : wordOnlyOf nppGUI findHistory = true)
    (hm : wordMismatch v) :
    highlightView env nppGUI findHistory n v
      = { view := v.clearIndicator SCE_UNIVERSAL_FOUND_STYLE_SMART,
          ops := [Op.clearIndicator SCE_UNIVERSAL_FOUND_STYLE_SMART,
                  Op.execute Sci.SCI_GETSELECTIONEMPTY 0 0,
                  Op.execute Sci.SCI_GETCURRENTPOS 0 0,
                  Op.getSelection,
                  Op.execute Sci.SCI_WORDSTARTPOSITION v.currentPos 1,
                  Op.execute Sci.SCI_WORDENDPOSITION (v.wordStartPosition v.currentPos) 1],
          returned := true } := by
  have h2 : ¬ (v.clearIndicator SCE_UNIVERSAL_FOUND_STYLE_SMART).selectionEmpty = 1 := h
  have hc : wordOnlyOf nppGUI findHistory = true
      ∧ ((v.clearIndicator SCE_UNIVERSAL_FOUND_STYLE_SMART).wordStartPosition
            (v.clearIndicator SCE_UNIVERSAL_FOUND_STYLE_SMART).currentPos
          = (v.clearIndicator SCE_UNIVERSAL_FOUND_STYLE_SMART).wordEndPosition
              ((v.clearIndicator SCE_UNIVERSAL_FOUND_STYLE_SMART).wordStartPosition
                (v.clearIndicator SCE_UNIVERSAL_FOUND_STYLE_SMART).currentPos)
        ∨ (v.clearIndicator SCE_UNIVERSAL_FOUND_STYLE_SMART).wordStartPosition
            (v.clearIndicator SCE_UNIVERSAL_FOUND_STYLE_SMART).currentPos
          ≠ (v.clearIndicator SCE_UNIVERSAL_FOUND_STYLE_SMART).selection.cpMin
        ∨ (v.clearIndicator SCE_UNIVERSAL_FOUND_STYLE_SMART).wordEndPosition
              ((v.clearIndicator SCE_UNIVERSAL_FOUND_STYLE_SMART).wordStartPosition
                (v.clearIndicator SCE_UNIVERSAL_FOUND_STYLE_SMART).currentPos)
          ≠ (v.clearIndicator SCE_UNIVERSAL_FOUND_STYLE_SMART).selection.cpMax) := ⟨hw, hm⟩
  simp only [highlightView, if_neg h2, if_pos hc]
  rw [hw]
  rfl

/-- The run of `highlightView` that gets as far as the loop: the calls before
the loop, the calls of the loop and, if the loop is left, the restoring
`SCI_SETTARGETRANGE`. -/
theorem highlightView_loop (env : Env) (nppGUI : NppGUI) (findHistory : FindHistory) (n : Nat)
    (v : View) (h : reachesLoop nppGUI findHistory v) :
    highlightView env nppGUI findHistory n v
      = if (loopRun env nppGUI findHistory n v).returned = true then
          { view := (loopRun env nppGUI findHistory n v).view.setTargetRange
              v.targetStart v.targetEnd,
            ops := preLoopOps (wordOnlyOf nppGUI findHistory) v
              ++ (loopRun env nppGUI findHistory n v).ops
              ++ [Op.execute Sci.SCI_SETTARGETRANGE v.targetStart v.targetEnd],
            returned := true }
        else
          { view := (loopRun env nppGUI findHistory n v).view,
            ops := preLoopOps (wordOnlyOf nppGUI findHistory) v
              ++ (loopRun env nppGUI findHistory n v).ops,
            returned := false } := by
  have h2 : ¬ (v.clearIndicator SCE_UNIVERSAL_FOUND_STYLE_SMART).selectionEmpty = 1 := h.1
  have hc : ¬ (wordOnlyOf nppGUI findHistory = true
      ∧ ((v.clearIndicator SCE_UNIVERSAL_FOUND_STYLE_SMART).wordStartPosition
            (v.clearIndicator SCE_UNIVERSAL_FOUND_STYLE_SMART).currentPos
          = (v.clearIndicator SCE_UNIVERSAL_FOUND_STYLE_SMART).wordEndPosition
              ((v.clearIndicator SCE_UNIVERSAL_FOUND_STYLE_SMART).wordStartPosition
                (v.clearIndicator SCE_UNIVERSAL_FOUND_STYLE_SMART).currentPos)
        ∨ (v.clearIndicator SCE_UNIVERSAL_FOUND_STYLE_SMART).wordStartPosition
            (v.clearIndicator SCE_UNIVERSAL_FOUND_STYLE_SMART).currentPos
          ≠ (v.clearIndicator SCE_UNIVERSAL_FOUND_STYLE_SMART).selection.cpMin
        ∨ (v.clearIndicator SCE_UNIVERSAL_FOUND_STYLE_SMART).wordEndPosition
              ((v.clearIndicator SCE_UNIVERSAL_FOUND_STYLE_SMART).wordStartPosition
                (v.clearIndicator SCE_UNIVERSAL_FOUND_STYLE_SMART).currentPos)
          ≠ (v.clearIndicator SCE_UNIVERSAL_FOUND_STYLE_SMART).selection.cpMax)) := h.2
  have hpre : ∀ tail : List Op,
      (if wordOnlyOf nppGUI findHistory = true then
          [Op.clearIndicator SCE_UNIVERSAL_FOUND_STYLE_SMART,
            Op.execute Sci.SCI_GETSELECTIONEMPTY 0 0] ++
            [Op.execute Sci.SCI_GETCURRENTPOS 0 0, Op.getSelection] ++
            [Op.execute Sci.SCI_WORDSTARTPOSITION
                (v.clearIndicator SCE_UNIVERSAL_FOUND_STYLE_SMART).currentPos 1,
              Op.execute Sci.SCI_WORDENDPOSITION
                ((v.clearIndicator SCE_UNIVERSAL_FOUND_STYLE_SMART).wordStartPosition
                  (v.clearIndicator SCE_UNIVERSAL_FOUND_STYLE_SMART).currentPos) 1]
        else
          [Op.clearIndicator SCE_UNIVERSAL_FOUND_STYLE_SMART,
            Op.execute Sci.SCI_GETSELECTIONEMPTY 0 0] ++
            [Op.execute Sci.SCI_GETCURRENTPOS 0 0, Op.getSelection]) ++
        [Op.getSelectedText, Op.execute Sci.SCI_GETTARGETSTART 0 0,
          Op.execute Sci.SCI_GETTARGETEND 0 0, Op.execute Sci.SCI_GETFIRSTVISIBLELINE 0 0,
          Op.execute Sci.SCI_LINESONSCREEN 0 0, Op.execute Sci.SCI_GETCODEPAGE 0 0] ++ tail
      = preLoopOps (wordOnlyOf nppGUI findHistory) v ++ tail := by
    intro tail
    cases wordOnlyOf nppGUI findHistory <;> rfl
  simp only [highlightView, if_neg h2, if_neg hc]
  rw [searchLoop_eta]
  simp only []
  rw [hpre]
  show (if (loopRun env nppGUI findHistory n v).returned = true then _ else _) = _
  by_cases hret : (loopRun env nppGUI findHistory n v).returned = true
  · rw [if_pos hret, if_pos hret]
    rfl
  · rw [if_neg hret, if_neg hret, Run.mk.injEq]
    exact ⟨rfl, rfl, by simpa using hret⟩

end SmartHighlighter

namespace SmartHighlighter

/-- The calls of a run that gets as far as the loop start with the calls made
before the loop, followed by the calls of the loop. -/
theorem highlightView_loop_ops (env : Env) (nppGUI : NppGUI) (findHistory : FindHistory)
    (n : Nat) (v : View) (h : reachesLoop nppGUI findHistory v) :
    ∃ tail, (highlightView env nppGUI findHistory n v).ops
        = preLoopOps (wordOnlyOf nppGUI findHistory) v
            ++ (loopRun env nppGUI findHistory n v).ops ++ tail
      ∧ (tail = [] ∨ tail = [Op.execute Sci.SCI_SETTARGETRANGE v.targetStart v.targetEnd])
      ∧ (tail = [] ↔ (highlightView env nppGUI findHistory n v).returned = false) := by
  rw [highlightView_loop env nppGUI findHistory n v h]
  by_cases hret : (loopRun env nppGUI findHistory n v).returned = true
  · rw [if_pos hret]
    exact ⟨_, rfl, Or.inr rfl,
      ⟨fun h => List.noConfusion h, fun h => Bool.noConfusion h⟩⟩
  · rw [if_neg hret]
    exact ⟨[], (List.append_nil _).symm, Or.inl rfl, ⟨fun _ => rfl, fun _ => rfl⟩⟩

/-! ## C11 -/

/-- C11: the first call `highlightView` makes is `clearIndicator` for the
smart-highlight indicator; when the selection is empty the only other call is
the `SCI_GETSELECTIONEMPTY` query, so no `processRange` call is made, the search
target is neither read nor written, the view on return is the view on entry
with the marks of that indicator removed, and the method returns without
entering the loop. -/
theorem C11_clear_first_empty_selection (env : Env) (nppGUI : NppGUI)
    (findHistory : FindHistory) (steps : Nat) (v : View) :
    (highlightView env nppGUI findHistory steps v).ops.head?
        = some (Op.clearIndicator SCE_UNIVERSAL_FOUND_STYLE_SMART)
    ∧ (v.selectionEmpty = 1 →
        (highlightView env nppGUI findHistory steps v).ops
            = [Op.clearIndicator SCE_UNIVERSAL_FOUND_STYLE_SMART,
               Op.execute Sci.SCI_GETSELECTIONEMPTY 0 0]
        ∧ (highlightView env nppGUI findHistory steps v).ops.any Op.isProcessRange = false
        ∧ (highlightView env nppGUI findHistory steps v).ops.any Op.isTargetOp = false
        ∧ (highlightView env nppGUI findHistory steps v).view
            = v.clearIndicator SCE_UNIVERSAL_FOUND_STYLE_SMART
        ∧ (highlightView env nppGUI findHistory steps v).view.targetStart = v.targetStart
        ∧ (highlightView env nppGUI findHistory steps v).view.targetEnd = v.targetEnd
        ∧ (highlightView env nppGUI findHistory steps v).returned = true) := by
  refine ⟨?_, ?_⟩
  · by_cases h : v.selectionEmpty = 1
    · rw [highlightView_empty env nppGUI findHistory steps v h]
      rfl
    · by_cases hw : wordOnlyOf nppGUI findHistory = true ∧ wordMismatch v
      · rw [highlightView_mismatch env nppGUI findHistory steps v h hw.1 hw.2]
        rfl
      · obtain ⟨tail, ht, _⟩ := highlightView_loop_ops env nppGUI findHistory steps v ⟨h, hw⟩
        rw [ht, List.append_assoc, List.head?_append, preLoopOps_head]
        rfl
  · intro h
    rw [highlightView_empty env nppGUI findHistory steps v h]
    exact ⟨rfl, rfl, rfl, rfl, rfl, rfl, rfl⟩

/-- Witness for C11: the sample view with an empty selection. -/
theorem C11_clear_first_empty_selection_witness :
    sampleEmptyView.selectionEmpty = 1
    ∧ (highlightView sampleEnv sampleGUI sampleHistory 0 sampleEmptyView).ops
        = [Op.clearIndicator SCE_UNIVERSAL_FOUND_STYLE_SMART,
           Op.execute Sci.SCI_GETSELECTIONEMPTY 0 0]
    ∧ (highlightView sampleEnv sampleGUI sampleHistory 0 sampleEmptyView).returned = true :=
  have h := (C11_clear_first_empty_selection sampleEnv sampleGUI sampleHistory 0
    sampleEmptyView).2 (by decide)
  ⟨by decide, h.1, h.2.2.2.2.2.2⟩

/-! ## C12 -/

theorem wordOnlyOf_iff (nppGUI : NppGUI) (findHistory : FindHistory) :
    wordOnlyOf nppGUI findHistory = true
      ↔ (nppGUI._smartHiliteMode = SmartHiliteMode.wordOnly
        ∨ (nppGUI._smartHiliteMode = SmartHiliteMode.findDialog
          ∧ findHistory._isMatchWord = true)) := by
  unfold wordOnlyOf
  cases nppGUI._smartHiliteMode <;> simp

/-- C12: the word-only check is on exactly in mode `wordOnly` and in mode
`findDialog` with the match-word flag of the find history set. When it is on
and the word around the caret is empty, or does not start at the start of the
selection, or does not end at its end, the method returns and no `processRange`
call is made. In every mode other than these two no word-boundary query is made
and every `processRange` call has whole-word matching off. -/
theorem C12_word_only_check (env : Env) (nppGUI : NppGUI) (findHistory : FindHistory)
    (steps : Nat) (v : View) :
    (wordOnlyOf nppGUI findHistory = true
      ↔ (nppGUI._smartHiliteMode = SmartHiliteMode.wordOnly
        ∨ (nppGUI._smartHiliteMode = SmartHiliteMode.findDialog
          ∧ findHistory._isMatchWord = true)))
    ∧ (wordOnlyOf nppGUI findHistory = true →
        (v.wordStartPosition v.currentPos = v.wordEndPosition (v.wordStartPosition v.currentPos)
          ∨ v.wordStartPosition v.currentPos ≠ v.selection.cpMin
          ∨ v.wordEndPosition (v.wordStartPosition v.currentPos) ≠ v.selection.cpMax) →
        (highlightView env nppGUI findHistory steps v).ops.any Op.isProcessRange = false
        ∧ (highlightView env nppGUI findHistory steps v).returned = true)
    ∧ (nppGUI._smartHiliteMode = SmartHiliteMode.other →
        (highlightView env nppGUI findHistory steps v).ops.any Op.isWordQuery = false
        ∧ ∀ op ∈ (highlightView env nppGUI findHistory steps v).ops, ∀ fo,
            op.findOption = some fo → fo._isWholeWord = false) := by
  refine ⟨wordOnlyOf_iff nppGUI findHistory, ?_, ?_⟩
  · intro hw hm
    by_cases h : v.selectionEmpty = 1
    · rw [highlightView_empty env nppGUI findHistory steps v h]
      exact ⟨rfl, rfl⟩
    · rw [highlightView_mismatch env nppGUI findHistory steps v h hw hm]
      exact ⟨rfl, rfl⟩
  · intro hmode
    have hw : wordOnlyOf nppGUI findHistory = false := by
      unfold wordOnlyOf
      rw [hmode]
      rfl
    by_cases h : v.selectionEmpty = 1
    · rw [highlightView_empty env nppGUI findHistory steps v h]
      refine ⟨rfl, ?_⟩
      intro op hop fo hfo
      simp only [List.mem_cons, List.mem_singleton, List.not_mem_nil, or_false] at hop
      rcases hop with rfl | rfl <;> exact Option.noConfusion hfo
    · have hr : reachesLoop nppGUI findHistory v :=
        ⟨h, fun hc => Bool.noConfusion (hw.symm.trans hc.1)⟩
      obtain ⟨tail, ht, htail, _⟩ := highlightView_loop_ops env nppGUI findHistory steps v hr
      rw [ht, hw]
      have hloop := searchLoop_ops env (env.char2wchar v.selectedText v.codePage)
        (loopFindOption nppGUI findHistory) (lastLineOf v) steps
        (toInt32 v.firstVisibleLine) (-1) (v.clearIndicator SCE_UNIVERSAL_FOUND_STYLE_SMART)
      refine ⟨?_, ?_⟩
      · rw [List.any_append, List.any_append]
        have h2 : (loopRun env nppGUI findHistory steps v).ops.any Op.isWordQuery = false := by
          rw [List.any_eq_false]
          intro op hop
          rw [(hloop op hop).2.1]
          exact Bool.false_ne_true
        rw [h2]
        rcases htail with rfl | rfl <;> rfl
      · intro op hop fo hfo
        show fo._isWholeWord = false
        rcases List.mem_append.mp hop with hop | hop
        · rcases List.mem_append.mp hop with hop | hop
          · simp only [preLoopOps, Bool.false_eq_true, if_false, List.append_nil,
              List.cons_append, List.nil_append, List.mem_cons, List.mem_singleton,
              List.not_mem_nil, or_false] at hop
            rcases hop with rfl | rfl | rfl | rfl | rfl | rfl | rfl | rfl | rfl | rfl <;>
              exact Option.noConfusion hfo
          · have := (hloop op hop).2.2 fo hfo
            rw [this]
            exact hw
        · rcases htail with rfl | rfl
          · exact absurd hop (List.not_mem_nil _)
          · rw [List.mem_singleton] at hop
            subst hop
            exact Option.noConfusion hfo

/-- Witness for C12: word-only mode on the sample view whose selection starts
inside the word. -/
theorem C12_word_only_check_witness :
    (wordOnlyOf sampleGUI sampleHistory = true
      ∧ (sampleMismatchView.wordStartPosition sampleMismatchView.currentPos
            = sampleMismatchView.wordEndPosition
                (sampleMismatchView.wordStartPosition sampleMismatchView.currentPos)
        ∨ sampleMismatchView.wordStartPosition sampleMismatchView.currentPos
            ≠ sampleMismatchView.selection.cpMin
        ∨ sampleMismatchView.wordEndPosition
              (sampleMismatchView.wordStartPosition sampleMismatchView.currentPos)
            ≠ sampleMismatchView.selection.cpMax))
    ∧ (highlightView sampleEnv sampleGUI sampleHistory 10 sampleMismatchView).ops.any
        Op.isProcessRange = false
    ∧ (highlightView sampleEnv sampleGUI sampleHistory 10 sampleMismatchView).returned = true :=
  ⟨⟨by decide, by decide⟩,
   (C12_word_only_check sampleEnv sampleGUI sampleHistory 10 sampleMismatchView).2.1
     (by decide) (by decide)⟩

end SmartHighlighter

namespace SmartHighlighter

/-! ## The loop at the top of the `int` range -/

theorem toInt32_ge (x : Int) : -2147483648 ≤ toInt32 x := by
  unfold toInt32
  omega

theorem toInt32_id (x : Int) (h1 : -2147483648 ≤ x) (h2 : x ≤ 2147483647) : toInt32 x = x := by
  unfold toInt32
  omega

end SmartHighlighter

namespace SmartHighlighter

/-- An iteration that searches a document line adds one `processRange` call
to those of the iterations after it. -/
theorem searchLoop_search_searches (env : Env) (txt : String) (fo : FindOption) (last : Int)
    (n : Nat) (cl prev : Int) (v : View) (h0 : cl < last) (h1 : docLineOf v cl ≠ prev)
    (h2 : endPosOf v cl ≠ -1) :
    searches (searchLoop env txt fo last (n + 1) cl prev v []).ops
      = (cl, docLineOf v cl, false)
        :: searches (searchLoop env txt fo last n (toInt32 (cl + 1)) (docLineOf v cl)
            (env.processRange v (frInfoOf txt v cl) fo) []).ops := by
  rw [searchLoop_search env txt fo last n cl prev v [] h0 h1 h2,
    (searchLoop_append env txt fo last n _ _ _ _).1, searches_append]
  rfl

theorem docLineOf_overflow (v : View)
    (hd : v.docLineFromVisible = overflowView.docLineFromVisible) (c : Int) :
    docLineOf v c = toInt32 (if c ≤ 0 then 0 else c) := by
  unfold docLineOf
  rw [hd]
  rfl

theorem endPosOf_overflow (v : View)
    (hd : v.docLineFromVisible = overflowView.docLineFromVisible)
    (hp : v.positionFromLine = overflowView.positionFromLine) (c : Int) :
    endPosOf v c
      = toInt32 (if toInt32 (toInt32 (if c ≤ 0 then 0 else c) + 1) < 0 then 0
                 else 2 * toInt32 (toInt32 (if c ≤ 0 then 0 else c) + 1)) := by
  unfold endPosOf
  rw [docLineOf_overflow v hd, hp]
  rfl

end SmartHighlighter

namespace SmartHighlighter

/-! ## The loop below the top of the `int` range -/

theorem chain_lt_of_mem (x : Int × Int × Bool) (t : List (Int × Int × Bool))
    (h : List.Chain nextSearch x t) : ∀ b ∈ t, x.1 < b.1 := by
  induction t generalizing x with
  | nil => intro b hb; exact absurd hb (List.not_mem_nil _)
  | cons y t ih =>
    intro b hb
    have hxy := (List.chain_cons.mp h).1
    have ht := (List.chain_cons.mp h).2
    rcases List.mem_cons.mp hb with rfl | hb
    · exact hxy.1
    · have := ih y ht b hb
      have := hxy.1
      omega

theorem chain_consecutive_lines (l : List (Int × Int × Bool)) (h : List.Chain' nextSearch l) :
    ∀ a ∈ l, ∀ b ∈ l, b.1 = a.1 + 1 → a.2.1 ≠ b.2.1 := by
  induction l with
  | nil => intro a ha; exact absurd ha (List.not_mem_nil _)
  | cons x t ih =>
    have hx : List.Chain nextSearch x t := h
    have hlt := chain_lt_of_mem x t hx
    have ht : List.Chain' nextSearch t := List.Chain'.tail h
    intro a ha b hb hab
    rcases List.mem_cons.mp ha with ha1 | ha2
    · rcases List.mem_cons.mp hb with hb1 | hb2
      · rw [ha1, hb1] at hab
        omega
      · rw [ha1] at hab ⊢
        cases t with
        | nil => exact absurd hb2 (List.not_mem_nil _)
        | cons y t2 =>
          have hxy := (List.chain_cons.mp hx).1
          have hy := (List.chain_cons.mp hx).2
          rcases List.mem_cons.mp hb2 with hb3 | hb4
          · rw [hb3]
            exact hxy.2.1
          · have h1 := chain_lt_of_mem y t2 hy b hb4
            have h2 := hxy.1
            omega
    · rcases List.mem_cons.mp hb with hb1 | hb2
      · have h1 := hlt a ha2
        rw [hb1] at hab
        omega
      · exact ih ht a ha2 b hb2 hab

theorem chain_dropLast_not_past (l : List (Int × Int × Bool)) (h : List.Chain' nextSearch l) :
    ∀ a ∈ l.dropLast, a.2.2 = false := by
  induction l with
  | nil => intro a ha; exact absurd ha (List.not_mem_nil _)
  | cons x t ih =>
    cases t with
    | nil => intro a ha; exact absurd ha (List.not_mem_nil _)
    | cons y t2 =>
      intro a ha
      rw [List.dropLast_cons₂] at ha
      have hx : List.Chain nextSearch x (y :: t2) := h
      rcases List.mem_cons.mp ha with ha1 | ha2
      · rw [ha1]
        exact (List.chain_cons.mp hx).1.2.2
      · exact ih (List.Chain'.tail h) a ha2

/-- When `lastLine` is an `int`, the loop is left after at most
`lastLine - currentLine` iterations: given one step more than that, it makes at
most one `processRange` call per iteration, each for a later visible line and
another document line than the one before, and none after a call that reached
past the end of the document. -/
theorem searchLoop_bounded (env : Env) (txt : String) (fo : FindOption) (last : Int)
    (hlast : last ≤ 2147483647) (n : Nat) :
    ∀ (cl prev : Int) (v : View), -2147483648 ≤ cl → (last - cl).toNat < n →
      (searchLoop env txt fo last n cl prev v []).returned = true
      ∧ (searches (searchLoop env txt fo last n cl prev v []).ops).length ≤ (last - cl).toNat
      ∧ List.Chain nextSearch (cl - 1, prev, false)
          (searches (searchLoop env txt fo last n cl prev v []).ops) := by
  induction n with
  | zero =>
    intro cl prev v _ hn
    exact absurd hn (Nat.not_lt_zero _)
  | succ n ih =>
    intro cl prev v hlo hn
    by_cases h0 : cl < last
    · have hstep : toInt32 (cl + 1) = cl + 1 := toInt32_id _ (by omega) (by omega)
      have hn2 : (last - (cl + 1)).toNat < n := by omega
      have hlen : (last - (cl + 1)).toNat + 1 = (last - cl).toNat := by omega
      by_cases h1 : docLineOf v cl = prev
      · rw [searchLoop_skip env txt fo last n cl prev v [] h0 h1, hstep,
          (searchLoop_append env txt fo last n _ _ _ _).1,
          (searchLoop_append env txt fo last n _ _ _ _).2.2, searches_append]
        have k := ih (cl + 1) prev v (by omega) hn2
        have e : searches ([] ++ [Op.execute Sci.SCI_DOCLINEFROMVISIBLE cl 0]) = [] := rfl
        rw [e, List.nil_append]
        refine ⟨k.1, by omega, ?_⟩
        refine List.Chain.imp' (fun _ _ h => h) ?_ k.2.2
        intro c hc
        refine ⟨?_, hc.2.1, rfl⟩
        have := hc.1
        simp only [add_sub_cancel_right] at this
        show cl - 1 < c.1
        omega
      · by_cases h2 : endPosOf v cl = -1
        · rw [searchLoop_pastEOF env txt fo last n cl prev v [] h0 h1 h2]
          refine ⟨rfl, ?_, ?_⟩
          · show 1 ≤ (last - cl).toNat
            omega
          · show List.Chain nextSearch _ [(cl, docLineOf v cl, true)]
            refine List.Chain.cons ⟨?_, fun h => h1 h.symm, rfl⟩ List.Chain.nil
            show cl - 1 < cl
            omega
        · rw [searchLoop_search_searches env txt fo last n cl prev v h0 h1 h2,
            searchLoop_search env txt fo last n cl prev v [] h0 h1 h2, hstep,
            (searchLoop_append env txt fo last n _ _ _ _).2.2]
          have k := ih (cl + 1) (docLineOf v cl) (env.processRange v (frInfoOf txt v cl) fo)
            (by omega) hn2
          refine ⟨k.1, ?_, ?_⟩
          · rw [List.length_cons]
            omega
          · refine List.Chain.cons ⟨?_, fun h => h1 h.symm, rfl⟩ ?_
            · show cl - 1 < cl
              omega
            · have k2 := k.2.2
              simp only [add_sub_cancel_right] at k2
              exact k2
    · rw [searchLoop_exit env txt fo last n cl prev v [] h0]
      exact ⟨rfl, Nat.zero_le _, List.Chain.nil⟩

end SmartHighlighter

namespace SmartHighlighter

theorem lastLineOf_fits (v : View) (hn : 0 ≤ v.linesOnScreen)
    (hfit : toInt32 v.firstVisibleLine + (min v.linesOnScreen MAXLINEHIGHLIGHT + 1)
      ≤ 2147483647) :
    lastLineOf v = toInt32 v.firstVisibleLine + (min v.linesOnScreen MAXLINEHIGHLIGHT + 1) := by
  have h400 : MAXLINEHIGHLIGHT = 400 := rfl
  have hge := toInt32_ge v.firstVisibleLine
  unfold lastLineOf toInt64
  rw [h400] at hfit ⊢
  omega

theorem loopRun_no_target (env : Env) (nppGUI : NppGUI) (findHistory : FindHistory) (n : Nat)
    (v : View) :
    (loopRun env nppGUI findHistory n v).ops.filter Op.isTargetOp = [] := by
  rw [List.filter_eq_nil_iff]
  intro op hop
  have := (searchLoop_ops env _ _ _ _ _ _ _ op hop).1
  rw [this]
  exact Bool.false_ne_true

/-- The `processRange` calls of any run of `highlightView` are those of its
loop. -/
theorem highlightView_searches (env : Env) (nppGUI : NppGUI) (findHistory : FindHistory)
    (n : Nat) (v : View) :
    searches (highlightView env nppGUI findHistory n v).ops = []
    ∨ (reachesLoop nppGUI findHistory v
      ∧ searches (highlightView env nppGUI findHistory n v).ops
          = searches (loopRun env nppGUI findHistory n v).ops) := by
  by_cases h : v.selectionEmpty = 1
  · left
    rw [highlightView_empty env nppGUI findHistory n v h]
    rfl
  · by_cases hw : wordOnlyOf nppGUI findHistory = true ∧ wordMismatch v
    · left
      rw [highlightView_mismatch env nppGUI findHistory n v h hw.1 hw.2]
      rfl
    · right
      refine ⟨⟨h, hw⟩, ?_⟩
      obtain ⟨tail, ht, htail, _⟩ := highlightView_loop_ops env nppGUI findHistory n v ⟨h, hw⟩
      rw [ht, searches_append, searches_append, preLoopOps_searches]
      rcases htail with rfl | rfl
      · simp [searches]
      · show [] ++ _ ++ [] = _
        simp

/-- Below the top of the `int` range the two properties hold: when the first
visible line plus `min(lines on screen, MAXLINEHIGHLIGHT) + 1` is an `int`,
`highlightView` returns, given one step more than that number of lines; it
makes at most that many `processRange` calls, each for a later visible line and
another document line than the call before, none after a call that reached past
the end of the document; and if it got as far as the loop, its last call is the
`SCI_SETTARGETRANGE` that restores the target read before the loop. -/
theorem highlightView_bounded (env : Env) (nppGUI : NppGUI) (findHistory : FindHistory)
    (steps : Nat) (v : View) (hn : 0 ≤ v.linesOnScreen)
    (hfit : toInt32 v.firstVisibleLine + (min v.linesOnScreen MAXLINEHIGHLIGHT + 1)
      ≤ 2147483647)
    (hsteps : (min v.linesOnScreen MAXLINEHIGHLIGHT + 1).toNat < steps) :
    (highlightView env nppGUI findHistory steps v).returned = true
    ∧ (((highlightView env nppGUI findHistory steps v).ops.filter Op.isProcessRange).length : Int)
        ≤ min v.linesOnScreen MAXLINEHIGHLIGHT + 1
    ∧ List.Chain' nextSearch (searches (highlightView env nppGUI findHistory steps v).ops)
    ∧ (∀ a ∈ searches (highlightView env nppGUI findHistory steps v).ops,
        ∀ b ∈ searches (highlightView env nppGUI findHistory steps v).ops,
          b.1 = a.1 + 1 → a.2.1 ≠ b.2.1)
    ∧ (∀ a ∈ (searches (highlightView env nppGUI findHistory steps v).ops).dropLast,
        a.2.2 = false)
    ∧ (reachesLoop nppGUI findHistory v →
        (highlightView env nppGUI findHistory steps v).ops.getLast?
            = some (Op.execute Sci.SCI_SETTARGETRANGE v.targetStart v.targetEnd)
        ∧ (highlightView env nppGUI findHistory steps v).ops.filter Op.isTargetOp
            = [Op.execute Sci.SCI_GETTARGETSTART 0 0, Op.execute Sci.SCI_GETTARGETEND 0 0,
               Op.execute Sci.SCI_SETTARGETRANGE v.targetStart v.targetEnd]
        ∧ (highlightView env nppGUI findHistory steps v).view.targetStart = v.targetStart
        ∧ (highlightView env nppGUI findHistory steps v).view.targetEnd = v.targetEnd) := by
  have hlast := lastLineOf_fits v hn hfit
  have hdiff : (lastLineOf v - toInt32 v.firstVisibleLine).toNat
      = (min v.linesOnScreen MAXLINEHIGHLIGHT + 1).toNat := by
    rw [hlast]
    congr 1
    omega
  have k := searchLoop_bounded env (env.char2wchar v.selectedText v.codePage)
    (loopFindOption nppGUI findHistory) (lastLineOf v) (by rw [hlast]; exact hfit) steps
    (toInt32 v.firstVisibleLine) (-1) (v.clearIndicator SCE_UNIVERSAL_FOUND_STYLE_SMART)
    (toInt32_ge _) (by rw [hdiff]; exact hsteps)
  have kret : (loopRun env nppGUI findHistory steps v).returned = true := k.1
  have klen : (searches (loopRun env nppGUI findHistory steps v).ops).length
      ≤ (min v.linesOnScreen MAXLINEHIGHLIGHT + 1).toNat := by
    rw [← hdiff]
    exact k.2.1
  have kchain : List.Chain' nextSearch (searches (loopRun env nppGUI findHistory steps v).ops) := by
    have k2 : List.Chain nextSearch (toInt32 v.firstVisibleLine - 1, -1, false)
        (searches (loopRun env nppGUI findHistory steps v).ops) := k.2.2
    cases hl : searches (loopRun env nppGUI findHistory steps v).ops with
    | nil => exact List.chain'_nil
    | cons x t =>
      rw [hl] at k2
      exact List.chain_of_chain_cons k2
  have hchain : List.Chain' nextSearch
      (searches (highlightView env nppGUI findHistory steps v).ops) := by
    rcases highlightView_searches env nppGUI findHistory steps v with h | ⟨_, h⟩
    · rw [h]
      exact List.chain'_nil
    · rw [h]
      exact kchain
  have h400 : MAXLINEHIGHLIGHT = 400 := rfl
  refine ⟨?_, ?_, hchain, chain_consecutive_lines _ hchain, chain_dropLast_not_past _ hchain, ?_⟩
  · by_cases h : v.selectionEmpty = 1
    · rw [highlightView_empty env nppGUI findHistory steps v h]
    · by_cases hw : wordOnlyOf nppGUI findHistory = true ∧ wordMismatch v
      · rw [highlightView_mismatch env nppGUI findHistory steps v h hw.1 hw.2]
      · rw [highlightView_loop env nppGUI findHistory steps v ⟨h, hw⟩, if_pos kret]
  · rw [← length_searches]
    have hb : (searches (highlightView env nppGUI findHistory steps v).ops).length
        ≤ (min v.linesOnScreen MAXLINEHIGHLIGHT + 1).toNat := by
      rcases highlightView_searches env nppGUI findHistory steps v with h | ⟨_, h⟩
      · rw [h]
        exact Nat.zero_le _
      · rw [h]
        exact klen
    have hnn : 0 ≤ min v.linesOnScreen MAXLINEHIGHLIGHT + 1 := by
      rw [h400]
      omega
    have := Int.toNat_of_nonneg hnn
    omega
  · intro hr
    rw [highlightView_loop env nppGUI findHistory steps v hr, if_pos kret]
    refine ⟨?_, ?_, rfl, rfl⟩
    · show List.getLast? (_ ++ [_]) = _
      exact List.getLast?_concat _
    · show List.filter Op.isTargetOp (_ ++ _ ++ _) = _
      rw [List.filter_append, List.filter_append, preLoopOps_target, loopRun_no_target]
      rfl

/-- The sample view, below the top of the `int` range: with five lines on
screen the call returns within seven steps, after three `processRange` calls,
for the visible lines 0, 2 and 3 (line 1 continues document line 0), the last
one reaching past the end of the document, and the target is 7 to 9 again. -/
theorem highlightView_sample :
    (highlightView sampleEnv sampleGUI sampleHistory 7 sampleView).returned = true
    ∧ searches (highlightView sampleEnv sampleGUI sampleHistory 7 sampleView).ops
        = [(0, 0, false), (2, 1, false), (3, 2, true)]
    ∧ (highlightView sampleEnv sampleGUI sampleHistory 7 sampleView).view.targetStart = 7
    ∧ (highlightView sampleEnv sampleGUI sampleHistory 7 sampleView).view.targetEnd = 9 := by
  have h := highlightView_bounded sampleEnv sampleGUI sampleHistory 7 sampleView
    (by decide) (by decide) (by decide)
  exact ⟨h.1, by decide, (h.2.2.2.2.2 (by decide)).2.2.1, (h.2.2.2.2.2 (by decide)).2.2.2⟩

end SmartHighlighter

namespace SmartHighlighter

/-! ## C13 -/

end SmartHighlighter

namespace DocumentSnapshot

open NppDarkMode (RECT HWND)
open SmartHighlighter (toInt32)

/-! ## C15 -/

theorem toInt32_of_inInt32 (x : Int) (h : InInt32 x) : toInt32 x = x := by
  unfold InInt32 at h
  unfold toInt32
  omega

theorem toInt32_sub_cancel (a b : Int) (h : InInt32 b) : toInt32 (toInt32 (a + b) - a) = b := by
  unfold InInt32 at h
  unfold toInt32
  omega

/-- The rectangle `scrollSnapshotWith` leaves in `_rc` when a view exists. -/
theorem scrollSnapshotWith_rc (d : Dialog) (mapPos : MapPosition) (view : SnapshotView)
    (hview : d._pScintillaEditView = some view) :
    (scrollSnapshotWith d mapPos).1._rc
      = { left := d._rc.left, top := d._rc.top,
          right := if mapPos._width ≠ -1 then toInt32 (d._rc.left + mapPos._width)
                   else d._rc.right,
          bottom := if mapPos._height ≠ -1 then toInt32 (d._rc.top + mapPos._height)
                    else d._rc.bottom } := by
  obtain ⟨⟨l, t, r, b⟩, pv⟩ := d
  simp only at hview
  subst hview
  simp only [scrollSnapshotWith]
  by_cases h1 : mapPos._height = -1 <;> by_cases h2 : b = toInt32 (t + mapPos._height) <;>
    by_cases h3 : mapPos._width = -1 <;> by_cases h4 : r = toInt32 (l + mapPos._width) <;>
    simp [h1, h2, h3, h4]

theorem scrollSnapshotWith_move (d : Dialog) (mapPos : MapPosition) (view : SnapshotView)
    (hview : d._pScintillaEditView = some view) :
    (scrollSnapshotWith d mapPos).2.filter Op.isMoveWindow
      = if (mapPos._height ≠ -1 ∧ d._rc.bottom ≠ toInt32 (d._rc.top + mapPos._height))
            ∨ (mapPos._width ≠ -1 ∧ d._rc.right ≠ toInt32 (d._rc.left + mapPos._width))
        then [Op.MoveWindow view.hSelf 0 0
                (toInt32 ((scrollSnapshotWith d mapPos).1._rc.right
                  - (scrollSnapshotWith d mapPos).1._rc.left))
                (toInt32 ((scrollSnapshotWith d mapPos).1._rc.bottom
                  - (scrollSnapshotWith d mapPos).1._rc.top)) true]
        else [] := by
  unfold scrollSnapshotWith
  rw [hview]
  by_cases h1 : mapPos._height ≠ -1 ∧ d._rc.bottom ≠ toInt32 (d._rc.top + mapPos._height) <;>
    by_cases h2 : mapPos._width ≠ -1 ∧ d._rc.right ≠ toInt32 (d._rc.left + mapPos._width) <;>
    simp [h1, h2, Op.isMoveWindow, List.filter_cons]

end DocumentSnapshot

namespace DocumentSnapshot

open NppDarkMode (RECT HWND)
open SmartHighlighter (toInt32)

/-- C15: with a snapshot view, after `scrollSnapshotWith` the C expression
`_rc.bottom - _rc.top` has the value `mapPos._height` whenever that is not -1
(and the difference itself is `mapPos._height` when `_rc.top + mapPos._height`
does not overflow), likewise `_rc.right - _rc.left` and `mapPos._width`;
`_rc.top` and `_rc.left` are unchanged; `MoveWindow` is called, once and with
the new size, exactly when `_rc.bottom` or `_rc.right` changed; and without a
snapshot view the dialog is unchanged and no call is made. -/
theorem C15_scrollSnapshotWith_resizes (d : Dialog) (mapPos : MapPosition) (view : SnapshotView)
    (hview : d._pScintillaEditView = some view)
    (hh : InInt32 mapPos._height) (hw : InInt32 mapPos._width) :
    (mapPos._height ≠ -1 →
      toInt32 ((scrollSnapshotWith d mapPos).1._rc.bottom - (scrollSnapshotWith d mapPos).1._rc.top)
          = mapPos._height
      ∧ (InInt32 (d._rc.top + mapPos._height) →
          (scrollSnapshotWith d mapPos).1._rc.bottom - (scrollSnapshotWith d mapPos).1._rc.top
            = mapPos._height))
    ∧ (mapPos._width ≠ -1 →
      toInt32 ((scrollSnapshotWith d mapPos).1._rc.right - (scrollSnapshotWith d mapPos).1._rc.left)
          = mapPos._width
      ∧ (InInt32 (d._rc.left + mapPos._width) →
          (scrollSnapshotWith d mapPos).1._rc.right - (scrollSnapshotWith d mapPos).1._rc.left
            = mapPos._width))
    ∧ (scrollSnapshotWith d mapPos).1._rc.top = d._rc.top
    ∧ (scrollSnapshotWith d mapPos).1._rc.left = d._rc.left
    ∧ (scrollSnapshotWith d mapPos).2.filter Op.isMoveWindow
        = (if (scrollSnapshotWith d mapPos).1._rc.bottom ≠ d._rc.bottom
              ∨ (scrollSnapshotWith d mapPos).1._rc.right ≠ d._rc.right
           then [Op.MoveWindow view.hSelf 0 0
                  (toInt32 ((scrollSnapshotWith d mapPos).1._rc.right
                    - (scrollSnapshotWith d mapPos).1._rc.left))
                  (toInt32 ((scrollSnapshotWith d mapPos).1._rc.bottom
                    - (scrollSnapshotWith d mapPos).1._rc.top)) true]
           else [])
    ∧ (∀ d2 : Dialog, d2._pScintillaEditView = none → scrollSnapshotWith d2 mapPos = (d2, [])) := by
  have hrc := scrollSnapshotWith_rc d mapPos view hview
  have hmv := scrollSnapshotWith_move d mapPos view hview
  have hb : (scrollSnapshotWith d mapPos).1._rc.bottom
      = if mapPos._height ≠ -1 then toInt32 (d._rc.top + mapPos._height) else d._rc.bottom := by
    rw [hrc]
  have hr : (scrollSnapshotWith d mapPos).1._rc.right
      = if mapPos._width ≠ -1 then toInt32 (d._rc.left + mapPos._width) else d._rc.right := by
    rw [hrc]
  have ht : (scrollSnapshotWith d mapPos).1._rc.top = d._rc.top := by rw [hrc]
  have hl : (scrollSnapshotWith d mapPos).1._rc.left = d._rc.left := by rw [hrc]
  refine ⟨?_, ?_, ht, hl, ?_, ?_⟩
  · intro hne
    rw [hb, ht, if_pos hne]
    refine ⟨toInt32_sub_cancel _ _ hh, fun hno => ?_⟩
    rw [toInt32_of_inInt32 _ hno]
    omega
  · intro hne
    rw [hr, hl, if_pos hne]
    refine ⟨toInt32_sub_cancel _ _ hw, fun hno => ?_⟩
    rw [toInt32_of_inInt32 _ hno]
    omega
  · rw [hmv]
    have hcond : ((mapPos._height ≠ -1 ∧ d._rc.bottom ≠ toInt32 (d._rc.top + mapPos._height))
          ∨ (mapPos._width ≠ -1 ∧ d._rc.right ≠ toInt32 (d._rc.left + mapPos._width)))
        ↔ ((scrollSnapshotWith d mapPos).1._rc.bottom ≠ d._rc.bottom
          ∨ (scrollSnapshotWith d mapPos).1._rc.right ≠ d._rc.right) := by
      rw [hb, hr]
      by_cases h1 : mapPos._height ≠ -1 <;> by_cases h3 : mapPos._width ≠ -1 <;>
        simp only [h1, h3, if_true, if_false, true_and, false_and, ne_eq, not_true_eq_false,
          or_false, false_or, not_false_eq_true] <;>
        constructor <;> intro h <;>
        first
          | exact h
          | (rcases h with h | h
             · exact Or.inl (fun e => h e.symm)
             · exact Or.inr (fun e => h e.symm))
          | exact fun e => h e.symm
    by_cases hc : (mapPos._height ≠ -1 ∧ d._rc.bottom ≠ toInt32 (d._rc.top + mapPos._height))
        ∨ (mapPos._width ≠ -1 ∧ d._rc.right ≠ toInt32 (d._rc.left + mapPos._width))
    · rw [if_pos hc, if_pos (hcond.mp hc)]
    · rw [if_neg hc, if_neg (fun h => hc (hcond.mpr h))]
  · intro d2 h2
    unfold scrollSnapshotWith
    rw [h2]

/-- Witness for C15: the sample dialog, 100 by 200, scrolled with the sample
position, 300 by 120: the rectangle becomes 300 by 120 at the same corner and
`MoveWindow` is called once. -/
theorem C15_scrollSnapshotWith_resizes_witness :
    (InInt32 sampleMapPosition._height ∧ InInt32 sampleMapPosition._width)
    ∧ (scrollSnapshotWith sampleDialog sampleMapPosition).1._rc
        = { left := 10, top := 20, right := 310, bottom := 140 }
    ∧ (scrollSnapshotWith sampleDialog sampleMapPosition).2.filter Op.isMoveWindow
        = [Op.MoveWindow 77 0 0 300 120 true]
    ∧ toInt32 ((scrollSnapshotWith sampleDialog sampleMapPosition).1._rc.bottom
          - (scrollSnapshotWith sampleDialog sampleMapPosition).1._rc.top)
        = sampleMapPosition._height :=
  ⟨⟨by decide, by decide⟩, by decide, by decide,
   ((C15_scrollSnapshotWith_resizes sampleDialog sampleMapPosition
      { hSelf := 77, visibleFromDocLine := fun l => l + 1, textHeight := fun _ => 4 }
      rfl (by decide) (by decide)).1 (by decide)).1⟩

end DocumentSnapshot

namespace DocumentSnapshot

open NppDarkMode (RECT HWND)
open SmartHighlighter (toInt32)

/-! ## C18 -/

/-- C18: with a snapshot view, the map position `saveCurrentSnapshot` stores in
the editor's current buffer has `_firstVisibleDocLine` the document line of the
editor's first visible display line, `_nbLine` the editor's lines on screen,
`_lastVisibleDocLine` the document line of display line first visible plus
`_nbLine`, `_height` the product of `_nbLine` and the text height the snapshot
view reports for `_firstVisibleDocLine`, and `_wrapIndentMode` and `_isWrap`
the editor's, each converted to `int32_t`; when these values fit 32 bits the
members are the values themselves. Without a snapshot view the buffer is
returned as it was. -/
theorem C18_saveCurrentSnapshot_records (widthOf : Int → Int → Int → Int) (d : Dialog)
    (editView : EditView) (view : SnapshotView) (hview : d._pScintillaEditView = some view) :
    ((saveCurrentSnapshot widthOf d editView)._mapPosition._firstVisibleDocLine
        = toInt32 (editView.docLineFromVisible editView.firstVisibleLine)
      ∧ (saveCurrentSnapshot widthOf d editView)._mapPosition._nbLine
        = toInt32 editView.linesOnScreen
      ∧ (saveCurrentSnapshot widthOf d editView)._mapPosition._lastVisibleDocLine
        = toInt32 (editView.docLineFromVisible
            (editView.firstVisibleLine
              + (saveCurrentSnapshot widthOf d editView)._mapPosition._nbLine))
      ∧ (saveCurrentSnapshot widthOf d editView)._mapPosition._height
        = toInt32 ((saveCurrentSnapshot widthOf d editView)._mapPosition._nbLine
            * toInt32 (view.textHeight
                (saveCurrentSnapshot widthOf d editView)._mapPosition._firstVisibleDocLine))
      ∧ (saveCurrentSnapshot widthOf d editView)._mapPosition._wrapIndentMode
        = toInt32 editView.wrapIndentMode
      ∧ (saveCurrentSnapshot widthOf d editView)._mapPosition._isWrap = editView.isWrap)
    ∧ ((InInt32 (editView.docLineFromVisible editView.firstVisibleLine)
        ∧ InInt32 editView.linesOnScreen
        ∧ InInt32 (editView.docLineFromVisible
            (editView.firstVisibleLine + editView.linesOnScreen))
        ∧ InInt32 (view.textHeight (editView.docLineFromVisible editView.firstVisibleLine))
        ∧ InInt32 (editView.linesOnScreen
            * view.textHeight (editView.docLineFromVisible editView.firstVisibleLine))
        ∧ InInt32 editView.wrapIndentMode) →
      (saveCurrentSnapshot widthOf d editView)._mapPosition._firstVisibleDocLine
        = editView.docLineFromVisible editView.firstVisibleLine
      ∧ (saveCurrentSnapshot widthOf d editView)._mapPosition._nbLine = editView.linesOnScreen
      ∧ (saveCurrentSnapshot widthOf d editView)._mapPosition._lastVisibleDocLine
        = editView.docLineFromVisible (editView.firstVisibleLine + editView.linesOnScreen)
      ∧ (saveCurrentSnapshot widthOf d editView)._mapPosition._height
        = editView.linesOnScreen
            * view.textHeight (editView.docLineFromVisible editView.firstVisibleLine)
      ∧ (saveCurrentSnapshot widthOf d editView)._mapPosition._wrapIndentMode
        = editView.wrapIndentMode)
    ∧ (∀ d2 : Dialog, d2._pScintillaEditView = none →
        saveCurrentSnapshot widthOf d2 editView = editView.currentBuffer) := by
  have e : saveCurrentSnapshot widthOf d editView
      = editView.currentBuffer.setMapPosition
          { _firstVisibleDocLine := toInt32 (editView.docLineFromVisible editView.firstVisibleLine),
            _lastVisibleDocLine := toInt32 (editView.docLineFromVisible
              (editView.firstVisibleLine + toInt32 editView.linesOnScreen)),
            _nbLine := toInt32 editView.linesOnScreen,
            _width := widthOf
              (toInt32 (toInt32 (editView.clientRect.right - editView.clientRect.left)
                - marginWidthsOf editView))
              (toInt32 (editView.clientRect.bottom - editView.clientRect.top))
              (toInt32 (toInt32 editView.linesOnScreen
                * toInt32 (view.textHeight
                    (toInt32 (editView.docLineFromVisible editView.firstVisibleLine))))),
            _height := toInt32 (toInt32 editView.linesOnScreen
              * toInt32 (view.textHeight
                  (toInt32 (editView.docLineFromVisible editView.firstVisibleLine)))),
            _wrapIndentMode := toInt32 editView.wrapIndentMode,
            _isWrap := editView.isWrap } := by
    unfold saveCurrentSnapshot
    rw [hview]
  refine ⟨?_, ?_, ?_⟩
  · rw [e]
    exact ⟨rfl, rfl, rfl, rfl, rfl, rfl⟩
  · rintro ⟨h1, h2, h3, h4, h5, h6⟩
    rw [e]
    simp only [Buffer.setMapPosition]
    rw [toInt32_of_inInt32 _ h1, toInt32_of_inInt32 _ h2, toInt32_of_inInt32 _ h3,
      toInt32_of_inInt32 _ h4, toInt32_of_inInt32 _ h5, toInt32_of_inInt32 _ h6]
    exact ⟨rfl, rfl, rfl, rfl, rfl⟩
  · intro d2 h2
    unfold saveCurrentSnapshot
    rw [h2]

/-- Witness for C18: the sample editor shows display lines 7 to 37, that is
document lines 5 to 35, the snapshot view reports a text height of 4, and the
stored position has 30 lines and height 120. -/
theorem C18_saveCurrentSnapshot_records_witness :
    (InInt32 (sampleEditView.docLineFromVisible sampleEditView.firstVisibleLine)
      ∧ InInt32 sampleEditView.linesOnScreen
      ∧ InInt32 (sampleEditView.docLineFromVisible
          (sampleEditView.firstVisibleLine + sampleEditView.linesOnScreen))
      ∧ InInt32 ((fun _ => 4 : Int → Int)
          (sampleEditView.docLineFromVisible sampleEditView.firstVisibleLine))
      ∧ InInt32 (sampleEditView.linesOnScreen
          * (fun _ => 4 : Int → Int)
              (sampleEditView.docLineFromVisible sampleEditView.firstVisibleLine))
      ∧ InInt32 sampleEditView.wrapIndentMode)
    ∧ (saveCurrentSnapshot (fun w h x => w * x / h) sampleDialog sampleEditView)._mapPosition
        = { _firstVisibleDocLine := 5, _lastVisibleDocLine := 35, _nbLine := 30, _width := 147,
            _height := 120, _wrapIndentMode := 1, _isWrap := true }
    ∧ (saveCurrentSnapshot (fun w h x => w * x / h) sampleDialog
          sampleEditView)._mapPosition._height
        = sampleEditView.linesOnScreen
            * (fun _ => 4 : Int → Int)
                (sampleEditView.docLineFromVisible sampleEditView.firstVisibleLine) :=
  ⟨by decide, by decide,
   ((C18_saveCurrentSnapshot_records (fun w h x => w * x / h) sampleDialog sampleEditView
      { hSelf := 77, visibleFromDocLine := fun l => l + 1, textHeight := fun _ => 4 }
      rfl).2.1 (by decide)).2.2.2.1⟩

end DocumentSnapshot

namespace NppDarkMode

/-! ## C17 -/

theorem answersWithBrush_intro (g : Gdi) (hdc h : HANDLE) (c tc : COLORREF)
    (hb : g.hasBrush h c) :
    answersWithBrush g hdc
      (Int.ofNat h, [Effect.SetTextColor hdc tc, Effect.SetBkColor hdc c]) c := by
  refine ⟨?_, rfl, h, rfl, hb⟩
  intro h0
  have h1 : (Int.ofNat h) = 0 := h0
  have h2 : h = 0 := Int.ofNat_eq_zero.mp h1
  exact hb.1 h2

/-- C17: let the four brushes of the selected theme be live brushes of the
theme's colours. With dark mode disabled `onCtlColor`, `onCtlColorSofter`,
`onCtlColorDarker` and `onCtlColorError` return `FALSE` and make no call on the
device context, and `onCtlColorDarkerBGStaticText` returns `FALSE` after the one
call `SetTextColor` with the system window-text or gray-text colour. With dark
mode enabled each of the five returns a value other than `FALSE`, sets the
background colour of the device context to the theme's `background`,
`softerBackground`, `pureBackground`, `errorBackground` and `pureBackground`
respectively, and the value returned is the handle of a live brush of that
same colour. -/
theorem C17_onCtlColor_family (GetSysColor : Nat → COLORREF) (s : State) (hdc : HANDLE)
    (isTextEnabled : Bool) (hinv : (getTheme s).ctlBrushesMatch s.gdi) :
    (isEnabled s = false →
      onCtlColor s hdc = (FALSE, [])
      ∧ onCtlColorSofter s hdc = (FALSE, [])
      ∧ onCtlColorDarker s hdc = (FALSE, [])
      ∧ onCtlColorError s hdc = (FALSE, [])
      ∧ onCtlColorDarkerBGStaticText GetSysColor s hdc isTextEnabled
          = (FALSE,
             [Effect.SetTextColor hdc
                (GetSysColor (if isTextEnabled then COLOR_WINDOWTEXT else COLOR_GRAYTEXT))]))
    ∧ (isEnabled s = true →
      answersWithBrush s.gdi hdc (onCtlColor s hdc) (getTheme s)._colors.background
      ∧ answersWithBrush s.gdi hdc (onCtlColorSofter s hdc) (getTheme s)._colors.softerBackground
      ∧ answersWithBrush s.gdi hdc (onCtlColorDarker s hdc) (getTheme s)._colors.pureBackground
      ∧ answersWithBrush s.gdi hdc (onCtlColorError s hdc) (getTheme s)._colors.errorBackground
      ∧ answersWithBrush s.gdi hdc
          (onCtlColorDarkerBGStaticText GetSysColor s hdc isTextEnabled)
          (getTheme s)._colors.pureBackground)
    ∧ (((onCtlColor s hdc).1 = FALSE ↔ isEnabled s = false)
      ∧ ((onCtlColorSofter s hdc).1 = FALSE ↔ isEnabled s = false)
      ∧ ((onCtlColorDarker s hdc).1 = FALSE ↔ isEnabled s = false)
      ∧ ((onCtlColorError s hdc).1 = FALSE ↔ isEnabled s = false)
      ∧ ((onCtlColorDarkerBGStaticText GetSysColor s hdc isTextEnabled).1 = FALSE
          ↔ isEnabled s = false)) := by
  have hoff : isEnabled s = false →
      onCtlColor s hdc = (FALSE, [])
      ∧ onCtlColorSofter s hdc = (FALSE, [])
      ∧ onCtlColorDarker s hdc = (FALSE, [])
      ∧ onCtlColorError s hdc = (FALSE, [])
      ∧ onCtlColorDarkerBGStaticText GetSysColor s hdc isTextEnabled
          = (FALSE,
             [Effect.SetTextColor hdc
                (GetSysColor (if isTextEnabled then COLOR_WINDOWTEXT else COLOR_GRAYTEXT))]) := by
    intro h
    simp only [onCtlColor, onCtlColorSofter, onCtlColorDarker, onCtlColorError,
      onCtlColorDarkerBGStaticText, h, Bool.not_false, if_true, and_self]
  have hon : isEnabled s = true →
      answersWithBrush s.gdi hdc (onCtlColor s hdc) (getTheme s)._colors.background
      ∧ answersWithBrush s.gdi hdc (onCtlColorSofter s hdc) (getTheme s)._colors.softerBackground
      ∧ answersWithBrush s.gdi hdc (onCtlColorDarker s hdc) (getTheme s)._colors.pureBackground
      ∧ answersWithBrush s.gdi hdc (onCtlColorError s hdc) (getTheme s)._colors.errorBackground
      ∧ answersWithBrush s.gdi hdc
          (onCtlColorDarkerBGStaticText GetSysColor s hdc isTextEnabled)
          (getTheme s)._colors.pureBackground := by
    intro h
    simp only [onCtlColor, onCtlColorSofter, onCtlColorDarker, onCtlColorError,
      onCtlColorDarkerBGStaticText, h, Bool.not_true, Bool.false_eq_true, if_false]
    exact ⟨answersWithBrush_intro _ _ _ _ _ hinv.1, answersWithBrush_intro _ _ _ _ _ hinv.2.1,
      answersWithBrush_intro _ _ _ _ _ hinv.2.2.1, answersWithBrush_intro _ _ _ _ _ hinv.2.2.2,
      answersWithBrush_intro _ _ _ _ _ hinv.2.2.1⟩
  refine ⟨hoff, hon, ?_⟩
  cases h : isEnabled s
  · have k := hoff h
    rw [k.1, k.2.1, k.2.2.1, k.2.2.2.1, k.2.2.2.2]
    simp
  · have k := hon h
    refine ⟨⟨fun e => absurd e k.1.1, fun e => Bool.noConfusion e⟩,
      ⟨fun e => absurd e k.2.1.1, fun e => Bool.noConfusion e⟩,
      ⟨fun e => absurd e k.2.2.1.1, fun e => Bool.noConfusion e⟩,
      ⟨fun e => absurd e k.2.2.2.1.1, fun e => Bool.noConfusion e⟩,
      ⟨fun e => absurd e k.2.2.2.2.1, fun e => Bool.noConfusion e⟩⟩

/-- Witness for C17: in the state after static initialisation with dark mode
switched on, the brushes of the default theme match its colours and
`onCtlColor` answers with the background brush, handle 1. -/
theorem C17_onCtlColor_family_witness :
    (getTheme sampleEnabledState).ctlBrushesMatch sampleEnabledState.gdi
    ∧ isEnabled sampleEnabledState = true
    ∧ (onCtlColor sampleEnabledState 5).1 = 1
    ∧ answersWithBrush sampleEnabledState.gdi 5 (onCtlColor sampleEnabledState 5)
        (getTheme sampleEnabledState)._colors.background :=
  ⟨by decide, by decide, by decide,
   ((C17_onCtlColor_family (fun _ => 0) sampleEnabledState 5 true (by decide)).2.1
      (by decide)).1⟩

end NppDarkMode

namespace NppDarkMode

/-! ## The registry invariant -/

theorem mem_live_DeleteObject (g : Gdi) (h : HANDLE) (o : GdiObject) :
    o ∈ (DeleteObject g h).live ↔ o ∈ g.live ∧ o.handle ≠ h := by
  simp [DeleteObject, List.mem_filter]

theorem mem_live_deleteAll (hs : List HANDLE) (g : Gdi) (o : GdiObject) :
    o ∈ (deleteAll g hs).live ↔ o ∈ g.live ∧ o.handle ∉ hs := by
  induction hs generalizing g with
  | nil => simp [deleteAll]
  | cons a t ih =>
    have k := ih (DeleteObject g a)
    simp only [deleteAll, List.foldl_cons] at k ⊢
    rw [k, mem_live_DeleteObject, List.mem_cons, not_or, and_assoc]

theorem Brushes_deleteForChange_eq (b : Brushes) (g : Gdi) :
    b.deleteForChange g
      = deleteAll g [b.background, b.softerBackground, b.hotBackground, b.pureBackground,
          b.errorBackground, b.hardlightBackground, b.softlightBackground, b.textColorBrush,
          b.darkerTextColorBrush] := rfl

theorem Brushes_createAll_next (api : Shlwapi) (colors : Colors) (g : Gdi) :
    (Brushes.createAll api colors g).2.next = g.next + 12 := rfl

theorem Pens_createAll_next (api : Shlwapi) (colors : Colors) (g : Gdi) :
    (Pens.createAll api colors g).2.next = g.next + 4 := rfl

theorem Brushes_createAll_handles (api : Shlwapi) (colors : Colors) (g : Gdi) :
    (Brushes.createAll api colors g).1.handles
      = [g.next + 1, g.next + 2, g.next + 3, g.next + 4, g.next + 5, g.next + 6, g.next + 7,
         g.next + 8, g.next + 9, g.next + 10, g.next + 11, g.next + 12] := rfl

theorem Brushes_createAll_wf (api : Shlwapi) (colors : Colors) (g : Gdi) (hw : g.WellFormed) :
    (Brushes.createAll api colors g).2.WellFormed := by
  simp only [Brushes.createAll]
  exact CreateSolidBrush_wf _ _ (CreateSolidBrush_wf _ _ (CreateSolidBrush_wf _ _
    (CreateSolidBrush_wf _ _ (CreateSolidBrush_wf _ _ (CreateSolidBrush_wf _ _
    (CreateSolidBrush_wf _ _ (CreateSolidBrush_wf _ _ (CreateSolidBrush_wf _ _
    (CreateSolidBrush_wf _ _ (CreateSolidBrush_wf _ _ (CreateSolidBrush_wf _ _ hw)))))))))))

theorem Brushes_createAll_mono (api : Shlwapi) (colors : Colors) (g : Gdi) (o : GdiObject)
    (ho : o ∈ g.live) : o ∈ (Brushes.createAll api colors g).2.live := by
  simp only [Brushes.createAll, CreateSolidBrush, List.append_assoc, List.mem_append]
  exact Or.inl ho

theorem Pens_createAll_mono (api : Shlwapi) (colors : Colors) (g : Gdi) (o : GdiObject)
    (ho : o ∈ g.live) : o ∈ (Pens.createAll api colors g).2.live := by
  simp only [Pens.createAll, CreatePen, List.append_assoc, List.mem_append]
  exact Or.inl ho

/-- The four brushes of the `onCtlColor` family, right after their creation. -/
theorem Brushes_createAll_ctl (api : Shlwapi) (colors : Colors) (g : Gdi) :
    (⟨(Brushes.createAll api colors g).1.background, GdiKind.brush, colors.background⟩
        : GdiObject) ∈ (Brushes.createAll api colors g).2.live
    ∧ (⟨(Brushes.createAll api colors g).1.softerBackground, GdiKind.brush,
          colors.softerBackground⟩ : GdiObject) ∈ (Brushes.createAll api colors g).2.live
    ∧ (⟨(Brushes.createAll api colors g).1.pureBackground, GdiKind.brush,
          colors.pureBackground⟩ : GdiObject) ∈ (Brushes.createAll api colors g).2.live
    ∧ (⟨(Brushes.createAll api colors g).1.errorBackground, GdiKind.brush,
          colors.errorBackground⟩ : GdiObject) ∈ (Brushes.createAll api colors g).2.live := by
  simp [Brushes.createAll, CreateSolidBrush]

end NppDarkMode

namespace NppDarkMode

theorem hasBrush_of_mem (g : Gdi) (h : HANDLE) (c : COLORREF) (h0 : h ≠ 0)
    (hm : (⟨h, GdiKind.brush, c⟩ : GdiObject) ∈ g.live) : g.hasBrush h c :=
  ⟨h0, hm⟩

/-- What `Theme::change` does to the object table, for a theme whose pens are
not newer than the last handle handed out. -/
theorem Theme_change_spec (api : Shlwapi) (t : Theme) (colors : Colors) (g : Gdi)
    (hw : g.WellFormed) (hle : ∀ h ∈ t._pens.handles, h ≤ g.next) :
    (t.change api colors g).2.WellFormed
    ∧ (t.change api colors g).2.next = g.next + 16
    ∧ (∀ h, h ∈ (t.change api colors g).1.handles ↔ (g.next < h ∧ h ≤ g.next + 16))
    ∧ (t.change api colors g).1.ctlBrushesMatch (t.change api colors g).2
    ∧ (∀ o ∈ g.live, o.handle ∉ t.handles → o ∈ (t.change api colors g).2.live) := by
  obtain ⟨G1, hG1⟩ : ∃ G1, G1 = t._brushes.deleteForChange g := ⟨_, rfl⟩
  obtain ⟨G3, hG3⟩ : ∃ G3, G3 = t._pens.deleteForChange (Brushes.createAll api colors G1).2 :=
    ⟨_, rfl⟩
  have e : t.change api colors g
      = ({ _colors := colors, _brushes := (Brushes.createAll api colors G1).1,
           _pens := (Pens.createAll api colors G3).1 }, (Pens.createAll api colors G3).2) := by
    rw [hG3, hG1]
    rfl
  have n1 : G1.next = g.next := by
    rw [hG1, Brushes_deleteForChange_eq]
    exact deleteAll_next _ _
  have w1 : G1.WellFormed := by
    rw [hG1, Brushes_deleteForChange_eq]
    exact deleteAll_wf _ _ hw
  have w2 := Brushes_createAll_wf api colors G1 w1
  have n3 : G3.next = g.next + 12 := by
    rw [hG3, Pens_deleteForChange_eq, deleteAll_next, Brushes_createAll_next, n1]
  have w3 : G3.WellFormed := by
    rw [hG3, Pens_deleteForChange_eq]
    exact deleteAll_wf _ _ w2
  have w4 := Pens_createAll_wf api colors G3 w3
  have hkeep : ∀ o ∈ (Brushes.createAll api colors G1).2.live, o.handle ∉ t._pens.handles →
      o ∈ (Pens.createAll api colors G3).2.live := by
    intro o ho hn
    apply Pens_createAll_mono
    rw [hG3, Pens_deleteForChange_eq, mem_live_deleteAll]
    exact ⟨ho, hn⟩
  have hfresh : ∀ k : Nat, 0 < k → (G1.next + k) ∉ t._pens.handles := by
    intro k hk hmem
    have h1 : @LE.le Nat _ (G1.next + k) g.next := hle _ hmem
    omega
  rw [e]
  refine ⟨w4, ?_, ?_, ?_, ?_⟩
  · show (Pens.createAll api colors G3).2.next = g.next + 16
    rw [Pens_createAll_next, n3]
  · intro h
    show h ∈ (Brushes.createAll api colors G1).1.handles
        ++ (Pens.createAll api colors G3).1.handles ↔ _
    rw [Brushes_createAll_handles, Pens_createAll_handles, n1, n3]
    simp only [List.mem_append, List.mem_cons, List.mem_singleton, List.not_mem_nil, or_false]
    constructor
    · intro hh
      have hh2 : @Eq Nat h (g.next + 1) ∨ @Eq Nat h (g.next + 2) ∨ @Eq Nat h (g.next + 3)
          ∨ @Eq Nat h (g.next + 4) ∨ @Eq Nat h (g.next + 5) ∨ @Eq Nat h (g.next + 6)
          ∨ @Eq Nat h (g.next + 7) ∨ @Eq Nat h (g.next + 8) ∨ @Eq Nat h (g.next + 9)
          ∨ @Eq Nat h (g.next + 10) ∨ @Eq Nat h (g.next + 11) ∨ @Eq Nat h (g.next + 12)
          ∨ @Eq Nat h (g.next + 12 + 1) ∨ @Eq Nat h (g.next + 12 + 2)
          ∨ @Eq Nat h (g.next + 12 + 3) ∨ @Eq Nat h (g.next + 12 + 4) := by
        rcases hh with hh | hh
        · rcases hh with a | a | a | a | a | a | a | a | a | a | a | a <;> simp [a]
        · rcases hh with a | a | a | a <;> simp [a]
      show @LT.lt Nat _ g.next h ∧ @LE.le Nat _ h (g.next + 16)
      omega
    · intro hh
      have hh2 : @LT.lt Nat _ g.next h ∧ @LE.le Nat _ h (g.next + 16) := hh
      have hh3 : @Eq Nat h (g.next + 1) ∨ @Eq Nat h (g.next + 2) ∨ @Eq Nat h (g.next + 3)
          ∨ @Eq Nat h (g.next + 4) ∨ @Eq Nat h (g.next + 5) ∨ @Eq Nat h (g.next + 6)
          ∨ @Eq Nat h (g.next + 7) ∨ @Eq Nat h (g.next + 8) ∨ @Eq Nat h (g.next + 9)
          ∨ @Eq Nat h (g.next + 10) ∨ @Eq Nat h (g.next + 11) ∨ @Eq Nat h (g.next + 12)
          ∨ @Eq Nat h (g.next + 12 + 1) ∨ @Eq Nat h (g.next + 12 + 2)
          ∨ @Eq Nat h (g.next + 12 + 3) ∨ @Eq Nat h (g.next + 12 + 4) := by
        omega
      rcases hh3 with a | a | a | a | a | a | a | a | a | a | a | a | a | a | a | a <;>
        simp [a]
  · have hc := Brushes_createAll_ctl api colors G1
    refine ⟨hasBrush_of_mem _ _ _ (Nat.succ_ne_zero _) ?_,
      hasBrush_of_mem _ _ _ (Nat.succ_ne_zero _) ?_,
      hasBrush_of_mem _ _ _ (Nat.succ_ne_zero _) ?_,
      hasBrush_of_mem _ _ _ (Nat.succ_ne_zero _) ?_⟩
    · exact hkeep _ hc.1 (hfresh 1 (by decide))
    · exact hkeep _ hc.2.1 (hfresh 2 (by decide))
    · exact hkeep _ hc.2.2.1 (hfresh 4 (by decide))
    · exact hkeep _ hc.2.2.2 (hfresh 5 (by decide))
  · intro o ho hn
    have hn1 : o.handle ∉ [t._brushes.background, t._brushes.softerBackground,
        t._brushes.hotBackground, t._brushes.pureBackground, t._brushes.errorBackground,
        t._brushes.hardlightBackground, t._brushes.softlightBackground,
        t._brushes.textColorBrush, t._brushes.darkerTextColorBrush] := by
      intro hm
      apply hn
      simp only [Theme.handles, Brushes.handles, List.mem_append, List.mem_cons,
        List.mem_singleton, List.not_mem_nil, or_false] at hm ⊢
      rcases hm with a | a | a | a | a | a | a | a | a <;> simp [a]
    have hn2 : o.handle ∉ t._pens.handles := by
      intro hm
      exact hn (List.mem_append_right _ hm)
    apply hkeep _ _ hn2
    apply Brushes_createAll_mono
    rw [hG1, Brushes_deleteForChange_eq, mem_live_deleteAll]
    exact ⟨ho, hn1⟩

end NppDarkMode

namespace NppDarkMode

theorem theme_setTheme_gdi_other (s : State) (r q : ThemeRef) (t : Theme) (g : Gdi)
    (h : q ≠ r) : ({ s.setTheme r t with gdi := g } : State).theme q = s.theme q := by
  cases r <;> cases q <;> first | rfl | exact absurd rfl h

theorem gdi_setTheme_gdi (s : State) (r : ThemeRef) (t : Theme) (g : Gdi) :
    ({ s.setTheme r t with gdi := g } : State).gdi = g := by
  cases r <;> rfl

theorem ctlBrushesMatch_mono (g g2 : Gdi) (t : Theme)
    (hsub : ∀ o ∈ g.live, (o.handle ∈ t._brushes.handles → o ∈ g2.live))
    (hm : t.ctlBrushesMatch g) : t.ctlBrushesMatch g2 := by
  refine ⟨⟨hm.1.1, hsub _ hm.1.2 ?_⟩, ⟨hm.2.1.1, hsub _ hm.2.1.2 ?_⟩,
    ⟨hm.2.2.1.1, hsub _ hm.2.2.1.2 ?_⟩, ⟨hm.2.2.2.1, hsub _ hm.2.2.2.2 ?_⟩⟩ <;>
    simp [Brushes.handles]

/-- The invariant survives `change` on any one theme. -/
theorem Inv_changeAt (api : Shlwapi) (s : State) (r : ThemeRef) (colors : Colors)
    (hinv : s.Inv) : (s.changeAt api r colors).Inv := by
  obtain ⟨hw, hmatch, hle, hdis⟩ := hinv
  have hpens : ∀ h ∈ (s.theme r)._pens.handles, h ≤ s.gdi.next :=
    fun h hh => hle r h (List.mem_append_right _ hh)
  obtain ⟨w4, hnext, hrange, hnew, hold⟩ :=
    Theme_change_spec api (s.theme r) colors s.gdi hw hpens
  have eg : (s.changeAt api r colors).gdi = ((s.theme r).change api colors s.gdi).2 :=
    gdi_setTheme_gdi _ _ _ _
  have er : (s.changeAt api r colors).theme r = ((s.theme r).change api colors s.gdi).1 :=
    theme_setTheme_gdi _ _ _ _
  have eq : ∀ q, q ≠ r → (s.changeAt api r colors).theme q = s.theme q :=
    fun q hq => theme_setTheme_gdi_other _ _ _ _ _ hq
  refine ⟨?_, ?_, ?_, ?_⟩
  · rw [eg]
    exact w4
  · intro q
    rw [eg]
    by_cases hq : q = r
    · rw [hq, er]
      exact hnew
    · rw [eq q hq]
      refine ctlBrushesMatch_mono s.gdi _ _ ?_ (hmatch q)
      intro o ho hoh
      refine hold o ho ?_
      exact hdis q r hq o.handle (List.mem_append_left _ hoh)
  · intro q h hh
    rw [eg, hnext]
    by_cases hq : q = r
    · rw [hq, er] at hh
      have := ((hrange h).mp hh).2
      exact this
    · rw [eq q hq] at hh
      have h1 : @LE.le Nat _ h s.gdi.next := hle q h hh
      show @LE.le Nat _ h (s.gdi.next + 16)
      omega
  · intro a b hab h ha hb
    by_cases ha1 : a = r
    · have hb1 : b ≠ r := fun e => hab (ha1.trans e.symm)
      rw [ha1, er] at ha
      rw [eq b hb1] at hb
      have h1 : @LT.lt Nat _ s.gdi.next h := ((hrange h).mp ha).1
      have h2 : @LE.le Nat _ h s.gdi.next := hle b h hb
      omega
    · rw [eq a ha1] at ha
      by_cases hb1 : b = r
      · rw [hb1, er] at hb
        have h1 : @LT.lt Nat _ s.gdi.next h := ((hrange h).mp hb).1
        have h2 : @LE.le Nat _ h s.gdi.next := hle a h ha
        omega
      · rw [eq b hb1] at hb
        exact hdis a b hab h ha hb

theorem changeTheme_eq_changeAt (api : Shlwapi) (s : State) (colors : Colors) :
    changeTheme api s colors = s.changeAt api (getThemeRef s.g_colorToneChoice) colors := rfl

theorem changeCustomTheme_eq_changeAt (api : Shlwapi) (s : State) (colors : Colors) :
    changeCustomTheme api s colors = s.changeAt api ThemeRef.tCustom colors := rfl

/-- The invariant gives the hypothesis of C17 for the selected theme. -/
theorem Inv_selected (s : State) (hinv : s.Inv) : (getTheme s).ctlBrushesMatch s.gdi :=
  hinv.2.1 _

/-- The ten colour setters, `changeCustomTheme`, `setDarkTone` and
`configuredOptions` keep the invariant. -/
theorem Inv_operations (api : Shlwapi) (s : State) (c : COLORREF) (colors : Colors)
    (tone : ColorTone) (nppGui : DarkModeConf) (hinv : s.Inv) :
    (setBackgroundColor api s c).Inv ∧ (setSofterBackgroundColor api s c).Inv
    ∧ (setHotBackgroundColor api s c).Inv ∧ (setDarkerBackgroundColor api s c).Inv
    ∧ (setErrorBackgroundColor api s c).Inv ∧ (setTextColor api s c).Inv
    ∧ (setDarkerTextColor api s c).Inv ∧ (setDisabledTextColor api s c).Inv
    ∧ (setLinkTextColor api s c).Inv ∧ (setEdgeColor api s c).Inv
    ∧ (changeCustomTheme api s colors).Inv ∧ (setDarkTone s tone).Inv
    ∧ (configuredOptions api nppGui s).2.Inv := by
  have k : ∀ cl, (changeTheme api s cl).Inv := fun cl => by
    rw [changeTheme_eq_changeAt]
    exact Inv_changeAt api s _ cl hinv
  have ktone : ∀ tn, ({ s with g_colorToneChoice := tn } : State).Inv := fun tn => hinv
  refine ⟨k _, k _, k _, k _, k _, k _, k _, k _, k _, k _, ?_, ktone tone, ?_⟩
  · rw [changeCustomTheme_eq_changeAt]
    exact Inv_changeAt api s _ colors hinv
  · show (changeCustomTheme api { s with g_colorToneChoice := nppGui._colorTone }
        nppGui._customColors).Inv
    rw [changeCustomTheme_eq_changeAt]
    exact Inv_changeAt api _ _ _ (ktone _)

end NppDarkMode

namespace NppDarkMode

/-- What the constructor `Theme::Theme` does to the object table. -/
theorem Theme_new_spec (api : Shlwapi) (colors : Colors) (g : Gdi) (hw : g.WellFormed) :
    (Theme.new api colors g).2.WellFormed
    ∧ (Theme.new api colors g).2.next = g.next + 16
    ∧ (∀ h, h ∈ (Theme.new api colors g).1.handles ↔ (g.next < h ∧ h ≤ g.next + 16))
    ∧ (Theme.new api colors g).1.ctlBrushesMatch (Theme.new api colors g).2
    ∧ (∀ o ∈ g.live, o ∈ (Theme.new api colors g).2.live) := by
  have e : Theme.new api colors g
      = ({ _colors := colors, _brushes := (Brushes.createAll api colors g).1,
           _pens := (Pens.createAll api colors (Brushes.createAll api colors g).2).1 },
         (Pens.createAll api colors (Brushes.createAll api colors g).2).2) := rfl
  have w2 := Brushes_createAll_wf api colors g hw
  rw [e]
  refine ⟨Pens_createAll_wf api colors _ w2, rfl, ?_, ?_, ?_⟩
  · intro h
    show h ∈ (Brushes.createAll api colors g).1.handles
        ++ (Pens.createAll api colors (Brushes.createAll api colors g).2).1.handles ↔ _
    rw [Brushes_createAll_handles, Pens_createAll_handles, Brushes_createAll_next]
    simp only [List.mem_append, List.mem_cons, List.mem_singleton, List.not_mem_nil, or_false]
    constructor
    · intro hh
      have hh2 : @Eq Nat h (g.next + 1) ∨ @Eq Nat h (g.next + 2) ∨ @Eq Nat h (g.next + 3)
          ∨ @Eq Nat h (g.next + 4) ∨ @Eq Nat h (g.next + 5) ∨ @Eq Nat h (g.next + 6)
          ∨ @Eq Nat h (g.next + 7) ∨ @Eq Nat h (g.next + 8) ∨ @Eq Nat h (g.next + 9)
          ∨ @Eq Nat h (g.next + 10) ∨ @Eq Nat h (g.next + 11) ∨ @Eq Nat h (g.next + 12)
          ∨ @Eq Nat h (g.next + 12 + 1) ∨ @Eq Nat h (g.next + 12 + 2)
          ∨ @Eq Nat h (g.next + 12 + 3) ∨ @Eq Nat h (g.next + 12 + 4) := by
        rcases hh with hh | hh
        · rcases hh with a | a | a | a | a | a | a | a | a | a | a | a <;> simp [a]
        · rcases hh with a | a | a | a <;> simp [a]
      show @LT.lt Nat _ g.next h ∧ @LE.le Nat _ h (g.next + 16)
      omega
    · intro hh
      have hh2 : @LT.lt Nat _ g.next h ∧ @LE.le Nat _ h (g.next + 16) := hh
      have hh3 : @Eq Nat h (g.next + 1) ∨ @Eq Nat h (g.next + 2) ∨ @Eq Nat h (g.next + 3)
          ∨ @Eq Nat h (g.next + 4) ∨ @Eq Nat h (g.next + 5) ∨ @Eq Nat h (g.next + 6)
          ∨ @Eq Nat h (g.next + 7) ∨ @Eq Nat h (g.next + 8) ∨ @Eq Nat h (g.next + 9)
          ∨ @Eq Nat h (g.next + 10) ∨ @Eq Nat h (g.next + 11) ∨ @Eq Nat h (g.next + 12)
          ∨ @Eq Nat h (g.next + 12 + 1) ∨ @Eq Nat h (g.next + 12 + 2)
          ∨ @Eq Nat h (g.next + 12 + 3) ∨ @Eq Nat h (g.next + 12 + 4) := by
        omega
      rcases hh3 with a | a | a | a | a | a | a | a | a | a | a | a | a | a | a | a <;>
        simp [a]
  · have hc := Brushes_createAll_ctl api colors g
    exact ⟨hasBrush_of_mem _ _ _ (Nat.succ_ne_zero _) (Pens_createAll_mono _ _ _ _ hc.1),
      hasBrush_of_mem _ _ _ (Nat.succ_ne_zero _) (Pens_createAll_mono _ _ _ _ hc.2.1),
      hasBrush_of_mem _ _ _ (Nat.succ_ne_zero _) (Pens_createAll_mono _ _ _ _ hc.2.2.1),
      hasBrush_of_mem _ _ _ (Nat.succ_ne_zero _) (Pens_createAll_mono _ _ _ _ hc.2.2.2)⟩
  · intro o ho
    exact Pens_createAll_mono _ _ _ _ (Brushes_createAll_mono _ _ _ _ ho)

theorem ctlBrushesMatch_of_subset (g g2 : Gdi) (t : Theme) (hsub : ∀ o ∈ g.live, o ∈ g2.live)
    (hm : t.ctlBrushesMatch g) : t.ctlBrushesMatch g2 :=
  ctlBrushesMatch_mono g g2 t (fun o ho _ => hsub o ho) hm

/-- The invariant holds right after static initialisation. -/
theorem Inv_initialState (api : Shlwapi) : (initialState api).Inv := by
  obtain ⟨x1, e1⟩ : ∃ x, x = Theme.new api darkColors {} := ⟨_, rfl⟩
  obtain ⟨x2, e2⟩ : ∃ x, x = Theme.new api darkRedColors x1.2 := ⟨_, rfl⟩
  obtain ⟨x3, e3⟩ : ∃ x, x = Theme.new api darkGreenColors x2.2 := ⟨_, rfl⟩
  obtain ⟨x4, e4⟩ : ∃ x, x = Theme.new api darkBlueColors x3.2 := ⟨_, rfl⟩
  obtain ⟨x5, e5⟩ : ∃ x, x = Theme.new api darkPurpleColors x4.2 := ⟨_, rfl⟩
  obtain ⟨x6, e6⟩ : ∃ x, x = Theme.new api darkCyanColors x5.2 := ⟨_, rfl⟩
  obtain ⟨x7, e7⟩ : ∃ x, x = Theme.new api darkOliveColors x6.2 := ⟨_, rfl⟩
  obtain ⟨x8, e8⟩ : ∃ x, x = Theme.new api darkCustomizedColors x7.2 := ⟨_, rfl⟩
  have e : initialState api
      = { g_colorToneChoice := blackTone, tDefault := x1.1, tR := x2.1, tG := x3.1, tB := x4.1,
          tP := x5.1, tC := x6.1, tO := x7.1, tCustom := x8.1, _options := {}, gdi := x8.2 } := by
    rw [e8, e7, e6, e5, e4, e3, e2, e1]
    rfl
  have w0 : ({} : Gdi).WellFormed := by decide
  have s1 := Theme_new_spec api darkColors {} w0
  rw [← e1] at s1
  obtain ⟨w1, n1, r1, m1, l1⟩ := s1
  have s2 := Theme_new_spec api darkRedColors x1.2 w1
  rw [← e2] at s2
  obtain ⟨w2, n2, r2, m2, l2⟩ := s2
  have s3 := Theme_new_spec api darkGreenColors x2.2 w2
  rw [← e3] at s3
  obtain ⟨w3, n3, r3, m3, l3⟩ := s3
  have s4 := Theme_new_spec api darkBlueColors x3.2 w3
  rw [← e4] at s4
  obtain ⟨w4, n4, r4, m4, l4⟩ := s4
  have s5 := Theme_new_spec api darkPurpleColors x4.2 w4
  rw [← e5] at s5
  obtain ⟨w5, n5, r5, m5, l5⟩ := s5
  have s6 := Theme_new_spec api darkCyanColors x5.2 w5
  rw [← e6] at s6
  obtain ⟨w6, n6, r6, m6, l6⟩ := s6
  have s7 := Theme_new_spec api darkOliveColors x6.2 w6
  rw [← e7] at s7
  obtain ⟨w7, n7, r7, m7, l7⟩ := s7
  have s8 := Theme_new_spec api darkCustomizedColors x7.2 w7
  rw [← e8] at s8
  obtain ⟨w8, n8, r8, m8, l8⟩ := s8
  have n0 : ({} : Gdi).next = 0 := rfl
  rw [n0] at n1 r1
  rw [n1] at n2 r2
  rw [n2] at n3 r3
  rw [n3] at n4 r4
  rw [n4] at n5 r5
  rw [n5] at n6 r6
  rw [n6] at n7 r7
  rw [n7] at n8 r8
  have k7 := ctlBrushesMatch_of_subset _ _ _ l8 m7
  have k6 := ctlBrushesMatch_of_subset _ _ _ (fun o ho => l8 o (l7 o ho)) m6
  have k5 := ctlBrushesMatch_of_subset _ _ _ (fun o ho => l8 o (l7 o (l6 o ho))) m5
  have k4 := ctlBrushesMatch_of_subset _ _ _ (fun o ho => l8 o (l7 o (l6 o (l5 o ho)))) m4
  have k3 := ctlBrushesMatch_of_subset _ _ _
    (fun o ho => l8 o (l7 o (l6 o (l5 o (l4 o ho))))) m3
  have k2 := ctlBrushesMatch_of_subset _ _ _
    (fun o ho => l8 o (l7 o (l6 o (l5 o (l4 o (l3 o ho)))))) m2
  have k1 := ctlBrushesMatch_of_subset _ _ _
    (fun o ho => l8 o (l7 o (l6 o (l5 o (l4 o (l3 o (l2 o ho))))))) m1
  have key : ∀ (r : ThemeRef) (h : Nat),
      h ∈ (({ g_colorToneChoice := blackTone, tDefault := x1.1, tR := x2.1, tG := x3.1,
              tB := x4.1, tP := x5.1, tC := x6.1, tO := x7.1, tCustom := x8.1, _options := {},
              gdi := x8.2 } : State).theme r).handles →
      16 * r.index < h ∧ h ≤ 16 * r.index + 16 := by
    intro r h hh
    cases r
    · have u : @LT.lt Nat _ 0 h ∧ @LE.le Nat _ h (0 + 16) := (r1 h).mp hh
      show 16 * 0 < h ∧ h ≤ 16 * 0 + 16
      omega
    · have u : @LT.lt Nat _ (0 + 16) h ∧ @LE.le Nat _ h (0 + 16 + 16) := (r2 h).mp hh
      show 16 * 1 < h ∧ h ≤ 16 * 1 + 16
      omega
    · have u : @LT.lt Nat _ (0 + 16 + 16) h ∧ @LE.le Nat _ h (0 + 16 + 16 + 16) :=
        (r3 h).mp hh
      show 16 * 2 < h ∧ h ≤ 16 * 2 + 16
      omega
    · have u : @LT.lt Nat _ (0 + 16 + 16 + 16) h ∧ @LE.le Nat _ h (0 + 16 + 16 + 16 + 16) :=
        (r4 h).mp hh
      show 16 * 3 < h ∧ h ≤ 16 * 3 + 16
      omega
    · have u : @LT.lt Nat _ (0 + 16 + 16 + 16 + 16) h
          ∧ @LE.le Nat _ h (0 + 16 + 16 + 16 + 16 + 16) := (r5 h).mp hh
      show 16 * 4 < h ∧ h ≤ 16 * 4 + 16
      omega
    · have u : @LT.lt Nat _ (0 + 16 + 16 + 16 + 16 + 16) h
          ∧ @LE.le Nat _ h (0 + 16 + 16 + 16 + 16 + 16 + 16) := (r6 h).mp hh
      show 16 * 5 < h ∧ h ≤ 16 * 5 + 16
      omega
    · have u : @LT.lt Nat _ (0 + 16 + 16 + 16 + 16 + 16 + 16) h
          ∧ @LE.le Nat _ h (0 + 16 + 16 + 16 + 16 + 16 + 16 + 16) := (r7 h).mp hh
      show 16 * 6 < h ∧ h ≤ 16 * 6 + 16
      omega
    · have u : @LT.lt Nat _ (0 + 16 + 16 + 16 + 16 + 16 + 16 + 16) h
          ∧ @LE.le Nat _ h (0 + 16 + 16 + 16 + 16 + 16 + 16 + 16 + 16) := (r8 h).mp hh
      show 16 * 7 < h ∧ h ≤ 16 * 7 + 16
      omega
  have hidx : ∀ r : ThemeRef, r.index ≤ 7 := by
    intro r
    cases r <;> decide
  have hinj : ∀ a b : ThemeRef, a ≠ b → a.index ≠ b.index := by
    intro a b hab
    cases a <;> cases b <;> first | exact absurd rfl hab | decide
  rw [e]
  refine ⟨w8, ?_, ?_, ?_⟩
  · intro r
    cases r
    · exact k1
    · exact k2
    · exact k3
    · exact k4
    · exact k5
    · exact k6
    · exact k7
    · exact m8
  · intro r h hh
    show @LE.le Nat _ h x8.2.next
    rw [n8]
    have u := key r h hh
    have v := hidx r
    omega
  · intro a b hab h ha hb
    have u := key a h ha
    have v := key b h hb
    have w := hinj a b hab
    omega

end NppDarkMode
